import Mathlib

/-!
# bnxt_re: debugfs clear operations and the doorbell-recovery resource lists

A shallow embedding of parts of `bnxt_re.h` and `debugfs.c`.

* Structures carry the fields of the C structures that the embedded functions
  read or write.  `u64`/`u32`/`unsigned long` values are `Nat`, `atomic_t`
  values are `Int`, `bool` is `Bool`.
* A pointer the source tests against `NULL` before use (`dbr_sw_stats`) is an
  `Option`; a pointer the source dereferences unconditionally (`dbg_stats`,
  `qplib_res.pacing_data`) holds its pointee directly.
* Arrays are index-to-value functions; their declared bounds
  (`RCFW_MAX_STAT_INDEX`, `RCFW_MAX_LATENCY_MSEC_SLAB_INDEX`) are declared in a
  header that is not part of the sources and are taken as parameters.
* The show handlers of `debugfs.c` return what they leave behind: return value,
  the sequence of `seq_printf` calls, the device record.  Helpers that are
  defined outside the sources are collected in `show_env` and are parameters.
* The inline helpers of `bnxt_re.h` and the per-QP info file of `debugfs.c` take
  the firmware-interface masks, the kernel's enumeration constants and the
  kernel functions they call as parameters (`qp_info_env` for the info file).
-/

namespace BnxtRe

/-! ## Data model (`bnxt_re.h`) -/

/-- Resource counters `struct bnxt_re_res_cntrs` (`rdev->stats.rsors`): the
fields accessed by `bnxt_re_info_debugfs_clear`; all are `atomic_t`. -/
structure bnxt_re_res_cntrs where
  qp_count : Int
  rc_qp_count : Int
  ud_qp_count : Int
  cq_count : Int
  srq_count : Int
  mr_count : Int
  mw_count : Int
  ah_count : Int
  pd_count : Int
  resize_count : Int
  max_qp_count : Int
  max_rc_qp_count : Int
  max_ud_qp_count : Int
  max_cq_count : Int
  max_srq_count : Int
  max_mr_count : Int
  max_mw_count : Int
  max_ah_count : Int
  max_pd_count : Int

/-- Doorbell-queue debug statistics `struct bnxt_re_dbq_stats`.  The member
`do_pacing_retry` is written by `bnxt_re_drv_stats_debugfs_clear` and printed by
`bnxt_re_drv_stats_debugfs_show`, so it is part of the record. -/
structure bnxt_re_dbq_stats where
  fifo_occup_slab_1 : Nat
  fifo_occup_slab_2 : Nat
  fifo_occup_slab_3 : Nat
  fifo_occup_slab_4 : Nat
  fifo_occup_water_mark : Nat
  do_pacing_slab_1 : Nat
  do_pacing_slab_2 : Nat
  do_pacing_slab_3 : Nat
  do_pacing_slab_4 : Nat
  do_pacing_slab_5 : Nat
  do_pacing_water_mark : Nat
  do_pacing_retry : Nat

/-- MAD counters `struct bnxt_re_dbg_mad`. -/
structure bnxt_re_dbg_mad where
  mad_consumed : Nat
  mad_processed : Nat

/-- Device debug statistics `struct bnxt_re_drv_dbg_stats`. -/
structure bnxt_re_drv_dbg_stats where
  dbq : bnxt_re_dbq_stats
  mad : bnxt_re_dbg_mad

/-- DB pacing counters `struct bnxt_re_dbr_sw_stats`. -/
structure bnxt_re_dbr_sw_stats where
  dbq_int_recv : Nat
  dbq_int_en : Nat
  dbq_pacing_resched : Nat
  dbq_pacing_complete : Nat
  dbq_pacing_alerts : Nat
  dbr_drop_recov_events : Nat
  dbr_drop_recov_timeouts : Nat
  dbr_drop_recov_timeout_users : Nat
  dbr_drop_recov_event_skips : Nat

/-- The members of `struct bnxt_qplib_rcfw` (`rdev->rcfw`) used by the
slow-path performance statistics in `debugfs.c`. -/
structure bnxt_qplib_rcfw where
  sp_perf_stats_enabled : Bool
  qp_create_stats : Nat → Nat
  qp_destroy_stats : Nat → Nat
  mr_create_stats : Nat → Nat
  mr_destroy_stats : Nat → Nat
  qp_modify_stats : Nat → Nat
  qp_create_stats_id : Nat
  qp_destroy_stats_id : Nat
  mr_create_stats_id : Nat
  mr_destroy_stats_id : Nat
  qp_modify_stats_id : Nat
  rcfw_lat_slab_msec : Nat → Nat

/-- The members of the shared pacing page `rdev->qplib_res.pacing_data` that
`bnxt_re.h` accesses. -/
structure bnxt_qplib_db_pacing_data where
  do_pacing : Nat
  pacing_th : Nat
  alarm_th : Nat
  dev_err_state : Bool

/-- The device record `struct bnxt_re_dev`: flags word, statistics, pacing
configuration and drop-recovery state. -/
structure bnxt_re_dev where
  flags : Nat
  rcfw : bnxt_qplib_rcfw
  pacing_data : bnxt_qplib_db_pacing_data
  rsors : bnxt_re_res_cntrs
  dbg_stats : bnxt_re_drv_dbg_stats
  pacing_algo_th : Nat
  pacing_en_int_th : Nat
  do_pacing_save : Nat
  dbr_pacing : Bool
  dbr_drop_recov : Bool
  user_dbr_drop_recov : Bool
  dbr_recovery_on : Bool
  user_dbr_drop_recov_timeout : Nat
  dbr_do_pacing : Nat
  dbq_watermark : Nat
  dbq_nq_id : Nat
  dbq_pacing_time : Nat
  dbr_def_do_pacing : Nat
  dbr_evt_curr_epoch : Nat
  dbq_int_disable : Bool
  dbr_sw_stats : Option bnxt_re_dbr_sw_stats

/-- Conversion of a `size_t` value to the `ssize_t` return type of a debugfs
write handler (two's complement, 64 bit). -/
def ssize_t_of (size : Nat) : Int :=
  if size % 2 ^ 64 < 2 ^ 63 then ((size % 2 ^ 64 : Nat) : Int)
  else ((size % 2 ^ 64 : Nat) : Int) - 2 ^ 64

/-- The C loop `for (i = 0; i < n; i++) body(i)` over a state. -/
def for_range {σ : Type} (n : Nat) (body : Nat → σ → σ) (s : σ) : σ :=
  (List.range n).foldl (fun acc i => body i acc) s

/-- The array store `a[i] = v`. -/
def array_set (a : Nat → Nat) (i v : Nat) : Nat → Nat :=
  fun j => if j = i then v else a j

/-! ## The administrative clear operations (`debugfs.c`) -/

/-- `bnxt_re_info_debugfs_clear`: clear the driver statistics maintained in the
info file.  `u` is the user buffer, `size` its length, `off` the file offset. -/
def bnxt_re_info_debugfs_clear (rdev : bnxt_re_dev) (_u : List Nat) (size : Nat)
    (_off : Int) : bnxt_re_dev × Int :=
  let rsors := rdev.rsors
  let rsors := { rsors with max_qp_count := rsors.qp_count }
  let rsors := { rsors with max_rc_qp_count := rsors.rc_qp_count }
  let rsors := { rsors with max_ud_qp_count := rsors.ud_qp_count }
  let rsors := { rsors with max_srq_count := rsors.srq_count }
  let rsors := { rsors with max_cq_count := rsors.cq_count }
  let rsors := { rsors with max_mr_count := rsors.mr_count }
  let rsors := { rsors with max_mw_count := rsors.mw_count }
  let rsors := { rsors with max_ah_count := rsors.ah_count }
  let rsors := { rsors with max_pd_count := rsors.pd_count }
  let rsors := { rsors with resize_count := 0 }
  let rdev := { rdev with rsors := rsors }
  match rdev.dbr_sw_stats with
  | some st =>
    let st := { st with dbq_int_recv := 0 }
    let st := { st with dbq_int_en := 0 }
    let st := { st with dbq_pacing_resched := 0 }
    let st := { st with dbq_pacing_complete := 0 }
    let st := { st with dbq_pacing_alerts := 0 }
    let rdev := { rdev with dbr_evt_curr_epoch := 0 }
    let st := { st with dbr_drop_recov_events := 0 }
    let st := { st with dbr_drop_recov_timeouts := 0 }
    let st := { st with dbr_drop_recov_timeout_users := 0 }
    let st := { st with dbr_drop_recov_event_skips := 0 }
    ({ rdev with dbr_sw_stats := some st }, ssize_t_of size)
  | none => (rdev, ssize_t_of size)

/-- One iteration of the first loop of `bnxt_re_perf_debugfs_clear`. -/
def perf_clear_stat_body (i : Nat) (rcfw : bnxt_qplib_rcfw) : bnxt_qplib_rcfw :=
  let rcfw := { rcfw with qp_create_stats := array_set rcfw.qp_create_stats i 0 }
  let rcfw := { rcfw with qp_destroy_stats := array_set rcfw.qp_destroy_stats i 0 }
  let rcfw := { rcfw with mr_create_stats := array_set rcfw.mr_create_stats i 0 }
  let rcfw := { rcfw with mr_destroy_stats := array_set rcfw.mr_destroy_stats i 0 }
  { rcfw with qp_modify_stats := array_set rcfw.qp_modify_stats i 0 }

/-- One iteration of the second loop of `bnxt_re_perf_debugfs_clear`. -/
def perf_clear_lat_body (i : Nat) (rcfw : bnxt_qplib_rcfw) : bnxt_qplib_rcfw :=
  { rcfw with rcfw_lat_slab_msec := array_set rcfw.rcfw_lat_slab_msec i 0 }

/-- `bnxt_re_perf_debugfs_clear`: clear the slow-path performance statistics.
The two array bounds are parameters (their `#define`s are not in the sources). -/
def bnxt_re_perf_debugfs_clear (RCFW_MAX_STAT_INDEX RCFW_MAX_LATENCY_MSEC_SLAB_INDEX : Nat)
    (rdev : bnxt_re_dev) (_u : List Nat) (size : Nat) (_off : Int) : bnxt_re_dev × Int :=
  if !rdev.rcfw.sp_perf_stats_enabled then
    (rdev, ssize_t_of size)
  else
    let rcfw := for_range RCFW_MAX_STAT_INDEX perf_clear_stat_body rdev.rcfw
    let rcfw := { rcfw with qp_create_stats_id := 0 }
    let rcfw := { rcfw with qp_destroy_stats_id := 0 }
    let rcfw := { rcfw with mr_create_stats_id := 0 }
    let rcfw := { rcfw with mr_destroy_stats_id := 0 }
    let rcfw := { rcfw with qp_modify_stats_id := 0 }
    let rcfw := for_range RCFW_MAX_LATENCY_MSEC_SLAB_INDEX perf_clear_lat_body rcfw
    ({ rdev with rcfw := rcfw }, ssize_t_of size)

/-- `bnxt_re_drv_stats_debugfs_clear`: clear the driver debug statistics. -/
def bnxt_re_drv_stats_debugfs_clear (rdev : bnxt_re_dev) (_u : List Nat) (size : Nat)
    (_off : Int) : bnxt_re_dev × Int :=
  let dbq := rdev.dbg_stats.dbq
  let dbq := { dbq with fifo_occup_slab_1 := 0 }
  let dbq := { dbq with fifo_occup_slab_2 := 0 }
  let dbq := { dbq with fifo_occup_slab_3 := 0 }
  let dbq := { dbq with fifo_occup_slab_4 := 0 }
  let dbq := { dbq with fifo_occup_water_mark := 0 }
  let dbq := { dbq with do_pacing_slab_1 := 0 }
  let dbq := { dbq with do_pacing_slab_2 := 0 }
  let dbq := { dbq with do_pacing_slab_3 := 0 }
  let dbq := { dbq with do_pacing_slab_4 := 0 }
  let dbq := { dbq with do_pacing_slab_5 := 0 }
  let dbq := { dbq with do_pacing_water_mark := 0 }
  let dbq := { dbq with do_pacing_retry := 0 }
  ({ rdev with dbg_stats := { rdev.dbg_stats with dbq := dbq } }, ssize_t_of size)

/-! ## The doorbell-recovery resource lists (`bnxt_re.h`)

The lists are the kernel's intrusive circular doubly-linked lists.  The embedding
keeps the link fields of every node and follows `include/linux/list.h` statement
by statement, so that adding a node that is already linked, or deleting one that
is not, does what the C code does.  A dereference of `NULL`, of a list poison
value or of `res_list[type]` with `type` out of bounds is a fault (`none`).
`spin_lock`/`spin_unlock` bracket each operation and have no effect on the
sequential state. -/

/-- Resource types, the anonymous `enum` before `struct bnxt_re_dbr_res_list`. -/
def BNXT_RE_RES_TYPE_CQ : Nat := 0

/-- Second enumerator. -/
def BNXT_RE_RES_TYPE_UCTX : Nat := 1

/-- Third enumerator. -/
def BNXT_RE_RES_TYPE_QP : Nat := 2

/-- Fourth enumerator. -/
def BNXT_RE_RES_TYPE_SRQ : Nat := 3

/-- Number of resource types, the length of `rdev->res_list`. -/
def BNXT_RE_RES_TYPE_MAX : Nat := 4

/-- A `struct list_head *` as used by the resource lists: `NULL`, one of the two
poison values written by `list_del`, the address of `rdev->res_list[type].head`,
or the address of the `dbr_list` member of the resource with handle `res`. -/
inductive list_ptr where
  | NULL
  | LIST_POISON1
  | LIST_POISON2
  | res_list_head (type : Nat)
  | dbr_list (res : Nat)
deriving DecidableEq

/-- The kernel's `struct list_head`. -/
structure list_head where
  next : list_ptr
  prev : list_ptr
deriving DecidableEq

/-- The link fields of every list node of a device and its resources. -/
abbrev list_mem := list_ptr → list_head

/-- Whether a pointer may be dereferenced. -/
def list_ptr.valid : list_ptr → Bool
  | .res_list_head type => decide (type < BNXT_RE_RES_TYPE_MAX)
  | .dbr_list _ => true
  | _ => false

/-- Load `*p`. -/
def list_read (m : list_mem) (p : list_ptr) : Option list_head :=
  if p.valid then some (m p) else none

/-- Store `p->next = v`. -/
def write_next (m : list_mem) (p v : list_ptr) : Option list_mem :=
  if p.valid then some (fun q => if q = p then { m q with next := v } else m q) else none

/-- Store `p->prev = v`. -/
def write_prev (m : list_mem) (p v : list_ptr) : Option list_mem :=
  if p.valid then some (fun q => if q = p then { m q with prev := v } else m q) else none

/-- `__list_add(new, prev, next)` of `list.h`. -/
def __list_add (new prev next : list_ptr) (m : list_mem) : Option list_mem := do
  let m ← write_prev m next new
  let m ← write_next m new next
  let m ← write_prev m new prev
  write_next m prev new

/-- `list_add_tail(new, head)` of `list.h`: `__list_add(new, head->prev, head)`. -/
def list_add_tail (new head : list_ptr) (m : list_mem) : Option list_mem := do
  let h ← list_read m head
  __list_add new h.prev head m

/-- `__list_del(prev, next)` of `list.h`. -/
def __list_del (prev next : list_ptr) (m : list_mem) : Option list_mem := do
  let m ← write_prev m next prev
  write_next m prev next

/-- `list_del(entry)` of `list.h`: unlink, then poison the entry's links. -/
def list_del (entry : list_ptr) (m : list_mem) : Option list_mem := do
  let e ← list_read m entry
  let m ← __list_del e.prev e.next m
  let m ← write_next m entry .LIST_POISON1
  write_prev m entry .LIST_POISON2

/-- The walk of `list_for_each`: `for (pos = head->next; pos != head; pos = pos->next)`,
collecting the visited nodes; `fuel` bounds the number of loop tests. -/
def list_walk (m : list_mem) (head : list_ptr) : Nat → list_ptr → Option (List list_ptr)
  | 0, _ => none
  | fuel + 1, pos =>
    if pos = head then some []
    else do
      let n ← list_read m pos
      let rest ← list_walk m head fuel n.next
      some (pos :: rest)

/-- `list_for_each(pos, head)`: the nodes enumerated from `head`. -/
def list_for_each (fuel : Nat) (m : list_mem) (head : list_ptr) : Option (List list_ptr) := do
  let h ← list_read m head
  list_walk m head fuel h.next

/-- `BNXT_RE_DBR_LIST_ADD(_rdev, _res, _type)`. -/
def BNXT_RE_DBR_LIST_ADD (rdev : list_mem) (res type : Nat) : Option list_mem :=
  list_add_tail (.dbr_list res) (.res_list_head type) rdev

/-- `BNXT_RE_DBR_LIST_DEL(_rdev, _res, _type)`: `_type` selects the lock
`res_list[_type].lock` only; `list_del` unlinks the node from wherever it is. -/
def BNXT_RE_DBR_LIST_DEL (rdev : list_mem) (res type : Nat) : Option list_mem :=
  if (list_ptr.res_list_head type).valid then list_del (.dbr_list res) rdev else none

/-- Links from `p` through the nodes `l` to `q`: following `next` from `p` visits
`l` in order and then `q`, every visited node can be dereferenced, and each
`prev` link mirrors the `next` link. -/
def list_seg (m : list_mem) : list_ptr → List list_ptr → list_ptr → Prop
  | p, [], q => p.valid = true ∧ q.valid = true ∧ (m p).next = q ∧ (m q).prev = p
  | p, x :: xs, q => p.valid = true ∧ (m p).next = x ∧ (m x).prev = p ∧ list_seg m x xs q

instance list_seg_decidable (m : list_mem) :
    (p : list_ptr) → (l : List list_ptr) → (q : list_ptr) → Decidable (list_seg m p l q)
  | p, [], q => by unfold list_seg; exact inferInstance
  | p, x :: xs, q => by
    unfold list_seg
    have := list_seg_decidable m x xs q
    exact inferInstance

/-- The circular list at `head` holds exactly the nodes `l`, in this order. -/
def is_list (m : list_mem) (head : list_ptr) (l : List list_ptr) : Prop :=
  list_seg m head l head ∧ (head :: l).Nodup

instance is_list_decidable (m : list_mem) (head : list_ptr) (l : List list_ptr) :
    Decidable (is_list m head l) := by
  unfold is_list; exact inferInstance

/-- Well-formed resource lists: for each resource type `t` the list at
`res_list[t].head` holds the handles `ls t`, and no handle is on two lists. -/
def res_lists_wf (m : list_mem) (ls : Nat → List Nat) : Prop :=
  (∀ t, t < BNXT_RE_RES_TYPE_MAX → is_list m (.res_list_head t) ((ls t).map .dbr_list)) ∧
  (∀ t, t < BNXT_RE_RES_TYPE_MAX → ∀ t', t' < BNXT_RE_RES_TYPE_MAX → t ≠ t' →
    ∀ h ∈ ls t, h ∉ ls t')

/-- The state after `INIT_LIST_HEAD` on every `res_list[type].head`, with the
`dbr_list` members of all resources zeroed (`kzalloc`). -/
def res_list_init : list_mem
  | .res_list_head type => ⟨.res_list_head type, .res_list_head type⟩
  | _ => ⟨.NULL, .NULL⟩

/-- A registration or deregistration of a resource handle on one list. -/
inductive dbr_list_op where
  | add (res : Nat)
  | del (res : Nat)
deriving DecidableEq

/-- Run a serialised sequence of `BNXT_RE_DBR_LIST_ADD` / `BNXT_RE_DBR_LIST_DEL`
operations on the list of resource type `type`. -/
def dbr_list_run (type : Nat) : List dbr_list_op → list_mem → Option list_mem
  | [], m => some m
  | .add res :: ops, m => (BNXT_RE_DBR_LIST_ADD m res type).bind (dbr_list_run type ops)
  | .del res :: ops, m => (BNXT_RE_DBR_LIST_DEL m res type).bind (dbr_list_run type ops)

/-- The sequence respects the usage rule: starting with the handles `cur` on the
list, each add is of a handle not currently present and each delete is of a
handle currently present. -/
def dbr_ops_ok : List Nat → List dbr_list_op → Prop
  | _, [] => True
  | cur, .add res :: ops => res ∉ cur ∧ dbr_ops_ok (cur ++ [res]) ops
  | cur, .del res :: ops => res ∈ cur ∧ dbr_ops_ok (cur.erase res) ops

/-- Handle `h` has an unmatched registration in `ops`: its last add has no later
delete. -/
def unmatched_add (ops : List dbr_list_op) (h : Nat) : Prop :=
  ∃ pre post, ops = pre ++ dbr_list_op.add h :: post ∧
    dbr_list_op.add h ∉ post ∧ dbr_list_op.del h ∉ post

/-! ## Concrete inputs used to evaluate the definitions -/

/-- A device record with all counters zero and the optional statistics block
absent. -/
def rdev_zero : bnxt_re_dev where
  flags := 0
  rcfw := ⟨false, fun _ => 0, fun _ => 0, fun _ => 0, fun _ => 0, fun _ => 0, 0, 0, 0, 0, 0,
    fun _ => 0⟩
  pacing_data := ⟨0, 0, 0, false⟩
  rsors := ⟨0, 0, 0, 0, 0, 0, 0, 0, 0, 0, 0, 0, 0, 0, 0, 0, 0, 0, 0⟩
  dbg_stats := ⟨⟨0, 0, 0, 0, 0, 0, 0, 0, 0, 0, 0, 0⟩, ⟨0, 0⟩⟩
  pacing_algo_th := 0
  pacing_en_int_th := 0
  do_pacing_save := 0
  dbr_pacing := false
  dbr_drop_recov := false
  user_dbr_drop_recov := false
  dbr_recovery_on := false
  user_dbr_drop_recov_timeout := 0
  dbr_do_pacing := 0
  dbq_watermark := 0
  dbq_nq_id := 0
  dbq_pacing_time := 0
  dbr_def_do_pacing := 0
  dbr_evt_curr_epoch := 0
  dbq_int_disable := false
  dbr_sw_stats := none

/-- A device in drop recovery at epoch 5 with pacing statistics allocated. -/
def rdev_recovering : bnxt_re_dev :=
  { rdev_zero with
    dbr_drop_recov := true
    dbr_recovery_on := true
    dbr_evt_curr_epoch := 5
    dbr_sw_stats := some ⟨3, 1, 4, 1, 5, 9, 2, 6, 5⟩ }

/-- A device whose slow-path performance statistics are disabled while
`qp_create_stats[0]` still holds 9. -/
def rdev_perf_disabled : bnxt_re_dev :=
  { rdev_zero with
    rcfw := { rdev_zero.rcfw with
      sp_perf_stats_enabled := false
      qp_create_stats := fun i => if i = 0 then 9 else 0 } }

/-- A device whose slow-path performance statistics are enabled and populated. -/
def rdev_perf_enabled : bnxt_re_dev :=
  { rdev_zero with
    rcfw := { rdev_zero.rcfw with
      sp_perf_stats_enabled := true
      qp_create_stats := fun i => i + 1
      qp_modify_stats := fun _ => 7
      qp_create_stats_id := 3
      rcfw_lat_slab_msec := fun i => 2 * i + 1 } }

end BnxtRe

namespace BnxtRe

/-- Resource lists with the CQ list holding the handles 1 and 2 (in this order)
and the other three lists empty. -/
def res_list_cq_1_2 : list_mem
  | .res_list_head 0 => ⟨.dbr_list 1, .dbr_list 2⟩
  | .dbr_list 1 => ⟨.dbr_list 2, .res_list_head 0⟩
  | .dbr_list 2 => ⟨.res_list_head 0, .dbr_list 1⟩
  | .res_list_head type => ⟨.res_list_head type, .res_list_head type⟩
  | _ => ⟨.NULL, .NULL⟩

/-- Resource lists that are all empty, after handle 7 was registered and
deregistered: its links hold the poison values written by `list_del`. -/
def res_list_7_deleted : list_mem
  | .res_list_head type => ⟨.res_list_head type, .res_list_head type⟩
  | .dbr_list 7 => ⟨.LIST_POISON1, .LIST_POISON2⟩
  | _ => ⟨.NULL, .NULL⟩

/-- Resource lists with handle 1 on the QP list and the other lists empty. -/
def res_list_qp_1 : list_mem
  | .res_list_head 2 => ⟨.dbr_list 1, .dbr_list 1⟩
  | .dbr_list 1 => ⟨.res_list_head 2, .res_list_head 2⟩
  | .res_list_head type => ⟨.res_list_head type, .res_list_head type⟩
  | _ => ⟨.NULL, .NULL⟩

end BnxtRe

namespace BnxtRe

/-! ## Chip generation, pacing defaults and device validity (`bnxt_re.h`) -/

/-- Chip context `struct bnxt_qplib_chip_ctx` (`rdev->chip_ctx`).  It is declared
in `qplib_res.h`, outside the sources; `chip_num` is the member that
`BNXT_RE_CHIP_P7` inspects. -/
structure bnxt_qplib_chip_ctx where
  chip_num : Nat

/-- First FIFO depth constant of `bnxt_re.h`. -/
def BNXT_RE_MAX_FIFO_DEPTH_P5 : Nat := 0x2c00

/-- Second FIFO depth constant of `bnxt_re.h`. -/
def BNXT_RE_MAX_FIFO_DEPTH_P7 : Nat := 0x8000

/-- `BNXT_RE_MAX_FIFO_DEPTH(ctx)`.  The predicate `_is_chip_p7` is defined in
`qplib_res.h`, outside the sources, and is a parameter. -/
def BNXT_RE_MAX_FIFO_DEPTH (_is_chip_p7 : bnxt_qplib_chip_ctx → Bool)
    (ctx : bnxt_qplib_chip_ctx) : Nat :=
  if _is_chip_p7 ctx then BNXT_RE_MAX_FIFO_DEPTH_P7 else BNXT_RE_MAX_FIFO_DEPTH_P5

/-- Default of `pacing_algo_th`, in entries of the doorbell FIFO. -/
def BNXT_RE_PACING_ALGO_THRESHOLD : Nat := 250

/-- `BNXT_RE_PACING_ALARM_TH_MULTIPLE(ctx)`: zero for Thor2 (P7), to disable the
auto tuning. -/
def BNXT_RE_PACING_ALARM_TH_MULTIPLE (_is_chip_p7 : bnxt_qplib_chip_ctx → Bool)
    (ctx : bnxt_qplib_chip_ctx) : Nat :=
  if _is_chip_p7 ctx then 0 else 2

/-- Bit number of the registered flag in `rdev->flags`. -/
def BNXT_RE_FLAG_IBDEV_REGISTERED : Nat := 1

/-- Bit number of the detached flag in `rdev->flags`. -/
def BNXT_RE_FLAG_ERR_DEVICE_DETACHED : Nat := 17

/-- The kernel's `test_bit(nr, addr)` on one `unsigned long` word. -/
def test_bit (nr : Nat) (word : Nat) : Bool :=
  (word / 2 ^ nr) % 2 = 1

/-- `bnxt_re_set_def_pacing_threshold`.  `rdev->chip_ctx` is passed beside the
device record; the product is computed in `u32`. -/
def bnxt_re_set_def_pacing_threshold (_is_chip_p7 : bnxt_qplib_chip_ctx → Bool)
    (chip_ctx : bnxt_qplib_chip_ctx) (rdev : bnxt_re_dev) : bnxt_re_dev :=
  let rdev := { rdev with pacing_data := { rdev.pacing_data with pacing_th := rdev.pacing_algo_th } }
  { rdev with pacing_data := { rdev.pacing_data with
      alarm_th :=
        (rdev.pacing_algo_th * BNXT_RE_PACING_ALARM_TH_MULTIPLE _is_chip_p7 chip_ctx) % 2 ^ 32 } }

/-- `bnxt_re_set_def_do_pacing`. -/
def bnxt_re_set_def_do_pacing (rdev : bnxt_re_dev) : bnxt_re_dev :=
  { rdev with pacing_data := { rdev.pacing_data with do_pacing := rdev.dbr_def_do_pacing } }

/-- `bnxt_re_set_pacing_dev_state`. -/
def bnxt_re_set_pacing_dev_state (rdev : bnxt_re_dev) : bnxt_re_dev :=
  { rdev with pacing_data := { rdev.pacing_data with
      dev_err_state := test_bit BNXT_RE_FLAG_ERR_DEVICE_DETACHED rdev.flags } }

/-- The loop of `bnxt_re_is_rdev_valid`:
`list_for_each_entry(tmp_rdev, &bnxt_re_dev_list, list)` with the early
`return true`.  The list is given by the device handles linked on it, in list
order.  The `pr_debug` message before `return false` is not part of the state. -/
def rdev_list_find (rdev : Nat) : List Nat → Bool
  | [] => false
  | tmp_rdev :: rest => if rdev = tmp_rdev then true else rdev_list_find rdev rest

/-- `bnxt_re_is_rdev_valid(rdev)` over the process-wide `bnxt_re_dev_list`: the
verdict, and the list as the call leaves it. -/
def bnxt_re_is_rdev_valid (bnxt_re_dev_list : List Nat) (rdev : Nat) : Bool × List Nat :=
  (rdev_list_find rdev bnxt_re_dev_list, bnxt_re_dev_list)

/-! ## Statistics read by the show handlers (`debugfs.c`)

The counters below are members of structures declared in `stats.h`, `qplib_sp.h`
and `qplib_rcfw.h`, outside the sources; each record lists the members that
`debugfs.c` reads, with the names it uses.  Counters are `u64` unless noted.
The declaration of `prev_oob` is outside the sources as well: it is a 64-bit
integer that is compared with and assigned from the `long long` local `oob_cnt`,
and whether it is a `long long` or an `unsigned long long` is the parameter
`show_env.prev_oob_unsigned`.  The record holds the value of the member. -/

/-- The members of `struct net_device` behind `netif_running` and
`netif_carrier_ok`. -/
structure net_device where
  running : Bool
  carrier_ok : Bool

/-- Device attributes `rdev->dev_attr`. -/
structure bnxt_qplib_dev_attr where
  max_qp : Int
  max_srq : Int
  max_cq : Int
  max_mr : Int
  max_mw : Int
  max_ah : Int
  max_pd : Int
  dev_cap_flags : Nat

/-- RoCE-only counters `struct bnxt_re_ro_counters` (`stats.dstat.cur[i]`). -/
structure bnxt_re_ro_counters where
  rx_pkts : Nat
  rx_bytes : Nat
  tx_pkts : Nat
  tx_bytes : Nat

/-- Congestion counters, one element of `stats.cnps.cur`. -/
structure bnxt_re_cnp_counters where
  cnp_tx_pkts : Nat
  cnp_tx_bytes : Nat
  cnp_rx_pkts : Nat
  cnp_rx_bytes : Nat
  ecn_marked : Nat

/-- Port counters `struct bnxt_re_rdata_counters` (`stats.dstat.rstat[i]`). -/
structure bnxt_re_rdata_counters where
  tx_ucast_pkts : Nat
  tx_ucast_bytes : Nat
  rx_ucast_pkts : Nat
  rx_ucast_bytes : Nat
  tx_bcast_pkts : Nat
  rx_error_pkts : Nat
  rx_discard_pkts : Nat
  tx_error_pkts : Nat
  tx_discard_pkts : Nat

/-- Request counters of one direction, the type of `ext_rstat[i].tx` and
`ext_rstat[i].rx`. -/
structure bnxt_re_ext_req_counters where
  atomic_req : Nat
  read_req : Nat
  read_resp : Nat
  write_req : Nat
  send_req : Nat

/-- Good-packet counters, the type of `ext_rstat[i].grx`. -/
structure bnxt_re_ext_good_counters where
  rx_pkts : Nat
  rx_bytes : Nat

/-- Extended counters `struct bnxt_re_ext_rstat` (`stats.dstat.ext_rstat[i]`). -/
structure bnxt_re_ext_rstat where
  tx : bnxt_re_ext_req_counters
  rx : bnxt_re_ext_req_counters
  grx : bnxt_re_ext_good_counters
  rx_dcn_payload_cut : Nat
  te_bypassed : Nat

/-- Extended error counters `struct bnxt_re_ext_roce_stats` (`stats.dstat.e_errs`). -/
structure bnxt_re_ext_roce_stats where
  oob : Nat
  to_retransmits : Nat
  seq_err_naks_rcvd : Nat
  rnr_naks_rcvd : Nat
  missing_resp : Nat
  dup_req : Nat
  oos : Nat

/-- Error counters `struct bnxt_qplib_roce_stats` (`stats.dstat.errs`). -/
structure bnxt_qplib_roce_stats where
  active_qp_count_p0 : Nat
  active_qp_count_p1 : Nat
  max_retry_exceeded : Nat
  to_retransmits : Nat
  seq_err_naks_rcvd : Nat
  rnr_naks_rcvd : Nat
  missing_resp : Nat
  dup_req : Nat
  unrecoverable_err : Nat
  bad_resp_err : Nat
  local_qp_op_err : Nat
  local_protection_err : Nat
  mem_mgmt_op_err : Nat
  remote_invalid_req_err : Nat
  remote_access_err : Nat
  remote_op_err : Nat
  res_exceed_max : Nat
  res_length_mismatch : Nat
  res_exceeds_wqe : Nat
  res_opcode_err : Nat
  res_rx_invalid_rkey : Nat
  res_rx_domain_err : Nat
  res_rx_no_perm : Nat
  res_rx_range_err : Nat
  res_tx_invalid_rkey : Nat
  res_tx_domain_err : Nat
  res_tx_no_perm : Nat
  res_tx_range_err : Nat
  res_irrq_oflow : Nat
  res_unsup_opcode : Nat
  res_unaligned_atomic : Nat
  res_rem_inv_err : Nat
  res_mem_error : Nat
  res_srq_err : Nat
  res_cmp_err : Nat
  res_invalid_dup_rkey : Nat
  res_wqe_format_err : Nat
  res_cq_load_err : Nat
  res_srq_load_err : Nat
  res_tx_pci_err : Nat
  res_rx_pci_err : Nat
  res_oos_drop_count : Nat

/-- Hardware statistics `rdev->stats.dstat`. -/
structure bnxt_re_rstat where
  cur : Nat → bnxt_re_ro_counters
  rstat : Nat → bnxt_re_rdata_counters
  ext_rstat : Nat → bnxt_re_ext_rstat
  e_errs : bnxt_re_ext_roce_stats
  errs : bnxt_qplib_roce_stats
  prev_oob : Int

/-- Congestion statistics `rdev->stats.cnps`. -/
structure bnxt_re_cc_stat where
  cur : Nat → bnxt_re_cnp_counters

/-- The members of `rdev->rcfw` printed by `bnxt_re_info_debugfs_show` and
`bnxt_re_perf_debugfs_show`, beyond the performance arrays. -/
structure bnxt_qplib_rcfw_dbg where
  num_irq_started : Nat
  num_irq_stopped : Nat
  poll_in_intr_en : Nat
  poll_in_intr_dis : Nat
  cmdq_full_dbg : Nat
  curr_shadow_qd : Int
  rcfw_lat_slab_sec : Nat → Nat

/-- RoCE push counters `struct bnxt_re_ppp_sw_stats`. -/
structure bnxt_re_ppp_sw_stats where
  ppp_enabled_ctxs : Nat
  ppp_enabled_qps : Nat

/-- The device record `struct bnxt_re_dev` with the further members that the
show handlers read.  `dstat`, `cnps` and `read_tstamp` are members of
`rdev->stats`; `rcfw_dbg` holds further members of `rdev->rcfw`; `devfn` is
`rdev->en_dev->pdev->devfn` and `bar0` is `rdev->en_dev->bar0`;
`serv_type_enabled` is `rdev->tc_rec[0].serv_type_enabled`; `binfo` is present
when the pointer `rdev->binfo` is not `NULL`. -/
structure bnxt_re_dev_ext extends bnxt_re_dev where
  ibdev_name : String
  netdev : Option net_device
  chip_ctx : bnxt_qplib_chip_ctx
  dev_attr : bnxt_qplib_dev_attr
  dstat : bnxt_re_rstat
  cnps : bnxt_re_cc_stat
  read_tstamp : Nat
  binfo : Option Unit
  is_virtfn : Bool
  devfn : Nat
  bar0 : Nat
  dbr_db_fifo_reg_off : Nat
  serv_type_enabled : Bool
  rcfw_dbg : bnxt_qplib_rcfw_dbg
  ppp_stats : bnxt_re_ppp_sw_stats

/-- Functions, macros and constants that `debugfs.c` uses and that are defined
outside the sources (`qplib_res.h`, `qplib_rcfw.h`, `stats.c`, the kernel), and
the signedness of the member `prev_oob` declared in `stats.h`:
`prev_oob_unsigned` is true for `unsigned long long` and false for `long long`. -/
structure show_env where
  _is_chip_p7 : bnxt_qplib_chip_ctx → Bool
  _is_chip_gen_p5_p7 : bnxt_qplib_chip_ctx → Bool
  bnxt_ext_stats_supported : bnxt_qplib_chip_ctx → Nat → Bool → Bool
  _is_hw_retx_supported : Nat → Bool
  _is_hw_resp_retx_supported : Nat → Bool
  BNXT_RE_PPP_ENABLED : bnxt_qplib_chip_ctx → Bool
  RCFW_MAX_LATENCY_SEC_SLAB_INDEX : Nat
  RCFW_MAX_LATENCY_MSEC_SLAB_INDEX : Nat
  RCFW_MAX_STAT_INDEX : Nat
  msecs_to_jiffies : Nat → Nat
  readl : Nat → Nat
  bnxt_re_get_device_stats : bnxt_re_dev_ext → Int × bnxt_re_dev_ext
  prev_oob_unsigned : Bool

/-- Process-wide state read by the show handlers: the list of valid devices,
the tick counter and the module parameter `restrict_stats`. -/
structure kernel_state where
  bnxt_re_dev_list : List Nat
  jiffies : Nat
  restrict_stats : Nat

/-- One argument of a `seq_printf` call, as C evaluates it: an unsigned value, a
signed value or a string. -/
inductive seq_arg where
  | u (v : Nat)
  | d (v : Int)
  | str (v : String)
deriving DecidableEq

/-- One `seq_printf` / `seq_puts` call: the format string and the arguments. -/
structure seq_rec where
  fmt : String
  args : List seq_arg
deriving DecidableEq

/-- The output of a show handler: the calls made on the `seq_file`, in order. -/
abbrev seq_file := List seq_rec

/-- `seq_printf(s, fmt, args...)`. -/
def seq_printf (s : seq_file) (fmt : String) (args : List seq_arg) : seq_file :=
  s ++ [⟨fmt, args⟩]

/-- `seq_puts(s, text)`. -/
def seq_puts (s : seq_file) (text : String) : seq_file :=
  s ++ [⟨text, []⟩]

/-- Addition of two `u64` values. -/
def u64_add (a b : Nat) : Nat := (a + b) % 2 ^ 64

/-- Conversion of an integer to `long long` (two's complement, 64 bit). -/
def to_s64 (z : Int) : Int := (z + 2 ^ 63) % 2 ^ 64 - 2 ^ 63

/-- The comparison `oob_cnt < rdev->stats.dstat.prev_oob` of the `long long`
local with the member `prev_oob`, after the usual arithmetic conversions: a
signed comparison when `prev_oob` is a `long long`; when it is an
`unsigned long long`, `oob_cnt` is converted to `unsigned long long` first. -/
def oob_lt_prev (prev_oob_unsigned : Bool) (oob_cnt prev_oob : Int) : Bool :=
  if prev_oob_unsigned then decide (oob_cnt % 2 ^ 64 < prev_oob)
  else decide (oob_cnt < prev_oob)

/-- The value that the assignment `oob_cnt = rdev->stats.dstat.prev_oob` gives
the `long long` local. -/
def prev_oob_to_s64 (prev_oob_unsigned : Bool) (prev_oob : Int) : Int :=
  if prev_oob_unsigned then to_s64 prev_oob else prev_oob

/-- The value that the assignment `rdev->stats.dstat.prev_oob = oob_cnt` stores
in the member. -/
def s64_to_prev_oob (prev_oob_unsigned : Bool) (oob_cnt : Int) : Int :=
  if prev_oob_unsigned then oob_cnt % 2 ^ 64 else oob_cnt

/-- Subtraction of two `unsigned long` values (64 bit). -/
def ulong_sub (a b : Nat) : Nat := (a + 2 ^ 64 - b % 2 ^ 64) % 2 ^ 64

/-- Linux `errno` value `ENOMEM`. -/
def ENOMEM : Int := 12

/-- Linux `errno` value `ENODEV`. -/
def ENODEV : Int := 19

/-- Minimum time between two statistics queries, in ms. -/
def BNXT_RE_STATS_CTX_UPDATE_TIMER : Nat := 250

/-- Driver version string of `bnxt_re.h`. -/
def ROCE_DRV_MODULE_VERSION : String := "229.0.139.0"

/-- The kernel's `PCI_FUNC(devfn)`. -/
def PCI_FUNC (devfn : Nat) : Nat := devfn % 8

/-- `IB_PORT_DOWN` of `enum ib_port_state`. -/
def IB_PORT_DOWN : Nat := 1

/-- `IB_PORT_ACTIVE` of `enum ib_port_state`. -/
def IB_PORT_ACTIVE : Nat := 4

/-- `bnxt_re_get_link_state` on the device's `netdev`. -/
def bnxt_re_get_link_state (netdev : net_device) : Nat :=
  if netdev.running && netdev.carrier_ok then IB_PORT_ACTIVE else IB_PORT_DOWN

/-- `bnxt_re_link_state_str`. -/
def bnxt_re_link_state_str (netdev : net_device) : String :=
  if bnxt_re_get_link_state netdev = IB_PORT_ACTIVE then "UP" else "DOWN"

/-- `is_qport_service_type_supported`. -/
def is_qport_service_type_supported (rdev : bnxt_re_dev_ext) : Bool :=
  rdev.serv_type_enabled

/-- A C `bool` passed to a variadic function. -/
def bool_arg (b : Bool) : seq_arg := .u (if b then 1 else 0)

/-! ## The counter printers of the info file (`debugfs.c`) -/

/-- `bnxt_re_print_roce_only_counters`. -/
def bnxt_re_print_roce_only_counters (q : show_env) (rdev : bnxt_re_dev_ext)
    (s : seq_file) : seq_file :=
  let roce_only := rdev.dstat.cur 0
  if q._is_chip_gen_p5_p7 rdev.chip_ctx && rdev.is_virtfn then s
  else
    let s := seq_printf s "\tRoCE Only Rx Pkts: %llu\n" [.u roce_only.rx_pkts]
    let s := seq_printf s "\tRoCE Only Rx Bytes: %llu\n" [.u roce_only.rx_bytes]
    let s := seq_printf s "\tRoCE Only Tx Pkts: %llu\n" [.u roce_only.tx_pkts]
    seq_printf s "\tRoCE Only Tx Bytes: %llu\n" [.u roce_only.tx_bytes]

/-- `bnxt_re_print_normal_total_counters`. -/
def bnxt_re_print_normal_total_counters (q : show_env) (rdev : bnxt_re_dev_ext)
    (s : seq_file) : seq_file :=
  if q._is_chip_gen_p5_p7 rdev.chip_ctx && rdev.is_virtfn then
    let rstat := rdev.dstat.rstat 0
    let s := seq_printf s "\tRx Pkts: %llu\n" [.u rstat.rx_ucast_pkts]
    let s := seq_printf s "\tRx Bytes: %llu\n" [.u rstat.rx_ucast_bytes]
    let s := seq_printf s "\tTx Pkts: %llu\n" [.u rstat.tx_ucast_pkts]
    seq_printf s "\tTx Bytes: %llu\n" [.u rstat.tx_ucast_bytes]
  else
    let cnps := rdev.cnps
    let roce_only := rdev.dstat.cur 0
    let s := seq_printf s "\tRx Pkts: %llu\n"
      [.u (u64_add (cnps.cur 0).cnp_rx_pkts roce_only.rx_pkts)]
    let s := seq_printf s "\tRx Bytes: %llu\n"
      [.u (u64_add (cnps.cur 0).cnp_rx_bytes roce_only.rx_bytes)]
    let s := seq_printf s "\tTx Pkts: %llu\n"
      [.u (u64_add (cnps.cur 0).cnp_tx_pkts roce_only.tx_pkts)]
    seq_printf s "\tTx Bytes: %llu\n"
      [.u (u64_add (cnps.cur 0).cnp_tx_bytes roce_only.tx_bytes)]

/-- `bnxt_re_print_bond_total_counters`. -/
def bnxt_re_print_bond_total_counters (q : show_env) (rdev : bnxt_re_dev_ext)
    (s : seq_file) : seq_file :=
  let cnps := rdev.cnps
  let roce_only := rdev.dstat.cur
  let s := seq_printf s "\tRx Pkts: %llu\n"
    [.u (u64_add (u64_add (u64_add (cnps.cur 0).cnp_rx_pkts (cnps.cur 1).cnp_rx_pkts)
      (roce_only 0).rx_pkts) (roce_only 1).rx_pkts)]
  let s := seq_printf s "\tRx Bytes: %llu\n"
    [.u (u64_add (u64_add (u64_add (cnps.cur 0).cnp_rx_bytes (cnps.cur 1).cnp_rx_bytes)
      (roce_only 0).rx_bytes) (roce_only 1).rx_bytes)]
  let s := seq_printf s "\tTx Pkts: %llu\n"
    [.u (u64_add (u64_add (u64_add (cnps.cur 0).cnp_tx_pkts (cnps.cur 1).cnp_tx_pkts)
      (roce_only 0).tx_pkts) (roce_only 1).tx_pkts)]
  let s := seq_printf s "\tTx Bytes: %llu\n"
    [.u (u64_add (u64_add (u64_add (cnps.cur 0).cnp_tx_bytes (cnps.cur 1).cnp_tx_bytes)
      (roce_only 0).tx_bytes) (roce_only 1).tx_bytes)]
  if q._is_chip_gen_p5_p7 rdev.chip_ctx then s
  else
    let s := seq_printf s "\tRx Pkts P0: %llu\n"
      [.u (u64_add (cnps.cur 0).cnp_rx_pkts (roce_only 0).rx_pkts)]
    let s := seq_printf s "\tRx Bytes P0: %llu\n"
      [.u (u64_add (cnps.cur 0).cnp_rx_bytes (roce_only 0).rx_bytes)]
    let s := seq_printf s "\tTx Pkts P0: %llu\n"
      [.u (u64_add (cnps.cur 0).cnp_tx_pkts (roce_only 0).tx_pkts)]
    let s := seq_printf s "\tTx Bytes P0: %llu\n"
      [.u (u64_add (cnps.cur 0).cnp_tx_bytes (roce_only 0).tx_bytes)]
    let s := seq_printf s "\tRx Pkts P1: %llu\n"
      [.u (u64_add (cnps.cur 1).cnp_rx_pkts (roce_only 1).rx_pkts)]
    let s := seq_printf s "\tRx Bytes P1: %llu\n"
      [.u (u64_add (cnps.cur 1).cnp_rx_bytes (roce_only 1).rx_bytes)]
    let s := seq_printf s "\tTx Pkts P1: %llu\n"
      [.u (u64_add (cnps.cur 1).cnp_tx_pkts (roce_only 1).tx_pkts)]
    seq_printf s "\tTx Bytes P1: %llu\n"
      [.u (u64_add (cnps.cur 1).cnp_tx_bytes (roce_only 1).tx_bytes)]

/-- `bnxt_re_print_bond_roce_only_counters`. -/
def bnxt_re_print_bond_roce_only_counters (q : show_env) (rdev : bnxt_re_dev_ext)
    (s : seq_file) : seq_file :=
  let roce_only := rdev.dstat.cur
  let s := seq_printf s "\tRoCE Only Rx Pkts: %llu\n"
    [.u (u64_add (roce_only 0).rx_pkts (roce_only 1).rx_pkts)]
  let s := seq_printf s "\tRoCE Only Rx Bytes: %llu\n"
    [.u (u64_add (roce_only 0).rx_bytes (roce_only 1).rx_bytes)]
  let s := seq_printf s "\tRoCE Only Tx Pkts: %llu\n"
    [.u (u64_add (roce_only 0).tx_pkts (roce_only 1).tx_pkts)]
  let s := seq_printf s "\tRoCE Only Tx Bytes: %llu\n"
    [.u (u64_add (roce_only 0).tx_bytes (roce_only 1).tx_bytes)]
  if q._is_chip_gen_p5_p7 rdev.chip_ctx then s
  else
    let s := seq_printf s "\tRoCE Only Rx Pkts P0: %llu\n" [.u (roce_only 0).rx_pkts]
    let s := seq_printf s "\tRoCE Only Rx Bytes P0: %llu\n" [.u (roce_only 0).rx_bytes]
    let s := seq_printf s "\tRoCE Only Tx Pkts P0: %llu\n" [.u (roce_only 0).tx_pkts]
    let s := seq_printf s "\tRoCE Only Tx Bytes P0: %llu\n" [.u (roce_only 0).tx_bytes]
    let s := seq_printf s "\tRoCE Only Rx Pkts P1: %llu\n" [.u (roce_only 1).rx_pkts]
    let s := seq_printf s "\tRoCE Only Rx Bytes P1: %llu\n" [.u (roce_only 1).rx_bytes]
    let s := seq_printf s "\tRoCE Only Tx Pkts P1: %llu\n" [.u (roce_only 1).tx_pkts]
    seq_printf s "\tRoCE Only Tx Bytes P1: %llu\n" [.u (roce_only 1).tx_bytes]

/-- `bnxt_re_print_ext_stat`. -/
def bnxt_re_print_ext_stat (q : show_env) (rdev : bnxt_re_dev_ext) (s : seq_file) :
    seq_file :=
  let ext_s := rdev.dstat.ext_rstat 0
  let cnps := rdev.cnps
  let s := seq_printf s "\ttx_atomic_req: %llu\n" [.u ext_s.tx.atomic_req]
  let s := seq_printf s "\trx_atomic_req: %llu\n" [.u ext_s.rx.atomic_req]
  let s := seq_printf s "\ttx_read_req: %llu\n" [.u ext_s.tx.read_req]
  let s := seq_printf s "\ttx_read_resp: %llu\n" [.u ext_s.tx.read_resp]
  let s := seq_printf s "\trx_read_req: %llu\n" [.u ext_s.rx.read_req]
  let s := seq_printf s "\trx_read_resp: %llu\n" [.u ext_s.rx.read_resp]
  let s := seq_printf s "\ttx_write_req: %llu\n" [.u ext_s.tx.write_req]
  let s := seq_printf s "\trx_write_req: %llu\n" [.u ext_s.rx.write_req]
  let s := seq_printf s "\ttx_send_req: %llu\n" [.u ext_s.tx.send_req]
  let s := seq_printf s "\trx_send_req: %llu\n" [.u ext_s.rx.send_req]
  let s := seq_printf s "\trx_good_pkts: %llu\n" [.u ext_s.grx.rx_pkts]
  let s := seq_printf s "\trx_good_bytes: %llu\n" [.u ext_s.grx.rx_bytes]
  let s :=
    if q._is_chip_p7 rdev.chip_ctx then
      let s := seq_printf s "\trx_dcn_payload_cut: %llu\n" [.u ext_s.rx_dcn_payload_cut]
      seq_printf s "\tte_bypassed: %llu\n" [.u ext_s.te_bypassed]
    else s
  if rdev.binfo.isSome then
    let s := seq_printf s "\trx_ecn_marked_pkts: %llu\n"
      [.u (u64_add (cnps.cur 0).ecn_marked (cnps.cur 1).ecn_marked)]
    let s := seq_printf s "\trx_ecn_marked_pkts P0: %llu\n" [.u (cnps.cur 0).ecn_marked]
    seq_printf s "\trx_ecn_marked_pkts P1: %llu\n" [.u (cnps.cur 1).ecn_marked]
  else
    seq_printf s "\trx_ecn_marked_pkts: %llu\n" [.u (cnps.cur 0).ecn_marked]

/-- `bnxt_re_print_bond_counters`.  `stats1` and `stats2` are the addresses of
`rstat[0]` and `rstat[1]`, which are not `NULL`.  The function writes
`rdev->stats.dstat.prev_oob`, so it returns the device as well. -/
def bnxt_re_print_bond_counters (q : show_env) (rdev : bnxt_re_dev_ext) (s : seq_file) :
    seq_file × bnxt_re_dev_ext :=
  let roce_stats := rdev.dstat.errs
  let stats1 := rdev.dstat.rstat 0
  let stats2 := rdev.dstat.rstat 1
  let cnps := rdev.cnps
  let en_disp := !q._is_chip_gen_p5_p7 rdev.chip_ctx
  let s := seq_printf s "\tActive QPs P0: %lld\n" [.u roce_stats.active_qp_count_p0]
  let s := seq_printf s "\tActive QPs P1: %lld\n" [.u roce_stats.active_qp_count_p1]
  let s := bnxt_re_print_bond_total_counters q rdev s
  let s := seq_printf s "\tCNP Tx Pkts: %llu\n"
    [.u (u64_add (cnps.cur 0).cnp_tx_pkts (cnps.cur 1).cnp_tx_pkts)]
  let s := if en_disp then seq_printf s "\tCNP Tx Bytes: %llu\n"
    [.u (u64_add (cnps.cur 0).cnp_tx_bytes (cnps.cur 1).cnp_tx_bytes)] else s
  let s := seq_printf s "\tCNP Rx Pkts: %llu\n"
    [.u (u64_add (cnps.cur 0).cnp_rx_pkts (cnps.cur 1).cnp_rx_pkts)]
  let s := if en_disp then seq_printf s "\tCNP Rx Bytes: %llu\n"
    [.u (u64_add (cnps.cur 0).cnp_rx_bytes (cnps.cur 1).cnp_rx_bytes)] else s
  let s := seq_printf s "\tCNP Tx Pkts P0: %llu\n" [.u (cnps.cur 0).cnp_tx_pkts]
  let s := if en_disp then
    seq_printf s "\tCNP Tx Bytes P0: %llu\n" [.u (cnps.cur 0).cnp_tx_bytes] else s
  let s := seq_printf s "\tCNP Rx Pkts P0: %llu\n" [.u (cnps.cur 0).cnp_rx_pkts]
  let s := if en_disp then
    seq_printf s "\tCNP Rx Bytes P0: %llu\n" [.u (cnps.cur 0).cnp_rx_bytes] else s
  let s := seq_printf s "\tCNP Tx Pkts P1: %llu\n" [.u (cnps.cur 1).cnp_tx_pkts]
  let s := if en_disp then
    seq_printf s "\tCNP Tx Bytes P1: %llu\n" [.u (cnps.cur 1).cnp_tx_bytes] else s
  let s := seq_printf s "\tCNP Rx Pkts P1: %llu\n" [.u (cnps.cur 1).cnp_rx_pkts]
  let s := if en_disp then
    seq_printf s "\tCNP Rx Bytes P1: %llu\n" [.u (cnps.cur 1).cnp_rx_bytes] else s
  let s := bnxt_re_print_bond_roce_only_counters q rdev s
  let s := seq_printf s "\trx_roce_error_pkts: %lld\n"
    [.u (u64_add stats1.rx_error_pkts stats2.rx_error_pkts)]
  let s := seq_printf s "\trx_roce_discard_pkts: %lld\n"
    [.u (u64_add stats1.rx_discard_pkts stats2.rx_discard_pkts)]
  let s :=
    if !en_disp then
      let s := seq_printf s "\ttx_roce_error_pkts: %lld\n"
        [.u (u64_add stats1.tx_error_pkts stats2.tx_error_pkts)]
      seq_printf s "\ttx_roce_discard_pkts: %lld\n"
        [.u (u64_add stats1.tx_discard_pkts stats2.tx_discard_pkts)]
    else s
  if q.bnxt_ext_stats_supported rdev.chip_ctx rdev.dev_attr.dev_cap_flags rdev.is_virtfn then
    let s := seq_printf s "\tres_oob_drop_count: %lld\n" [.u rdev.dstat.e_errs.oob]
    (bnxt_re_print_ext_stat q rdev s, rdev)
  else
    let oob_cnt : Int :=
      to_s64 ((stats1.rx_discard_pkts : Int) + (stats2.rx_discard_pkts : Int) -
        (rdev.dstat.errs.res_oos_drop_count : Int))
    let oob_cnt :=
      if oob_lt_prev q.prev_oob_unsigned oob_cnt rdev.dstat.prev_oob then
        prev_oob_to_s64 q.prev_oob_unsigned rdev.dstat.prev_oob
      else oob_cnt
    let s := seq_printf s "\tres_oob_drop_count: %lld\n" [.d oob_cnt]
    (s, { rdev with dstat := { rdev.dstat with
      prev_oob := s64_to_prev_oob q.prev_oob_unsigned oob_cnt } })

/-- `bnxt_re_print_normal_counters`. -/
def bnxt_re_print_normal_counters (q : show_env) (rdev : bnxt_re_dev_ext) (s : seq_file) :
    seq_file :=
  let stats := rdev.dstat.rstat 0
  let cnps := rdev.cnps
  let en_disp := !q._is_chip_gen_p5_p7 rdev.chip_ctx
  let s := bnxt_re_print_normal_total_counters q rdev s
  let s :=
    if !rdev.is_virtfn then
      let s := seq_printf s "\tCNP Tx Pkts: %llu\n" [.u (cnps.cur 0).cnp_tx_pkts]
      let s := if en_disp then
        seq_printf s "\tCNP Tx Bytes: %llu\n" [.u (cnps.cur 0).cnp_tx_bytes] else s
      let s := seq_printf s "\tCNP Rx Pkts: %llu\n" [.u (cnps.cur 0).cnp_rx_pkts]
      if en_disp then
        seq_printf s "\tCNP Rx Bytes: %llu\n" [.u (cnps.cur 0).cnp_rx_bytes] else s
    else s
  let s := bnxt_re_print_roce_only_counters q rdev s
  let s := seq_printf s "\trx_roce_error_pkts: %lld\n" [.u stats.rx_error_pkts]
  let s := seq_printf s "\trx_roce_discard_pkts: %lld\n" [.u stats.rx_discard_pkts]
  let s :=
    if !en_disp then
      let s := seq_printf s "\ttx_roce_error_pkts: %lld\n" [.u stats.tx_error_pkts]
      seq_printf s "\ttx_roce_discards_pkts: %lld\n" [.u stats.tx_discard_pkts]
    else s
  if q.bnxt_ext_stats_supported rdev.chip_ctx rdev.dev_attr.dev_cap_flags rdev.is_virtfn then
    let s := seq_printf s "\tres_oob_drop_count: %lld\n" [.u rdev.dstat.e_errs.oob]
    bnxt_re_print_ext_stat q rdev s
  else s

/-! ## The show handlers (`debugfs.c`) -/

/-- What a show handler leaves behind: its return value, the `seq_file` output,
the device record, the number of `bnxt_re_get_device_stats` calls it issued and
the messages it logged with `dev_err`. -/
structure show_result where
  rc : Int
  s : seq_file
  rdev : bnxt_re_dev_ext
  stats_queries : Nat
  log : List String

/-- The loop over `rcfw_lat_slab_sec` at the end of `bnxt_re_info_debugfs_show`. -/
def info_show_lat_body (rdev : bnxt_re_dev_ext) (i : Nat) (s : seq_file) : seq_file :=
  if rdev.rcfw_dbg.rcfw_lat_slab_sec i ≠ 0 then
    seq_printf s "\tlatency_slab [%d - %d] sec = %d\n"
      [.d i, .d (i + 1), .u (rdev.rcfw_dbg.rcfw_lat_slab_sec i)]
  else s

/-- The statements of `bnxt_re_info_debugfs_show` from the label `skip_query` to
the label `err`.  `none` is the fault of dereferencing `rdev->dbr_sw_stats` when
it is `NULL`. -/
def info_show_render (q : show_env) (rdev : bnxt_re_dev_ext) (s : seq_file) :
    Option (seq_file × bnxt_re_dev_ext) := do
  let pdev_devfn := rdev.devfn
  let errs := rdev.dstat.errs
  let rstat := rdev.dstat.rstat 0
  let e_errs := rdev.dstat.e_errs
  let s := seq_printf s "=====[ IBDEV %s ]=============================\n"
    [.str rdev.ibdev_name]
  let s := match rdev.netdev with
    | some netdev => seq_printf s "\tlink state: %s\n" [.str (bnxt_re_link_state_str netdev)]
    | none => s
  let s := seq_printf s "\tMax QP:\t\t%d\n" [.d rdev.dev_attr.max_qp]
  let s := seq_printf s "\tMax SRQ:\t%d\n" [.d rdev.dev_attr.max_srq]
  let s := seq_printf s "\tMax CQ:\t\t%d\n" [.d rdev.dev_attr.max_cq]
  let s := seq_printf s "\tMax MR:\t\t%d\n" [.d rdev.dev_attr.max_mr]
  let s := seq_printf s "\tMax MW:\t\t%d\n" [.d rdev.dev_attr.max_mw]
  let s := seq_printf s "\tMax AH:\t\t%d\n" [.d rdev.dev_attr.max_ah]
  let s := seq_printf s "\tMax PD:\t\t%d\n" [.d rdev.dev_attr.max_pd]
  let s := seq_printf s "\tActive QP:\t%d\n" [.d rdev.rsors.qp_count]
  let s := seq_printf s "\tActive RC QP:\t%d\n" [.d rdev.rsors.rc_qp_count]
  let s := seq_printf s "\tActive UD QP:\t%d\n" [.d rdev.rsors.ud_qp_count]
  let s := seq_printf s "\tActive SRQ:\t%d\n" [.d rdev.rsors.srq_count]
  let s := seq_printf s "\tActive CQ:\t%d\n" [.d rdev.rsors.cq_count]
  let s := seq_printf s "\tActive MR:\t%d\n" [.d rdev.rsors.mr_count]
  let s := seq_printf s "\tActive MW:\t%d\n" [.d rdev.rsors.mw_count]
  let s := seq_printf s "\tActive AH:\t%d\n" [.d rdev.rsors.ah_count]
  let s := seq_printf s "\tActive PD:\t%d\n" [.d rdev.rsors.pd_count]
  let s := seq_printf s "\tQP Watermark:\t%d\n" [.d rdev.rsors.max_qp_count]
  let s := seq_printf s "\tRC QP Watermark: %d\n" [.d rdev.rsors.max_rc_qp_count]
  let s := seq_printf s "\tUD QP Watermark: %d\n" [.d rdev.rsors.max_ud_qp_count]
  let s := seq_printf s "\tSRQ Watermark:\t%d\n" [.d rdev.rsors.max_srq_count]
  let s := seq_printf s "\tCQ Watermark:\t%d\n" [.d rdev.rsors.max_cq_count]
  let s := seq_printf s "\tMR Watermark:\t%d\n" [.d rdev.rsors.max_mr_count]
  let s := seq_printf s "\tMW Watermark:\t%d\n" [.d rdev.rsors.max_mw_count]
  let s := seq_printf s "\tAH Watermark:\t%d\n" [.d rdev.rsors.max_ah_count]
  let s := seq_printf s "\tPD Watermark:\t%d\n" [.d rdev.rsors.max_pd_count]
  let s := seq_printf s "\tResize CQ count: %d\n" [.d rdev.rsors.resize_count]
  let s := seq_printf s "\tRecoverable Errors: %lld\n" [.u rstat.tx_bcast_pkts]
  let (s, rdev) :=
    if rdev.binfo.isSome then bnxt_re_print_bond_counters q rdev s
    else (bnxt_re_print_normal_counters q rdev s, rdev)
  let s := seq_printf s "\tmax_retry_exceeded: %llu\n" [.u errs.max_retry_exceeded]
  let s :=
    if q.bnxt_ext_stats_supported rdev.chip_ctx rdev.dev_attr.dev_cap_flags rdev.is_virtfn &&
        q._is_hw_retx_supported rdev.dev_attr.dev_cap_flags then
      let s := seq_printf s "\tto_retransmits: %llu\n" [.u e_errs.to_retransmits]
      let s := seq_printf s "\tseq_err_naks_rcvd: %llu\n" [.u e_errs.seq_err_naks_rcvd]
      let s := seq_printf s "\trnr_naks_rcvd: %llu\n" [.u e_errs.rnr_naks_rcvd]
      let s := seq_printf s "\tmissing_resp: %llu\n" [.u e_errs.missing_resp]
      if q._is_hw_resp_retx_supported rdev.dev_attr.dev_cap_flags then
        seq_printf s "\tdup_reqs: %llu\n" [.u e_errs.dup_req]
      else
        seq_printf s "\tdup_reqs: %llu\n" [.u errs.dup_req]
    else
      let s := seq_printf s "\tto_retransmits: %llu\n" [.u errs.to_retransmits]
      let s := seq_printf s "\tseq_err_naks_rcvd: %llu\n" [.u errs.seq_err_naks_rcvd]
      let s := seq_printf s "\trnr_naks_rcvd: %llu\n" [.u errs.rnr_naks_rcvd]
      let s := seq_printf s "\tmissing_resp: %llu\n" [.u errs.missing_resp]
      seq_printf s "\tdup_req: %llu\n" [.u errs.dup_req]
  let s := seq_printf s "\tunrecoverable_err: %llu\n" [.u errs.unrecoverable_err]
  let s := seq_printf s "\tbad_resp_err: %llu\n" [.u errs.bad_resp_err]
  let s := seq_printf s "\tlocal_qp_op_err: %llu\n" [.u errs.local_qp_op_err]
  let s := seq_printf s "\tlocal_protection_err: %llu\n" [.u errs.local_protection_err]
  let s := seq_printf s "\tmem_mgmt_op_err: %llu\n" [.u errs.mem_mgmt_op_err]
  let s := seq_printf s "\tremote_invalid_req_err: %llu\n" [.u errs.remote_invalid_req_err]
  let s := seq_printf s "\tremote_access_err: %llu\n" [.u errs.remote_access_err]
  let s := seq_printf s "\tremote_op_err: %llu\n" [.u errs.remote_op_err]
  let s := seq_printf s "\tres_exceed_max: %llu\n" [.u errs.res_exceed_max]
  let s := seq_printf s "\tres_length_mismatch: %llu\n" [.u errs.res_length_mismatch]
  let s := seq_printf s "\tres_exceeds_wqe: %llu\n" [.u errs.res_exceeds_wqe]
  let s := seq_printf s "\tres_opcode_err: %llu\n" [.u errs.res_opcode_err]
  let s := seq_printf s "\tres_rx_invalid_rkey: %llu\n" [.u errs.res_rx_invalid_rkey]
  let s := seq_printf s "\tres_rx_domain_err: %llu\n" [.u errs.res_rx_domain_err]
  let s := seq_printf s "\tres_rx_no_perm: %llu\n" [.u errs.res_rx_no_perm]
  let s := seq_printf s "\tres_rx_range_err: %llu\n" [.u errs.res_rx_range_err]
  let s := seq_printf s "\tres_tx_invalid_rkey: %llu\n" [.u errs.res_tx_invalid_rkey]
  let s := seq_printf s "\tres_tx_domain_err: %llu\n" [.u errs.res_tx_domain_err]
  let s := seq_printf s "\tres_tx_no_perm: %llu\n" [.u errs.res_tx_no_perm]
  let s := seq_printf s "\tres_tx_range_err: %llu\n" [.u errs.res_tx_range_err]
  let s := seq_printf s "\tres_irrq_oflow: %llu\n" [.u errs.res_irrq_oflow]
  let s := seq_printf s "\tres_unsup_opcode: %llu\n" [.u errs.res_unsup_opcode]
  let s := seq_printf s "\tres_unaligned_atomic: %llu\n" [.u errs.res_unaligned_atomic]
  let s := seq_printf s "\tres_rem_inv_err: %llu\n" [.u errs.res_rem_inv_err]
  let s := seq_printf s "\tres_mem_error64: %llu\n" [.u errs.res_mem_error]
  let s := seq_printf s "\tres_srq_err: %llu\n" [.u errs.res_srq_err]
  let s := seq_printf s "\tres_cmp_err: %llu\n" [.u errs.res_cmp_err]
  let s := seq_printf s "\tres_invalid_dup_rkey: %llu\n" [.u errs.res_invalid_dup_rkey]
  let s := seq_printf s "\tres_wqe_format_err: %llu\n" [.u errs.res_wqe_format_err]
  let s := seq_printf s "\tres_cq_load_err: %llu\n" [.u errs.res_cq_load_err]
  let s := seq_printf s "\tres_srq_load_err: %llu\n" [.u errs.res_srq_load_err]
  let s := seq_printf s "\tres_tx_pci_err: %llu\n" [.u errs.res_tx_pci_err]
  let s := seq_printf s "\tres_rx_pci_err: %llu\n" [.u errs.res_rx_pci_err]
  let s :=
    if q.bnxt_ext_stats_supported rdev.chip_ctx rdev.dev_attr.dev_cap_flags rdev.is_virtfn then
      seq_printf s "\tres_oos_drop_count: %llu\n" [.u e_errs.oos]
    else if PCI_FUNC pdev_devfn = 0 then
      seq_printf s "\tres_oos_drop_count: %llu\n" [.u errs.res_oos_drop_count]
    else s
  let s := seq_printf s "\tnum_irq_started : %u\n" [.u rdev.rcfw_dbg.num_irq_started]
  let s := seq_printf s "\tnum_irq_stopped : %u\n" [.u rdev.rcfw_dbg.num_irq_stopped]
  let s := seq_printf s "\tpoll_in_intr_en : %u\n" [.u rdev.rcfw_dbg.poll_in_intr_en]
  let s := seq_printf s "\tpoll_in_intr_dis : %u\n" [.u rdev.rcfw_dbg.poll_in_intr_dis]
  let s := seq_printf s "\tcmdq_full_dbg_cnt : %u\n" [.u rdev.rcfw_dbg.cmdq_full_dbg]
  let s :=
    if !rdev.is_virtfn then
      seq_printf s "\tfw_service_prof_type_sup : %u\n"
        [bool_arg (is_qport_service_type_supported rdev)]
    else s
  let s ←
    if rdev.dbr_pacing then do
      let st ← rdev.dbr_sw_stats
      let s := seq_printf s "\tdbq_int_recv: %llu\n" [.u st.dbq_int_recv]
      let s := if !q._is_chip_p7 rdev.chip_ctx then
        seq_printf s "\tdbq_int_en: %llu\n" [.u st.dbq_int_en] else s
      let s := seq_printf s "\tdbq_pacing_resched: %llu\n" [.u st.dbq_pacing_resched]
      let s := seq_printf s "\tdbq_pacing_complete: %llu\n" [.u st.dbq_pacing_complete]
      let s := seq_printf s "\tdbq_pacing_alerts: %llu\n" [.u st.dbq_pacing_alerts]
      pure (seq_printf s "\tdbq_dbr_fifo_reg: 0x%x\n"
        [.u (q.readl (rdev.bar0 + rdev.dbr_db_fifo_reg_off))])
    else pure s
  let s ←
    if rdev.dbr_drop_recov then do
      let st ← rdev.dbr_sw_stats
      let s := seq_printf s "\tdbr_drop_recov_epoch: %d\n" [.u rdev.dbr_evt_curr_epoch]
      let s := seq_printf s "\tdbr_drop_recov_events: %lld\n" [.u st.dbr_drop_recov_events]
      let s := seq_printf s "\tdbr_drop_recov_timeouts: %lld\n" [.u st.dbr_drop_recov_timeouts]
      let s := seq_printf s "\tdbr_drop_recov_timeout_users: %lld\n"
        [.u st.dbr_drop_recov_timeout_users]
      pure (seq_printf s "\tdbr_drop_recov_event_skips: %lld\n"
        [.u st.dbr_drop_recov_event_skips])
    else pure s
  let s :=
    if q.BNXT_RE_PPP_ENABLED rdev.chip_ctx then
      let s := seq_printf s "\tppp_enabled_contexts: %d\n" [.u rdev.ppp_stats.ppp_enabled_ctxs]
      seq_printf s "\tppp_enabled_qps: %d\n" [.u rdev.ppp_stats.ppp_enabled_qps]
    else s
  let s := for_range q.RCFW_MAX_LATENCY_SEC_SLAB_INDEX (info_show_lat_body rdev) s
  let s := seq_printf s "\n" []
  pure (s, rdev)

/-- `bnxt_re_info_debugfs_show`.  `rdev_ptr` is the handle `s->private` that is
looked up in `bnxt_re_dev_list`; `rdev` is the record it points to. -/
def bnxt_re_info_debugfs_show (q : show_env) (k : kernel_state) (rdev_ptr : Nat)
    (rdev : bnxt_re_dev_ext) (s : seq_file) : Option show_result :=
  let rc : Int := 0
  let s := seq_printf s "bnxt_re debug info:\n" []
  if !(bnxt_re_is_rdev_valid k.bnxt_re_dev_list rdev_ptr).1 then
    let rc := -ENODEV
    some ⟨rc, s, rdev, 0, []⟩
  else
    let sched_msec := BNXT_RE_STATS_CTX_UPDATE_TIMER
    let tstamp_diff := ulong_sub k.jiffies rdev.read_tstamp
    let (rc, rdev, queries, log) :=
      if test_bit BNXT_RE_FLAG_IBDEV_REGISTERED rdev.flags then
        if k.restrict_stats ≠ 0 && decide (tstamp_diff < q.msecs_to_jiffies sched_msec) then
          (rc, rdev, 0, [])
        else
          let (rc, rdev) := q.bnxt_re_get_device_stats rdev
          let log := if rc ≠ 0 then ["Failed to query device stats\n"] else []
          let rdev := { rdev with read_tstamp := k.jiffies }
          (rc, rdev, 1, log)
      else (rc, rdev, 0, [])
    match info_show_render q rdev s with
    | some (s, rdev) => some ⟨rc, s, rdev, queries, log⟩
    | none => none

/-- Accumulators of the statistics loop of `bnxt_re_perf_debugfs_show`: the five
`*_total` counters (`int`), the five `*_total_msec` sums (`u64`), the
`add_entry` flag and the output. -/
structure perf_show_acc where
  qp_create_total : Int
  qp_destroy_total : Int
  mr_create_total : Int
  mr_destroy_total : Int
  qp_modify_err_total : Int
  qp_create_total_msec : Nat
  qp_destroy_total_msec : Nat
  mr_create_total_msec : Nat
  mr_destroy_total_msec : Nat
  qp_modify_err_total_msec : Nat
  add_entry : Bool
  s : seq_file

/-- The loop over `rcfw_lat_slab_msec` of `bnxt_re_perf_debugfs_show`. -/
def perf_show_lat_body (rdev : bnxt_re_dev_ext) (i : Nat) (s : seq_file) : seq_file :=
  if rdev.rcfw.rcfw_lat_slab_msec i ≠ 0 then
    seq_printf s "\tlatency_slab [%d - %d] msec = %d\n"
      [.d i, .d (i + 1), .u (rdev.rcfw.rcfw_lat_slab_msec i)]
  else s

/-- One iteration of the statistics loop of `bnxt_re_perf_debugfs_show`. -/
def perf_show_stat_body (rdev : bnxt_re_dev_ext) (i : Nat) (a : perf_show_acc) :
    perf_show_acc :=
  let a :=
    if rdev.rcfw.qp_create_stats i > 0 then
      { a with
        qp_create_total := a.qp_create_total + 1,
        qp_create_total_msec := u64_add a.qp_create_total_msec (rdev.rcfw.qp_create_stats i),
        add_entry := true }
    else a
  let a :=
    if rdev.rcfw.qp_destroy_stats i > 0 then
      { a with
        qp_destroy_total := a.qp_destroy_total + 1,
        qp_destroy_total_msec := u64_add a.qp_destroy_total_msec (rdev.rcfw.qp_destroy_stats i),
        add_entry := true }
    else a
  let a :=
    if rdev.rcfw.mr_create_stats i > 0 then
      { a with
        mr_create_total := a.mr_create_total + 1,
        mr_create_total_msec := u64_add a.mr_create_total_msec (rdev.rcfw.mr_create_stats i),
        add_entry := true }
    else a
  let a :=
    if rdev.rcfw.mr_destroy_stats i > 0 then
      { a with
        mr_destroy_total := a.mr_destroy_total + 1,
        mr_destroy_total_msec := u64_add a.mr_destroy_total_msec (rdev.rcfw.mr_destroy_stats i),
        add_entry := true }
    else a
  let a :=
    if rdev.rcfw.qp_modify_stats i > 0 then
      { a with
        qp_modify_err_total := a.qp_modify_err_total + 1,
        qp_modify_err_total_msec :=
          u64_add a.qp_modify_err_total_msec (rdev.rcfw.qp_modify_stats i),
        add_entry := true }
    else a
  let a :=
    if a.add_entry then
      let line := seq_printf a.s
        ("<qp_create> %lld <qp_destroy> %lld <mr_create> %lld " ++
          "<mr_destroy> %lld <qp_modify_to_err> %lld\n")
        [.u (rdev.rcfw.qp_create_stats i), .u (rdev.rcfw.qp_destroy_stats i),
         .u (rdev.rcfw.mr_create_stats i), .u (rdev.rcfw.mr_destroy_stats i),
         .u (rdev.rcfw.qp_modify_stats i)]
      { a with s := line }
    else a
  { a with add_entry := false }

/-- `bnxt_re_perf_debugfs_show`. -/
def bnxt_re_perf_debugfs_show (q : show_env) (k : kernel_state) (rdev_ptr : Nat)
    (rdev : bnxt_re_dev_ext) (s : seq_file) : show_result :=
  let s := seq_printf s "bnxt_re perf stats: %s shadow qd %d Driver Version - %s\n"
    [.str (if rdev.rcfw.sp_perf_stats_enabled then "Enabled" else "Disabled"),
     .d rdev.rcfw_dbg.curr_shadow_qd, .str ROCE_DRV_MODULE_VERSION]
  if !rdev.rcfw.sp_perf_stats_enabled then
    ⟨-ENOMEM, s, rdev, 0, []⟩
  else
    let s := for_range q.RCFW_MAX_LATENCY_MSEC_SLAB_INDEX (perf_show_lat_body rdev) s
    if !(bnxt_re_is_rdev_valid k.bnxt_re_dev_list rdev_ptr).1 then
      ⟨-ENODEV, s, rdev, 0, []⟩
    else
      let a := for_range q.RCFW_MAX_STAT_INDEX (perf_show_stat_body rdev)
        ⟨0, 0, 0, 0, 0, 0, 0, 0, 0, 0, false, s⟩
      let s := a.s
      let s := seq_printf s "Total qp_create %d in msec %lld\n"
        [.d a.qp_create_total, .u a.qp_create_total_msec]
      let s := seq_printf s "Total qp_destroy %d in msec %lld\n"
        [.d a.qp_destroy_total, .u a.qp_destroy_total_msec]
      let s := seq_printf s "Total mr_create %d in msec %lld\n"
        [.d a.mr_create_total, .u a.mr_create_total_msec]
      let s := seq_printf s "Total mr_destroy %d in msec %lld\n"
        [.d a.mr_destroy_total, .u a.mr_destroy_total_msec]
      let s := seq_printf s "Total qp_modify_err_total %d in msec %lld\n"
        [.d a.qp_modify_err_total, .u a.qp_modify_err_total_msec]
      let s := seq_puts s "\n"
      ⟨0, s, rdev, 0, []⟩

/-- The value printed by the last call recorded in an output, when that call has
one signed argument. -/
def seq_last_d (s : seq_file) : Option Int :=
  match s.getLast? with
  | some ⟨_, [.d v]⟩ => some v
  | _ => none

/-- Successive calls of `bnxt_re_print_bond_counters`, each on a fresh output.
Between two calls the hardware counters may be refreshed, so each call runs on
the next device snapshot; `prev_oob` is written by this function only and is
carried from one call to the next.  The result lists the value each call printed
last, its `res_oob_drop_count` line when extended statistics are not supported. -/
def bond_counters_reports (q : show_env) : Int → List bnxt_re_dev_ext → List (Option Int)
  | _, [] => []
  | prev, snap :: rest =>
    let r := bnxt_re_print_bond_counters q
      { snap with dstat := { snap.dstat with prev_oob := prev } } []
    seq_last_d r.1 :: bond_counters_reports q r.2.dstat.prev_oob rest

/-! ## Concrete inputs for the show handlers -/

/-- A device record with every counter zero, no `netdev` and no bond. -/
def rdev_ext_zero : bnxt_re_dev_ext where
  __ := rdev_zero
  ibdev_name := "bnxt_re0"
  netdev := none
  chip_ctx := ⟨0⟩
  dev_attr := ⟨0, 0, 0, 0, 0, 0, 0, 0⟩
  dstat :=
    { cur := fun _ => ⟨0, 0, 0, 0⟩
      rstat := fun _ => ⟨0, 0, 0, 0, 0, 0, 0, 0, 0⟩
      ext_rstat := fun _ => ⟨⟨0, 0, 0, 0, 0⟩, ⟨0, 0, 0, 0, 0⟩, ⟨0, 0⟩, 0, 0⟩
      e_errs := ⟨0, 0, 0, 0, 0, 0, 0⟩
      errs := ⟨0, 0, 0, 0, 0, 0, 0, 0, 0, 0, 0, 0, 0, 0, 0, 0, 0, 0, 0, 0, 0, 0, 0, 0, 0, 0, 0,
        0, 0, 0, 0, 0, 0, 0, 0, 0, 0, 0, 0, 0, 0, 0⟩
      prev_oob := 0 }
  cnps := ⟨fun _ => ⟨0, 0, 0, 0, 0⟩⟩
  read_tstamp := 0
  binfo := none
  is_virtfn := false
  devfn := 0
  bar0 := 0
  dbr_db_fifo_reg_off := 0
  serv_type_enabled := false
  rcfw_dbg := ⟨0, 0, 0, 0, 0, 0, fun _ => 0⟩
  ppp_stats := ⟨0, 0⟩

/-- An environment for a chip that is neither P5 nor P7 and has no extended
statistics, with `HZ = 1000`, in which the statistics query succeeds and
`prev_oob` is an `unsigned long long`. -/
def show_env_ok : show_env where
  _is_chip_p7 := fun _ => false
  _is_chip_gen_p5_p7 := fun _ => false
  bnxt_ext_stats_supported := fun _ _ _ => false
  _is_hw_retx_supported := fun _ => false
  _is_hw_resp_retx_supported := fun _ => false
  BNXT_RE_PPP_ENABLED := fun _ => false
  RCFW_MAX_LATENCY_SEC_SLAB_INDEX := 2
  RCFW_MAX_LATENCY_MSEC_SLAB_INDEX := 2
  RCFW_MAX_STAT_INDEX := 2
  msecs_to_jiffies := fun ms => ms
  readl := fun _ => 0
  bnxt_re_get_device_stats := fun rdev => (0, rdev)
  prev_oob_unsigned := true

/-- The same environment, in which the statistics query times out
(`-ETIMEDOUT`) and leaves the cached counters as they are. -/
def show_env_query_fails : show_env :=
  { show_env_ok with bnxt_re_get_device_stats := fun rdev => (-110, rdev) }

/-- Process-wide state in which the devices with handles 1 and 2 are valid,
statistics reads are not restricted and the tick counter is at 5000. -/
def kernel_state_two_devs : kernel_state := ⟨[1, 2], 5000, 0⟩

/-- A registered device (`BNXT_RE_FLAG_IBDEV_REGISTERED` set), with performance
statistics disabled. -/
def rdev_ext_registered : bnxt_re_dev_ext :=
  { rdev_ext_zero with flags := 2 }

/-- A device whose slow-path performance statistics are enabled and populated. -/
def rdev_ext_perf_enabled : bnxt_re_dev_ext :=
  { rdev_ext_zero with rcfw := rdev_perf_enabled.rcfw }

end BnxtRe

namespace BnxtRe

/-! ## Inline helpers and constants of `bnxt_re.h` -/

/-- `_is_bnxt_re_dev_lag_capable(dev_cap_flags)`.  The two masks
`CREQ_QUERY_FUNC_RESP_SB_LINK_AGGR_SUPPORTED_VALID` and
`CREQ_QUERY_FUNC_RESP_SB_LINK_AGGR_SUPPORTED` are declared in the firmware
interface header, outside the sources, and are parameters.  The argument is a
`u16`. -/
def _is_bnxt_re_dev_lag_capable
    (CREQ_QUERY_FUNC_RESP_SB_LINK_AGGR_SUPPORTED_VALID : Nat)
    (CREQ_QUERY_FUNC_RESP_SB_LINK_AGGR_SUPPORTED : Nat) (dev_cap_flags : Nat) : Bool :=
  if dev_cap_flags &&& CREQ_QUERY_FUNC_RESP_SB_LINK_AGGR_SUPPORTED_VALID = 0 then true
  else if dev_cap_flags &&& CREQ_QUERY_FUNC_RESP_SB_LINK_AGGR_SUPPORTED ≠ 0 then true
  else false

/-- `BNXT_RE_EVENT_DBR_EPOCH(data)`.  The mask and the shift are the firmware
interface constants
`ASYNC_EVENT_CMPL_ERROR_REPORT_DOORBELL_DROP_THRESHOLD_EVENT_DATA1_EPOCH_MASK`
and `..._EPOCH_SFT`, declared outside the sources; they are parameters. -/
def BNXT_RE_EVENT_DBR_EPOCH (EVENT_DATA1_EPOCH_MASK EVENT_DATA1_EPOCH_SFT : Nat)
    (data : Nat) : Nat :=
  (data &&& EVENT_DATA1_EPOCH_MASK) >>> EVENT_DATA1_EPOCH_SFT

/-- `BNXT_RE_EVENT_ERROR_REPORT_TYPE(data1)`, with the constants
`ASYNC_EVENT_CMPL_ERROR_REPORT_BASE_EVENT_DATA1_ERROR_TYPE_MASK` and
`..._TYPE_SFT` as parameters. -/
def BNXT_RE_EVENT_ERROR_REPORT_TYPE (ERROR_TYPE_MASK ERROR_TYPE_SFT : Nat)
    (data1 : Nat) : Nat :=
  (data1 &&& ERROR_TYPE_MASK) >>> ERROR_TYPE_SFT

/-- What a call of `bnxt_re_rtnl_trylock` leaves behind: the returned `locked`,
the number of `rtnl_trylock()` calls it made and its `usleep_range(min, max)`
calls, in order. -/
structure rtnl_trylock_result where
  locked : Bool
  attempts : Nat
  sleeps : List (Nat × Nat)
deriving DecidableEq

/-- The loop `while (lock_retry--)` of `bnxt_re_rtnl_trylock`, by recursion on the
value of `lock_retry`.  `rtnl_trylock k` is the outcome of call number `k`
(counted from 0) of the kernel's `rtnl_trylock()`. -/
def bnxt_re_rtnl_trylock_while (rtnl_trylock : Nat → Bool) :
    Nat → rtnl_trylock_result → rtnl_trylock_result
  | 0, r => r
  | lock_retry + 1, r =>
    if !rtnl_trylock r.attempts then
      bnxt_re_rtnl_trylock_while rtnl_trylock lock_retry
        { r with attempts := r.attempts + 1, sleeps := r.sleeps ++ [(1000, 2000)] }
    else
      { r with attempts := r.attempts + 1, locked := true }

/-- `bnxt_re_rtnl_trylock`: `lock_retry = 10`, `locked = false`, then the loop. -/
def bnxt_re_rtnl_trylock (rtnl_trylock : Nat → Bool) : rtnl_trylock_result :=
  bnxt_re_rtnl_trylock_while rtnl_trylock 10 ⟨false, 0, []⟩

/-- The loop `for (prio = 0; prio < 8; prio++) if (prio_map & (1UL << prio)) break;`
of `bnxt_re_get_prio`, from the current value of `prio` (a `u8`), for at most
`fuel` iterations. -/
def bnxt_re_get_prio_for (prio_map : Nat) : Nat → Nat → Nat
  | 0, prio => prio
  | fuel + 1, prio =>
    if prio < 8 then
      if prio_map &&& (1 <<< prio) ≠ 0 then prio
      else bnxt_re_get_prio_for prio_map fuel ((prio + 1) % 2 ^ 8)
    else prio

/-- `bnxt_re_get_prio(prio_map)`.  The loop starts at `prio = 0` and leaves at
`prio = 8` at the latest, so 8 iterations are all it can make. -/
def bnxt_re_get_prio (prio_map : Nat) : Nat :=
  bnxt_re_get_prio_for prio_map 8 0

/-- Largest do-pacing value. -/
def BNXT_RE_MAX_DBR_DO_PACING : Nat := 0xFFFF

/-- Maximum percentage of the doorbell FIFO depth that can be configured as
high watermark. -/
def BNXT_RE_PACING_DBQ_HIGH_WATERMARK : Nat := 36

/-- Percentage of the doorbell FIFO depth. -/
def BNXT_RE_PACING_DBQ_THRESHOLD : Nat := BNXT_RE_PACING_DBQ_HIGH_WATERMARK

/-- Default do_pacing value when there is no congestion (1 in 512 probability). -/
def BNXT_RE_DBR_DO_PACING_NO_CONGESTION : Nat := 0x7F

/-! ## The per-QP info file (`debugfs.c`) -/

/-- The table `qp_type_str`. -/
def qp_type_str : List String :=
  ["IB_QPT_SMI", "IB_QPT_GSI", "IB_QPT_RC", "IB_QPT_UC", "IB_QPT_UD", "IB_QPT_RAW_IPV6",
   "IB_QPT_RAW_ETHERTYPE", "IB_QPT_UNKNOWN", "IB_QPT_RAW_PACKET", "IB_QPT_XRC_INI",
   "IB_QPT_XRC_TGT", "IB_QPT_MAX"]

/-- The table `qp_state_str`. -/
def qp_state_str : List String :=
  ["IB_QPS_RESET", "IB_QPS_INIT", "IB_QPS_RTR", "IB_QPS_RTS", "IB_QPS_SQD", "IB_QPS_SQE",
   "IB_QPS_ERR"]

/-- `ENOSPC`. -/
def ENOSPC : Int := 28

/-- The members of `struct bnxt_qplib_qp` that `bnxt_re_fill_qp_info` uses. -/
structure bnxt_qplib_qp where
  id : Nat
  type : Nat
  state : Nat
  dest_qpn : Nat
  port_id : Nat
  nw_type : Nat
deriving DecidableEq

/-- The members of `qp->qp_info_entry` that `bnxt_re_fill_qp_info` prints.  The
address unions `s_ip` and `d_ip` are given by their 16 bytes as a number; the
IPv4 view is the low 32 bits. -/
structure bnxt_re_qp_info_entry where
  s_port : Nat
  d_port : Nat
  s_ip : Nat
  d_ip : Nat
deriving DecidableEq

/-- The members of `struct bnxt_re_qp` used by the per-QP info file.  `qp_data`
is `NULL` or a buffer; a buffer is given by the text at its start, as the
`sprintf` calls that wrote it. -/
structure bnxt_re_qp where
  qplib_qp : bnxt_qplib_qp
  qp_info_entry : bnxt_re_qp_info_entry
  qp_data : Option seq_file
deriving DecidableEq

/-- Constants and helpers of the per-QP info file that are defined outside the
sources.  `kcalloc_ok` tells whether the allocation in `bnxt_re_fill_qp_info`
succeeds; `bnxt_qplib_query_qp` returns its result code and the filled-in
query structure; `simple_read_from_buffer count ppos data` returns its result
and the new `*ppos` for the text `data` of length `strlen(data)`. -/
structure qp_info_env where
  BNXT_RE_DEBUGFS_QP_INFO_MAX_SIZE : Nat
  IB_QPT_MAX : Nat
  IB_QPT_UD : Nat
  IB_QPS_ERR : Nat
  CMDQ_MODIFY_QP_NETWORK_TYPE_ROCEV2_IPV4 : Nat
  kcalloc_ok : Bool
  bnxt_qplib_query_qp : bnxt_qplib_qp → Int × bnxt_qplib_qp
  __from_hw_to_ib_qp_type : Nat → Nat
  __to_ib_qp_state : Nat → Nat
  simple_read_from_buffer : Nat → Int → seq_file → Int × Int

/-- The expression `(type > IB_QPT_MAX) ? "IB_QPT_UNKNOWN" : qp_type_str[type]`;
`none` is a read outside the table. -/
def qp_type_name (IB_QPT_MAX : Nat) (type : Nat) : Option String :=
  if type > IB_QPT_MAX then some "IB_QPT_UNKNOWN" else qp_type_str[type]?

/-- The expression `(state > IB_QPS_ERR) ? "IB_QPS_UNKNOWN" : qp_state_str[state]`;
`none` is a read outside the table. -/
def qp_state_name (IB_QPS_ERR : Nat) (state : Nat) : Option String :=
  if state > IB_QPS_ERR then some "IB_QPS_UNKNOWN" else qp_state_str[state]?

/-- `bnxt_re_fill_qp_info`: the QP after the call and the number of firmware QP
queries issued.  `none` is a read outside `qp_type_str` or `qp_state_str`. -/
def bnxt_re_fill_qp_info (e : qp_info_env) (qp : bnxt_re_qp) : Option (bnxt_re_qp × Nat) :=
  match qp.qp_data with
  | none => some (qp, 0)
  | some _ =>
    if !e.kcalloc_ok then some (qp, 0)
    else
      let qplib_qp : bnxt_qplib_qp := ⟨0, 0, 0, 0, 0, 0⟩
      let qplib_qp := { qplib_qp with id := qp.qplib_qp.id }
      let (rc, qplib_qp) := e.bnxt_qplib_query_qp qplib_qp
      if rc ≠ 0 then some (qp, 1)
      else do
        let cur : seq_file := []
        let type := e.__from_hw_to_ib_qp_type qp.qplib_qp.type % 2 ^ 16
        let type_name ← qp_type_name e.IB_QPT_MAX type
        let cur := seq_printf cur "type \t = %s(%d)\n" [.str type_name, .u type]
        let state := e.__to_ib_qp_state qplib_qp.state % 2 ^ 16
        let state_name ← qp_state_name e.IB_QPS_ERR state
        let cur := seq_printf cur "state \t = %s(%d)\n" [.str state_name, .u state]
        let cur := seq_printf cur "source qpn \t = %d\n" [.u qplib_qp.id]
        let cur :=
          if type ≠ e.IB_QPT_UD then
            let cur := seq_printf cur "dest qpn \t = %d\n" [.u qplib_qp.dest_qpn]
            seq_printf cur "source port \t = %d\n" [.u qp.qp_info_entry.s_port]
          else cur
        let cur := seq_printf cur "dest port \t = %d\n" [.u qp.qp_info_entry.d_port]
        let cur := seq_printf cur "port \t = %d\n" [.u qplib_qp.port_id]
        let cur :=
          if type ≠ e.IB_QPT_UD then
            if qp.qplib_qp.nw_type = e.CMDQ_MODIFY_QP_NETWORK_TYPE_ROCEV2_IPV4 then
              let cur := seq_printf cur "source_ipaddr \t = %pI4\n"
                [.u (qp.qp_info_entry.s_ip % 2 ^ 32)]
              seq_printf cur "destination_ipaddr \t = %pI4\n"
                [.u (qp.qp_info_entry.d_ip % 2 ^ 32)]
            else
              let cur := seq_printf cur "source_ipaddr \t = %pI6\n" [.u qp.qp_info_entry.s_ip]
              seq_printf cur "destination_ipaddr \t = %pI6\n" [.u qp.qp_info_entry.d_ip]
          else cur
        pure ({ qp with qp_data := some cur }, 1)

/-- What `bnxt_re_qp_info_qp_read` leaves behind: its return value, the QP, the
file position `*ppos` and the number of firmware QP queries issued. -/
structure qp_read_result where
  rc : Int
  qp : bnxt_re_qp
  ppos : Int
  qp_queries : Nat
deriving DecidableEq

/-- `bnxt_re_qp_info_qp_read`.  `qp` is `filp->private_data`; `none` is a read
outside a name table in `bnxt_re_fill_qp_info`. -/
def bnxt_re_qp_info_qp_read (e : qp_info_env) (qp : bnxt_re_qp) (usr_buf_len : Nat)
    (ppos : Int) : Option qp_read_result :=
  if usr_buf_len < e.BNXT_RE_DEBUGFS_QP_INFO_MAX_SIZE then
    some ⟨-ENOSPC, qp, ppos, 0⟩
  else if qp.qp_data.isNone then
    some ⟨-ENOMEM, qp, ppos, 0⟩
  else if ppos ≥ (e.BNXT_RE_DEBUGFS_QP_INFO_MAX_SIZE : Int) then
    some ⟨0, qp, ppos, 0⟩
  else
    match bnxt_re_fill_qp_info e qp with
    | none => none
    | some (qp, queries) =>
      let r := e.simple_read_from_buffer usr_buf_len ppos (qp.qp_data.getD [])
      some ⟨r.1, qp, r.2, queries⟩

/-! ## Reference quantities for the performance statistics -/

/-- The number of indices `i < n` at which `stats[i] > 0`. -/
def count_positive (stats : Nat → Nat) (n : Nat) : Nat :=
  ((List.range n).filter (fun i => decide (stats i > 0))).length

/-- The sum of the entries `stats[i] > 0` with `i < n`. -/
def sum_positive (stats : Nat → Nat) (n : Nat) : Nat :=
  (((List.range n).filter (fun i => decide (stats i > 0))).map stats).sum

/-- The per-index line that `bnxt_re_perf_debugfs_show` prints for index `i`. -/
def perf_index_line (rdev : bnxt_re_dev_ext) (i : Nat) : seq_rec :=
  ⟨"<qp_create> %lld <qp_destroy> %lld <mr_create> %lld " ++
      "<mr_destroy> %lld <qp_modify_to_err> %lld\n",
    [.u (rdev.rcfw.qp_create_stats i), .u (rdev.rcfw.qp_destroy_stats i),
     .u (rdev.rcfw.mr_create_stats i), .u (rdev.rcfw.mr_destroy_stats i),
     .u (rdev.rcfw.qp_modify_stats i)]⟩

/-- Whether at least one of the five statistic arrays has an entry `> 0` at
index `i`. -/
def perf_index_active (rdev : bnxt_re_dev_ext) (i : Nat) : Bool :=
  decide (rdev.rcfw.qp_create_stats i > 0) || decide (rdev.rcfw.qp_destroy_stats i > 0) ||
  decide (rdev.rcfw.mr_create_stats i > 0) || decide (rdev.rcfw.mr_destroy_stats i > 0) ||
  decide (rdev.rcfw.qp_modify_stats i > 0)

/-- A write to the performance statistics file of an extended device record:
`bnxt_re_perf_debugfs_clear` on the device members it accesses. -/
def perf_clear_ext (q : show_env) (rdev : bnxt_re_dev_ext) (u : List Nat) (size : Nat)
    (off : Int) : bnxt_re_dev_ext :=
  { rdev with
    tobnxt_re_dev :=
      (bnxt_re_perf_debugfs_clear q.RCFW_MAX_STAT_INDEX q.RCFW_MAX_LATENCY_MSEC_SLAB_INDEX
        rdev.tobnxt_re_dev u size off).1 }

/-! ## Concrete inputs for the helpers and the per-QP info file -/

/-- An outcome sequence of `rtnl_trylock()` that fails three times and then
succeeds. -/
def rtnl_trylock_fourth (k : Nat) : Bool := decide (3 ≤ k)

/-- An environment of the per-QP info file with the kernel's values of the
enumeration constants, a 512-byte buffer and a firmware query that reports an
RTS queue pair. -/
def qp_info_env_ok : qp_info_env where
  BNXT_RE_DEBUGFS_QP_INFO_MAX_SIZE := 512
  IB_QPT_MAX := 11
  IB_QPT_UD := 4
  IB_QPS_ERR := 6
  CMDQ_MODIFY_QP_NETWORK_TYPE_ROCEV2_IPV4 := 2
  kcalloc_ok := true
  bnxt_qplib_query_qp := fun qp => (0, { qp with state := 3, dest_qpn := 9, port_id := 1 })
  __from_hw_to_ib_qp_type := fun t => t
  __to_ib_qp_state := fun st => st
  simple_read_from_buffer := fun count ppos data =>
    if ppos < 0 then (-22, ppos) else (min count data.length, ppos + min count data.length)

/-- Process-wide state like `kernel_state_two_devs`, with statistics reads
restricted (`restrict_stats = 1`). -/
def kernel_state_restricted : kernel_state := ⟨[1, 2], 5000, 1⟩

/-- A registered device with pacing enabled and its statistics allocated, whose
counters were read at tick 4900. -/
def rdev_ext_recent : bnxt_re_dev_ext :=
  { rdev_ext_registered with
    read_tstamp := 4900
    dbr_pacing := true
    dbr_sw_stats := some ⟨3, 1, 4, 1, 5, 9, 2, 6, 5⟩ }

/-- A queue pair of type RC with an allocated, empty info buffer. -/
def qp_rc : bnxt_re_qp := ⟨⟨7, 2, 0, 0, 0, 2⟩, ⟨1000, 2000, 0x0100007f, 0x0200007f⟩, some []⟩

/-- The same queue pair without info buffer. -/
def qp_no_data : bnxt_re_qp := { qp_rc with qp_data := none }

end BnxtRe

/-! # Theorems -/

namespace BnxtRe

/-! ## Helper lemmas: integers and loops -/

theorem ssize_t_of_eq (size : Nat) (h : size < 2 ^ 63) : ssize_t_of size = (size : Int) := by
  have h64 : size < 2 ^ 64 := by omega
  unfold ssize_t_of
  rw [Nat.mod_eq_of_lt h64, if_pos h]

theorem for_range_succ {σ : Type} (n : Nat) (body : Nat → σ → σ) (s : σ) :
    for_range (n + 1) body s = body n (for_range n body s) := by
  simp [for_range, List.range_succ, List.foldl_append]

theorem array_set_apply (a : Nat → Nat) (i v j : Nat) :
    array_set a i v j = if j = i then v else a j := rfl

theorem for_range_zero {σ : Type} (body : Nat → σ → σ) (s : σ) :
    for_range 0 body s = s := by
  simp [for_range]

/-- The first loop of `bnxt_re_perf_debugfs_clear` zeroes the entries below the
bound of the five statistic arrays and nothing else. -/
theorem perf_clear_stat_loop (n : Nat) (rcfw : bnxt_qplib_rcfw) :
    for_range n perf_clear_stat_body rcfw =
      { rcfw with
        qp_create_stats := fun j => if j < n then 0 else rcfw.qp_create_stats j
        qp_destroy_stats := fun j => if j < n then 0 else rcfw.qp_destroy_stats j
        mr_create_stats := fun j => if j < n then 0 else rcfw.mr_create_stats j
        mr_destroy_stats := fun j => if j < n then 0 else rcfw.mr_destroy_stats j
        qp_modify_stats := fun j => if j < n then 0 else rcfw.qp_modify_stats j } := by
  induction n with
  | zero => simp [for_range_zero]
  | succ n ih =>
    rw [for_range_succ, ih]
    simp only [perf_clear_stat_body]
    congr 1 <;> funext j <;> simp only [array_set_apply] <;> split_ifs <;>
      first | rfl | omega

/-- The second loop of `bnxt_re_perf_debugfs_clear` zeroes the latency slabs
below the bound and nothing else. -/
theorem perf_clear_lat_loop (n : Nat) (rcfw : bnxt_qplib_rcfw) :
    for_range n perf_clear_lat_body rcfw =
      { rcfw with
        rcfw_lat_slab_msec := fun j => if j < n then 0 else rcfw.rcfw_lat_slab_msec j } := by
  induction n with
  | zero => simp [for_range_zero]
  | succ n ih =>
    rw [for_range_succ, ih]
    simp only [perf_clear_lat_body]
    congr 1; funext j; simp only [array_set_apply]; split_ifs <;>
      first | rfl | omega

/-! ## The clear operations in closed form -/

theorem info_clear_of_some (rdev : bnxt_re_dev) (st : bnxt_re_dbr_sw_stats) (u : List Nat)
    (size : Nat) (off : Int) (h : rdev.dbr_sw_stats = some st) :
    bnxt_re_info_debugfs_clear rdev u size off =
      ({ rdev with
          rsors := { rdev.rsors with
            max_qp_count := rdev.rsors.qp_count
            max_rc_qp_count := rdev.rsors.rc_qp_count
            max_ud_qp_count := rdev.rsors.ud_qp_count
            max_srq_count := rdev.rsors.srq_count
            max_cq_count := rdev.rsors.cq_count
            max_mr_count := rdev.rsors.mr_count
            max_mw_count := rdev.rsors.mw_count
            max_ah_count := rdev.rsors.ah_count
            max_pd_count := rdev.rsors.pd_count
            resize_count := 0 }
          dbr_evt_curr_epoch := 0
          dbr_sw_stats := some ⟨0, 0, 0, 0, 0, 0, 0, 0, 0⟩ }, ssize_t_of size) := by
  cases rdev
  simp only at h
  subst h
  rfl

theorem info_clear_of_none (rdev : bnxt_re_dev) (u : List Nat) (size : Nat) (off : Int)
    (h : rdev.dbr_sw_stats = none) :
    bnxt_re_info_debugfs_clear rdev u size off =
      ({ rdev with
          rsors := { rdev.rsors with
            max_qp_count := rdev.rsors.qp_count
            max_rc_qp_count := rdev.rsors.rc_qp_count
            max_ud_qp_count := rdev.rsors.ud_qp_count
            max_srq_count := rdev.rsors.srq_count
            max_cq_count := rdev.rsors.cq_count
            max_mr_count := rdev.rsors.mr_count
            max_mw_count := rdev.rsors.mw_count
            max_ah_count := rdev.rsors.ah_count
            max_pd_count := rdev.rsors.pd_count
            resize_count := 0 } }, ssize_t_of size) := by
  cases rdev
  simp only at h
  subst h
  rfl

theorem perf_clear_of_disabled (N M : Nat) (rdev : bnxt_re_dev) (u : List Nat) (size : Nat)
    (off : Int) (h : rdev.rcfw.sp_perf_stats_enabled = false) :
    bnxt_re_perf_debugfs_clear N M rdev u size off = (rdev, ssize_t_of size) := by
  simp [bnxt_re_perf_debugfs_clear, h]

theorem perf_clear_of_enabled (N M : Nat) (rdev : bnxt_re_dev) (u : List Nat) (size : Nat)
    (off : Int) (h : rdev.rcfw.sp_perf_stats_enabled = true) :
    bnxt_re_perf_debugfs_clear N M rdev u size off =
      ({ rdev with
          rcfw := { rdev.rcfw with
            qp_create_stats := fun j => if j < N then 0 else rdev.rcfw.qp_create_stats j
            qp_destroy_stats := fun j => if j < N then 0 else rdev.rcfw.qp_destroy_stats j
            mr_create_stats := fun j => if j < N then 0 else rdev.rcfw.mr_create_stats j
            mr_destroy_stats := fun j => if j < N then 0 else rdev.rcfw.mr_destroy_stats j
            qp_modify_stats := fun j => if j < N then 0 else rdev.rcfw.qp_modify_stats j
            qp_create_stats_id := 0
            qp_destroy_stats_id := 0
            mr_create_stats_id := 0
            mr_destroy_stats_id := 0
            qp_modify_stats_id := 0
            rcfw_lat_slab_msec := fun j => if j < M then 0 else rdev.rcfw.rcfw_lat_slab_msec j } },
        ssize_t_of size) := by
  simp [bnxt_re_perf_debugfs_clear, h, perf_clear_stat_loop, perf_clear_lat_loop]

/-! ## Claims about the clear operations -/

/-- C1 (as stated, refuted): on a device in drop recovery at epoch 5 whose pacing
statistics are allocated, `bnxt_re_info_debugfs_clear` stores epoch 0, so the
stored epoch is not preserved and decreases across the clear. -/
theorem info_clear_epoch_decreases :
    (bnxt_re_info_debugfs_clear rdev_recovering [] 1 0).1.dbr_evt_curr_epoch = 0 ∧
    (bnxt_re_info_debugfs_clear rdev_recovering [] 1 0).1.dbr_evt_curr_epoch <
      rdev_recovering.dbr_evt_curr_epoch := by
  constructor
  · rfl
  · decide

/-- C1 (amended): `bnxt_re_perf_debugfs_clear` and `bnxt_re_drv_stats_debugfs_clear`
leave `dbr_evt_curr_epoch` and `dbr_recovery_on` unchanged.
`bnxt_re_info_debugfs_clear` leaves `dbr_recovery_on` unchanged; it leaves
`dbr_evt_curr_epoch` unchanged when `dbr_sw_stats` is absent and sets it to 0
when `dbr_sw_stats` is present. -/
theorem clear_recovery_state (N M : Nat) (rdev : bnxt_re_dev) (u : List Nat) (size : Nat)
    (off : Int) :
    ((bnxt_re_perf_debugfs_clear N M rdev u size off).1.dbr_evt_curr_epoch =
        rdev.dbr_evt_curr_epoch ∧
      (bnxt_re_perf_debugfs_clear N M rdev u size off).1.dbr_recovery_on =
        rdev.dbr_recovery_on) ∧
    ((bnxt_re_drv_stats_debugfs_clear rdev u size off).1.dbr_evt_curr_epoch =
        rdev.dbr_evt_curr_epoch ∧
      (bnxt_re_drv_stats_debugfs_clear rdev u size off).1.dbr_recovery_on =
        rdev.dbr_recovery_on) ∧
    (bnxt_re_info_debugfs_clear rdev u size off).1.dbr_recovery_on = rdev.dbr_recovery_on ∧
    (rdev.dbr_sw_stats = none →
      (bnxt_re_info_debugfs_clear rdev u size off).1.dbr_evt_curr_epoch =
        rdev.dbr_evt_curr_epoch) ∧
    (rdev.dbr_sw_stats ≠ none →
      (bnxt_re_info_debugfs_clear rdev u size off).1.dbr_evt_curr_epoch = 0) := by
  refine ⟨?_, ⟨rfl, rfl⟩, ?_, ?_, ?_⟩
  · cases h : rdev.rcfw.sp_perf_stats_enabled
    · rw [perf_clear_of_disabled N M rdev u size off h]; exact ⟨rfl, rfl⟩
    · rw [perf_clear_of_enabled N M rdev u size off h]; exact ⟨rfl, rfl⟩
  · cases h : rdev.dbr_sw_stats with
    | none => rw [info_clear_of_none rdev u size off h]
    | some st => rw [info_clear_of_some rdev st u size off h]
  · intro h
    rw [info_clear_of_none rdev u size off h]
  · intro h
    cases hs : rdev.dbr_sw_stats with
    | none => exact absurd hs h
    | some st => rw [info_clear_of_some rdev st u size off hs]

/-- C1 (amended), evaluated on the device in recovery at epoch 5: the info clear
resets the epoch to 0. -/
theorem clear_recovery_state_witness :
    (bnxt_re_info_debugfs_clear rdev_recovering [] 1 0).1.dbr_evt_curr_epoch = 0 :=
  (clear_recovery_state 4 4 rdev_recovering [] 1 0).2.2.2.2 (by simp [rdev_recovering])

/-- C2: with `dbr_sw_stats` present, `bnxt_re_info_debugfs_clear` sets all nine
software pacing/recovery counters to 0; with `dbr_sw_stats` absent it stays
absent (no counter is written); in both cases the handler returns the size it
was given, whatever the user buffer `u` holds. -/
theorem info_clear_sw_stats (rdev : bnxt_re_dev) (u : List Nat) (size : Nat) (off : Int) :
    (∀ st, rdev.dbr_sw_stats = some st →
      (bnxt_re_info_debugfs_clear rdev u size off).1.dbr_sw_stats =
        some { dbq_int_recv := 0, dbq_int_en := 0, dbq_pacing_resched := 0,
               dbq_pacing_complete := 0, dbq_pacing_alerts := 0,
               dbr_drop_recov_events := 0, dbr_drop_recov_timeouts := 0,
               dbr_drop_recov_timeout_users := 0, dbr_drop_recov_event_skips := 0 }) ∧
    (rdev.dbr_sw_stats = none →
      (bnxt_re_info_debugfs_clear rdev u size off).1.dbr_sw_stats = none) ∧
    (size < 2 ^ 63 → (bnxt_re_info_debugfs_clear rdev u size off).2 = (size : Int)) := by
  refine ⟨?_, ?_, ?_⟩
  · intro st h
    rw [info_clear_of_some rdev st u size off h]
  · intro h
    rw [info_clear_of_none rdev u size off h]
    exact h
  · intro hsz
    cases h : rdev.dbr_sw_stats with
    | none => rw [info_clear_of_none rdev u size off h]; exact ssize_t_of_eq size hsz
    | some st => rw [info_clear_of_some rdev st u size off h]; exact ssize_t_of_eq size hsz

/-- C2, evaluated: on the device with counters 3,1,4,1,5,9,2,6,5 a 42-byte write
zeroes all nine counters and returns 42; on the device without `dbr_sw_stats`
the block stays absent. -/
theorem info_clear_sw_stats_witness :
    (bnxt_re_info_debugfs_clear rdev_recovering [1, 2] 42 0).1.dbr_sw_stats =
        some ⟨0, 0, 0, 0, 0, 0, 0, 0, 0⟩ ∧
    (bnxt_re_info_debugfs_clear rdev_zero [1, 2] 42 0).1.dbr_sw_stats = none ∧
    (bnxt_re_info_debugfs_clear rdev_recovering [1, 2] 42 0).2 = 42 :=
  ⟨(info_clear_sw_stats rdev_recovering [1, 2] 42 0).1 ⟨3, 1, 4, 1, 5, 9, 2, 6, 5⟩ rfl,
   (info_clear_sw_stats rdev_zero [1, 2] 42 0).2.1 rfl,
   (info_clear_sw_stats rdev_recovering [1, 2] 42 0).2.2 (by norm_num)⟩

/-- C3: `bnxt_re_info_debugfs_clear` sets each of the nine resource high-water
marks to the current active count, sets `resize_count` to 0 and leaves the nine
active counts unchanged; hence afterwards `max_X_count = X_count` for every
resource `X`. -/
theorem info_clear_watermarks (rdev : bnxt_re_dev) (u : List Nat) (size : Nat) (off : Int) :
    let r := (bnxt_re_info_debugfs_clear rdev u size off).1.rsors
    (r.max_qp_count = rdev.rsors.qp_count ∧ r.max_rc_qp_count = rdev.rsors.rc_qp_count ∧
      r.max_ud_qp_count = rdev.rsors.ud_qp_count ∧ r.max_srq_count = rdev.rsors.srq_count ∧
      r.max_cq_count = rdev.rsors.cq_count ∧ r.max_mr_count = rdev.rsors.mr_count ∧
      r.max_mw_count = rdev.rsors.mw_count ∧ r.max_ah_count = rdev.rsors.ah_count ∧
      r.max_pd_count = rdev.rsors.pd_count) ∧
    r.resize_count = 0 ∧
    (r.qp_count = rdev.rsors.qp_count ∧ r.rc_qp_count = rdev.rsors.rc_qp_count ∧
      r.ud_qp_count = rdev.rsors.ud_qp_count ∧ r.srq_count = rdev.rsors.srq_count ∧
      r.cq_count = rdev.rsors.cq_count ∧ r.mr_count = rdev.rsors.mr_count ∧
      r.mw_count = rdev.rsors.mw_count ∧ r.ah_count = rdev.rsors.ah_count ∧
      r.pd_count = rdev.rsors.pd_count) ∧
    (r.max_qp_count = r.qp_count ∧ r.max_rc_qp_count = r.rc_qp_count ∧
      r.max_ud_qp_count = r.ud_qp_count ∧ r.max_srq_count = r.srq_count ∧
      r.max_cq_count = r.cq_count ∧ r.max_mr_count = r.mr_count ∧
      r.max_mw_count = r.mw_count ∧ r.max_ah_count = r.ah_count ∧
      r.max_pd_count = r.pd_count) := by
  cases h : rdev.dbr_sw_stats with
  | none => rw [info_clear_of_none rdev u size off h]; simp
  | some st => rw [info_clear_of_some rdev st u size off h]; simp

/-- C4: `bnxt_re_drv_stats_debugfs_clear` sets every counter of the doorbell-queue
debug statistics to 0 (the four FIFO-occupancy slabs, the five do-pacing slabs,
both water marks and the retry counter), leaves `mad_consumed` and
`mad_processed` unchanged, and returns the size it was given. -/
theorem drv_stats_clear_dbq (rdev : bnxt_re_dev) (u : List Nat) (size : Nat) (off : Int) :
    (bnxt_re_drv_stats_debugfs_clear rdev u size off).1.dbg_stats.dbq =
      { fifo_occup_slab_1 := 0, fifo_occup_slab_2 := 0, fifo_occup_slab_3 := 0,
        fifo_occup_slab_4 := 0, fifo_occup_water_mark := 0, do_pacing_slab_1 := 0,
        do_pacing_slab_2 := 0, do_pacing_slab_3 := 0, do_pacing_slab_4 := 0,
        do_pacing_slab_5 := 0, do_pacing_water_mark := 0, do_pacing_retry := 0 } ∧
    (bnxt_re_drv_stats_debugfs_clear rdev u size off).1.dbg_stats.mad.mad_consumed =
      rdev.dbg_stats.mad.mad_consumed ∧
    (bnxt_re_drv_stats_debugfs_clear rdev u size off).1.dbg_stats.mad.mad_processed =
      rdev.dbg_stats.mad.mad_processed ∧
    (size < 2 ^ 63 → (bnxt_re_drv_stats_debugfs_clear rdev u size off).2 = (size : Int)) :=
  ⟨rfl, rfl, rfl, fun hsz => ssize_t_of_eq size hsz⟩

/-- C4, evaluated: a 7-byte write to the driver debug statistics file returns 7. -/
theorem drv_stats_clear_dbq_witness :
    (bnxt_re_drv_stats_debugfs_clear rdev_zero [0] 7 0).2 = 7 :=
  (drv_stats_clear_dbq rdev_zero [0] 7 0).2.2.2 (by norm_num)

/-- C5 (as stated, refuted): with `sp_perf_stats_enabled` clear, a write to the
performance statistics file leaves `qp_create_stats[0] = 9` in place although
index 0 is below the bound 4. -/
theorem perf_clear_disabled_keeps_stats :
    rdev_perf_disabled.rcfw.sp_perf_stats_enabled = false ∧
    (bnxt_re_perf_debugfs_clear 4 4 rdev_perf_disabled [1] 1 0).1.rcfw.qp_create_stats 0 = 9 := by
  constructor <;> rfl

/-- C5 (amended): when `rcfw.sp_perf_stats_enabled` is set,
`bnxt_re_perf_debugfs_clear` zeroes every entry with index below
`RCFW_MAX_STAT_INDEX` of the five statistic arrays, the five `*_stats_id`
cursors and every `rcfw_lat_slab_msec` entry below
`RCFW_MAX_LATENCY_MSEC_SLAB_INDEX`; when it is not set the device is left as it
was; in both cases, whatever the bytes written, it returns `size`. -/
theorem perf_clear_when_enabled (N M : Nat) (rdev : bnxt_re_dev) (u : List Nat) (size : Nat)
    (off : Int) :
    (rdev.rcfw.sp_perf_stats_enabled = true →
      (∀ i, i < N →
        (bnxt_re_perf_debugfs_clear N M rdev u size off).1.rcfw.qp_create_stats i = 0 ∧
        (bnxt_re_perf_debugfs_clear N M rdev u size off).1.rcfw.qp_destroy_stats i = 0 ∧
        (bnxt_re_perf_debugfs_clear N M rdev u size off).1.rcfw.mr_create_stats i = 0 ∧
        (bnxt_re_perf_debugfs_clear N M rdev u size off).1.rcfw.mr_destroy_stats i = 0 ∧
        (bnxt_re_perf_debugfs_clear N M rdev u size off).1.rcfw.qp_modify_stats i = 0) ∧
      (bnxt_re_perf_debugfs_clear N M rdev u size off).1.rcfw.qp_create_stats_id = 0 ∧
      (bnxt_re_perf_debugfs_clear N M rdev u size off).1.rcfw.qp_destroy_stats_id = 0 ∧
      (bnxt_re_perf_debugfs_clear N M rdev u size off).1.rcfw.mr_create_stats_id = 0 ∧
      (bnxt_re_perf_debugfs_clear N M rdev u size off).1.rcfw.mr_destroy_stats_id = 0 ∧
      (bnxt_re_perf_debugfs_clear N M rdev u size off).1.rcfw.qp_modify_stats_id = 0 ∧
      (∀ i, i < M →
        (bnxt_re_perf_debugfs_clear N M rdev u size off).1.rcfw.rcfw_lat_slab_msec i = 0)) ∧
    (rdev.rcfw.sp_perf_stats_enabled = false →
      (bnxt_re_perf_debugfs_clear N M rdev u size off).1 = rdev) ∧
    (size < 2 ^ 63 → (bnxt_re_perf_debugfs_clear N M rdev u size off).2 = (size : Int)) := by
  refine ⟨?_, ?_, ?_⟩
  · intro h
    rw [perf_clear_of_enabled N M rdev u size off h]
    refine ⟨?_, rfl, rfl, rfl, rfl, rfl, ?_⟩
    · intro i hi
      simp [hi]
    · intro i hi
      simp [hi]
  · intro h
    rw [perf_clear_of_disabled N M rdev u size off h]
  · intro hsz
    cases h : rdev.rcfw.sp_perf_stats_enabled
    · rw [perf_clear_of_disabled N M rdev u size off h]; exact ssize_t_of_eq size hsz
    · rw [perf_clear_of_enabled N M rdev u size off h]; exact ssize_t_of_eq size hsz

/-- C5 (amended), evaluated with bounds 4 and 3 on a populated, enabled device:
entry 2 of `qp_create_stats` and of `rcfw_lat_slab_msec` and the
`qp_create_stats_id` cursor are 0 after a 10-byte write, which returns 10. -/
theorem perf_clear_when_enabled_witness :
    (bnxt_re_perf_debugfs_clear 4 3 rdev_perf_enabled [5] 10 0).1.rcfw.qp_create_stats 2 = 0 ∧
    (bnxt_re_perf_debugfs_clear 4 3 rdev_perf_enabled [5] 10 0).1.rcfw.qp_create_stats_id = 0 ∧
    (bnxt_re_perf_debugfs_clear 4 3 rdev_perf_enabled [5] 10 0).1.rcfw.rcfw_lat_slab_msec 2 = 0 ∧
    (bnxt_re_perf_debugfs_clear 4 3 rdev_perf_disabled [5] 10 0).1 = rdev_perf_disabled ∧
    (bnxt_re_perf_debugfs_clear 4 3 rdev_perf_enabled [5] 10 0).2 = 10 :=
  ⟨(((perf_clear_when_enabled 4 3 rdev_perf_enabled [5] 10 0).1 rfl).1 2 (by decide)).1,
   ((perf_clear_when_enabled 4 3 rdev_perf_enabled [5] 10 0).1 rfl).2.1,
   ((perf_clear_when_enabled 4 3 rdev_perf_enabled [5] 10 0).1 rfl).2.2.2.2.2.2 2 (by decide),
   (perf_clear_when_enabled 4 3 rdev_perf_disabled [5] 10 0).2.1 rfl,
   (perf_clear_when_enabled 4 3 rdev_perf_enabled [5] 10 0).2.2 (by norm_num)⟩

/-- C6: each of the three clear operations leaves the pacing state unchanged:
`dbr_do_pacing`, `dbr_def_do_pacing`, `dbq_watermark`, `pacing_algo_th`,
`pacing_en_int_th`, `do_pacing_save`, `dbq_pacing_time`, `dbr_pacing` and the
device `flags` word have the same values after the clear as before. -/
theorem clear_preserves_pacing_state (N M : Nat) (rdev : bnxt_re_dev) (u : List Nat)
    (size : Nat) (off : Int) :
    ((bnxt_re_info_debugfs_clear rdev u size off).1.dbr_do_pacing = rdev.dbr_do_pacing ∧
      (bnxt_re_info_debugfs_clear rdev u size off).1.dbr_def_do_pacing = rdev.dbr_def_do_pacing ∧
      (bnxt_re_info_debugfs_clear rdev u size off).1.dbq_watermark = rdev.dbq_watermark ∧
      (bnxt_re_info_debugfs_clear rdev u size off).1.pacing_algo_th = rdev.pacing_algo_th ∧
      (bnxt_re_info_debugfs_clear rdev u size off).1.pacing_en_int_th = rdev.pacing_en_int_th ∧
      (bnxt_re_info_debugfs_clear rdev u size off).1.do_pacing_save = rdev.do_pacing_save ∧
      (bnxt_re_info_debugfs_clear rdev u size off).1.dbq_pacing_time = rdev.dbq_pacing_time ∧
      (bnxt_re_info_debugfs_clear rdev u size off).1.dbr_pacing = rdev.dbr_pacing ∧
      (bnxt_re_info_debugfs_clear rdev u size off).1.flags = rdev.flags) ∧
    ((bnxt_re_perf_debugfs_clear N M rdev u size off).1.dbr_do_pacing = rdev.dbr_do_pacing ∧
      (bnxt_re_perf_debugfs_clear N M rdev u size off).1.dbr_def_do_pacing = rdev.dbr_def_do_pacing ∧
      (bnxt_re_perf_debugfs_clear N M rdev u size off).1.dbq_watermark = rdev.dbq_watermark ∧
      (bnxt_re_perf_debugfs_clear N M rdev u size off).1.pacing_algo_th = rdev.pacing_algo_th ∧
      (bnxt_re_perf_debugfs_clear N M rdev u size off).1.pacing_en_int_th = rdev.pacing_en_int_th ∧
      (bnxt_re_perf_debugfs_clear N M rdev u size off).1.do_pacing_save = rdev.do_pacing_save ∧
      (bnxt_re_perf_debugfs_clear N M rdev u size off).1.dbq_pacing_time = rdev.dbq_pacing_time ∧
      (bnxt_re_perf_debugfs_clear N M rdev u size off).1.dbr_pacing = rdev.dbr_pacing ∧
      (bnxt_re_perf_debugfs_clear N M rdev u size off).1.flags = rdev.flags) ∧
    ((bnxt_re_drv_stats_debugfs_clear rdev u size off).1.dbr_do_pacing = rdev.dbr_do_pacing ∧
      (bnxt_re_drv_stats_debugfs_clear rdev u size off).1.dbr_def_do_pacing = rdev.dbr_def_do_pacing ∧
      (bnxt_re_drv_stats_debugfs_clear rdev u size off).1.dbq_watermark = rdev.dbq_watermark ∧
      (bnxt_re_drv_stats_debugfs_clear rdev u size off).1.pacing_algo_th = rdev.pacing_algo_th ∧
      (bnxt_re_drv_stats_debugfs_clear rdev u size off).1.pacing_en_int_th = rdev.pacing_en_int_th ∧
      (bnxt_re_drv_stats_debugfs_clear rdev u size off).1.do_pacing_save = rdev.do_pacing_save ∧
      (bnxt_re_drv_stats_debugfs_clear rdev u size off).1.dbq_pacing_time = rdev.dbq_pacing_time ∧
      (bnxt_re_drv_stats_debugfs_clear rdev u size off).1.dbr_pacing = rdev.dbr_pacing ∧
      (bnxt_re_drv_stats_debugfs_clear rdev u size off).1.flags = rdev.flags) := by
  refine ⟨?_, ?_, ⟨rfl, rfl, rfl, rfl, rfl, rfl, rfl, rfl, rfl⟩⟩
  · cases h : rdev.dbr_sw_stats with
    | none =>
      rw [info_clear_of_none rdev u size off h]
      exact ⟨rfl, rfl, rfl, rfl, rfl, rfl, rfl, rfl, rfl⟩
    | some st =>
      rw [info_clear_of_some rdev st u size off h]
      exact ⟨rfl, rfl, rfl, rfl, rfl, rfl, rfl, rfl, rfl⟩
  · cases h : rdev.rcfw.sp_perf_stats_enabled
    · rw [perf_clear_of_disabled N M rdev u size off h]
      exact ⟨rfl, rfl, rfl, rfl, rfl, rfl, rfl, rfl, rfl⟩
    · rw [perf_clear_of_enabled N M rdev u size off h]
      exact ⟨rfl, rfl, rfl, rfl, rfl, rfl, rfl, rfl, rfl⟩

/-! ## Linked-list lemmas -/

theorem list_seg_valid_start (m : list_mem) (p : list_ptr) (l : List list_ptr) (q : list_ptr)
    (h : list_seg m p l q) : p.valid = true := by
  cases l with
  | nil => exact h.1
  | cons x xs => exact h.1

theorem list_seg_valid_mem (m : list_mem) (l : List list_ptr) :
    ∀ (p q : list_ptr), list_seg m p l q → ∀ a ∈ p :: l, a.valid = true := by
  induction l with
  | nil =>
    intro p q h a ha
    simp only [List.mem_singleton] at ha
    subst ha
    exact h.1
  | cons x xs ih =>
    intro p q h a ha
    rcases List.mem_cons.mp ha with rfl | ha'
    · exact h.1
    · exact ih x q h.2.2.2 a ha'

/-- A segment depends only on the `next` fields of its nodes other than the end
and on the `prev` fields of its nodes other than the start. -/
theorem list_seg_congr (m m' : list_mem) (l : List list_ptr) :
    ∀ (p q : list_ptr),
      (∀ a ∈ p :: l, (m' a).next = (m a).next) →
      (∀ a ∈ l ++ [q], (m' a).prev = (m a).prev) →
      list_seg m p l q → list_seg m' p l q := by
  induction l with
  | nil =>
    intro p q hn hp h
    refine ⟨h.1, h.2.1, ?_, ?_⟩
    · rw [hn p (by simp)]; exact h.2.2.1
    · rw [hp q (by simp)]; exact h.2.2.2
  | cons x xs ih =>
    intro p q hn hp h
    refine ⟨h.1, ?_, ?_, ?_⟩
    · rw [hn p (by simp)]; exact h.2.1
    · rw [hp x (by simp)]; exact h.2.2.1
    · apply ih x q _ _ h.2.2.2
      · intro a ha
        exact hn a (List.mem_cons_of_mem _ ha)
      · intro a ha
        exact hp a (by simpa using Or.inr (by simpa using ha))

/-- The node before the end of a segment is its last node. -/
theorem list_seg_last (m : list_mem) (l : List list_ptr) :
    ∀ (p q : list_ptr), list_seg m p l q →
      (m q).prev = l.getLastD p ∧ (m (l.getLastD p)).next = q ∧ l.getLastD p ∈ p :: l := by
  induction l with
  | nil =>
    intro p q h
    exact ⟨h.2.2.2, h.2.2.1, by simp⟩
  | cons x xs ih =>
    intro p q h
    obtain ⟨h1, h2, h3⟩ := ih x q h.2.2.2
    simp only [List.getLastD_cons]
    exact ⟨h1, h2, List.mem_cons_of_mem _ h3⟩

/-- Walking a segment visits exactly its nodes, given enough fuel. -/
theorem list_walk_seg (m : list_mem) (l : List list_ptr) :
    ∀ (p q : list_ptr) (k : Nat), list_seg m p l q → q ∉ l →
      list_walk m q (l.length + 1 + k) (m p).next = some l := by
  induction l with
  | nil =>
    intro p q k h _
    have hq : (m p).next = q := h.2.2.1
    have hlen : ([] : List list_ptr).length + 1 + k = k + 1 := by
      simp only [List.length_nil]; omega
    rw [hlen, hq]
    simp [list_walk]
  | cons x xs ih =>
    intro p q k h hq
    have hx : (m p).next = x := h.2.1
    have hne : x ≠ q := fun e => hq (by simp [e])
    have hxs : q ∉ xs := fun e => hq (List.mem_cons_of_mem _ e)
    have hv : x.valid = true := list_seg_valid_start m x xs q h.2.2.2
    have hrec := ih x q k h.2.2.2 hxs
    have hlen : (x :: xs).length + 1 + k = (xs.length + 1 + k) + 1 := by
      simp only [List.length_cons]; omega
    rw [hlen, hx]
    simp [list_walk, hne, list_read, hv, hrec]

/-- `list_for_each` on a well-formed list returns its nodes once the fuel exceeds
the length. -/
theorem list_for_each_is_list (m : list_mem) (head : list_ptr) (l : List list_ptr)
    (h : is_list m head l) (fuel : Nat) (hf : l.length < fuel) :
    list_for_each fuel m head = some l := by
  have hv : head.valid = true := list_seg_valid_start m head l head h.1
  have hq : head ∉ l := (List.nodup_cons.mp h.2).1
  obtain ⟨k, rfl⟩ : ∃ k, fuel = l.length + 1 + k := ⟨fuel - (l.length + 1), by omega⟩
  simp [list_for_each, list_read, hv, list_walk_seg m l head head k h.1 hq]

/-- Closed form of `list_add_tail`: with `tail = head->prev`, the stores are
`head->prev = new; new->next = head; new->prev = tail; tail->next = new`. -/
theorem list_add_tail_spec (m : list_mem) (new head : list_ptr)
    (hn : new.valid = true) (hh : head.valid = true) (ht : (m head).prev.valid = true) :
    ∃ m', list_add_tail new head m = some m' ∧
      ∀ a, (m' a).next =
            (if a = (m head).prev then new else if a = new then head else (m a).next) ∧
          (m' a).prev =
            (if a = new then (m head).prev else if a = head then new else (m a).prev) := by
  simp only [list_add_tail, __list_add, list_read, write_prev, write_next, hh, hn, ht,
    if_true, Option.bind_eq_bind, Option.some_bind, bind, Option.bind]
  refine ⟨_, rfl, ?_⟩
  intro a
  constructor <;> split_ifs <;> rfl

/-- Closed form of `list_del`: with `P = entry->prev` and `N = entry->next`, the
stores are `N->prev = P; P->next = N; entry->next = LIST_POISON1;
entry->prev = LIST_POISON2`. -/
theorem list_del_spec (m : list_mem) (entry : list_ptr)
    (he : entry.valid = true) (hp : (m entry).prev.valid = true)
    (hn : (m entry).next.valid = true) :
    ∃ m', list_del entry m = some m' ∧
      ∀ a, (m' a).next =
            (if a = entry then list_ptr.LIST_POISON1
             else if a = (m entry).prev then (m entry).next else (m a).next) ∧
          (m' a).prev =
            (if a = entry then list_ptr.LIST_POISON2
             else if a = (m entry).next then (m entry).prev else (m a).prev) := by
  simp only [list_del, __list_del, list_read, write_prev, write_next, he, hp, hn,
    if_true, Option.bind_eq_bind, Option.some_bind, bind, Option.bind]
  refine ⟨_, rfl, ?_⟩
  intro a
  constructor <;> split_ifs <;> rfl

/-- `list_del` faults when the entry's `next` link cannot be dereferenced. -/
theorem list_del_fault_next (m : list_mem) (entry : list_ptr)
    (hn : (m entry).next.valid = false) : list_del entry m = none := by
  by_cases he : entry.valid = true
  · simp [list_del, __list_del, list_read, write_prev, he, hn]
  · simp [list_del, list_read, he]

/-- `list_del` faults when the entry's `prev` link cannot be dereferenced. -/
theorem list_del_fault_prev (m : list_mem) (entry : list_ptr)
    (hp : (m entry).prev.valid = false) : list_del entry m = none := by
  by_cases he : entry.valid = true
  · by_cases hn : (m entry).next.valid = true
    · simp [list_del, __list_del, list_read, write_prev, write_next, he, hn, hp]
    · simp [list_del, __list_del, list_read, write_prev, he, hn]
  · simp [list_del, list_read, he]

/-- Appending a fresh node: the stores of `list_add_tail` extend every segment
that ends at `head` by the new node. -/
theorem list_seg_add_tail (m m' : list_mem) (new head tail : list_ptr)
    (hnv : new.valid = true) (hne : new ≠ head)
    (hnext : ∀ a, (m' a).next =
      if a = tail then new else if a = new then head else (m a).next)
    (hprev : ∀ a, (m' a).prev =
      if a = new then tail else if a = head then new else (m a).prev)
    (l : List list_ptr) :
    ∀ p, list_seg m p l head → (p :: l).Nodup → new ∉ p :: l → head ∉ l →
      l.getLastD p = tail → list_seg m' p (l ++ [new]) head := by
  induction l with
  | nil =>
    intro p h _ hnew _ ht
    simp only [List.getLastD_nil] at ht
    subst ht
    have hpn : new ≠ p := fun e => hnew (by simp [e])
    show list_seg m' p [new] head
    refine ⟨h.1, ?_, ?_, hnv, h.2.1, ?_, ?_⟩
    · rw [hnext]; simp
    · rw [hprev]; simp
    · rw [hnext]; simp [hpn]
    · rw [hprev]; simp [Ne.symm hne]
  | cons x xs ih =>
    intro p h hnd hnew hhead ht
    simp only [List.getLastD_cons] at ht
    have hnd' : (x :: xs).Nodup := (List.nodup_cons.mp hnd).2
    have hp : p ∉ x :: xs := (List.nodup_cons.mp hnd).1
    have hnew' : new ∉ x :: xs := fun e => hnew (List.mem_cons_of_mem _ e)
    have hhead' : head ∉ xs := fun e => hhead (List.mem_cons_of_mem _ e)
    have htail : tail ∈ x :: xs := by
      rw [← ht]; exact (list_seg_last m xs x head h.2.2.2).2.2
    show list_seg m' p (x :: (xs ++ [new])) head
    refine ⟨h.1, ?_, ?_, ih x h.2.2.2 hnd' hnew' hhead' ht⟩
    · rw [hnext]
      have h1 : p ≠ tail := fun e => hp (e ▸ htail)
      have h2 : p ≠ new := fun e => hnew (by simp [e])
      simp [h1, h2, h.2.1]
    · rw [hprev]
      have h1 : x ≠ new := fun e => hnew' (by simp [e])
      have h2 : x ≠ head := fun e => hhead (by simp [e])
      simp [h1, h2, h.2.2.1]

/-- `list_add_tail` of a node that is on the list neither as head nor as entry
appends it. -/
theorem is_list_add_tail (m : list_mem) (new head : list_ptr) (l : List list_ptr)
    (h : is_list m head l) (hnv : new.valid = true) (hnew : new ∉ head :: l) :
    ∃ m', list_add_tail new head m = some m' ∧ is_list m' head (l ++ [new]) ∧
      (∀ a, (m' a).next =
        if a = l.getLastD head then new else if a = new then head else (m a).next) ∧
      (∀ a, (m' a).prev =
        if a = new then l.getLastD head else if a = head then new else (m a).prev) := by
  obtain ⟨hprevq, _, hlastmem⟩ := list_seg_last m l head head h.1
  have hh : head.valid = true := list_seg_valid_start m head l head h.1
  have htv : (m head).prev.valid = true := by
    rw [hprevq]; exact list_seg_valid_mem m l head head h.1 _ hlastmem
  obtain ⟨m', hm', hspec⟩ := list_add_tail_spec m new head hnv hh htv
  rw [hprevq] at hspec
  have hne : new ≠ head := fun e => hnew (by simp [e])
  have hhl : head ∉ l := (List.nodup_cons.mp h.2).1
  refine ⟨m', hm', ⟨?_, ?_⟩, fun a => (hspec a).1, fun a => (hspec a).2⟩
  · exact list_seg_add_tail m m' new head (l.getLastD head) hnv hne
      (fun a => (hspec a).1) (fun a => (hspec a).2) l head h.1 h.2 hnew hhl rfl
  · have hperm : (head :: (l ++ [new])).Perm (new :: head :: l) := by
      have := List.perm_append_singleton new (head :: l)
      simpa using this
    exact hperm.nodup_iff.mpr (List.nodup_cons.mpr ⟨hnew, h.2⟩)

/-- The first node after the start of a segment. -/
theorem list_seg_first (m : list_mem) (p : list_ptr) (l : List list_ptr) (q : list_ptr)
    (h : list_seg m p l q) : (m p).next = l.headD q := by
  cases l with
  | nil => exact h.2.2.1
  | cons x xs => exact h.2.1

/-- The links of an interior node of a segment. -/
theorem list_seg_mid (m : list_mem) (x : list_ptr) (l2 : List list_ptr) (q : list_ptr)
    (l1 : List list_ptr) :
    ∀ p, list_seg m p (l1 ++ x :: l2) q →
      (m x).prev = l1.getLastD p ∧ (m x).next = l2.headD q ∧ x.valid = true := by
  induction l1 with
  | nil =>
    intro p h
    have h' : list_seg m p (x :: l2) q := h
    exact ⟨h'.2.2.1, list_seg_first m x l2 q h'.2.2.2,
      list_seg_valid_start m x l2 q h'.2.2.2⟩
  | cons z zs ih =>
    intro p h
    have h' : list_seg m p (z :: (zs ++ x :: l2)) q := h
    simpa only [List.getLastD_cons] using ih z h'.2.2.2

theorem getLastD_mem_cons {α : Type} (l : List α) :
    ∀ d : α, l.getLastD d ∈ d :: l := by
  induction l with
  | nil => intro d; simp
  | cons x xs ih =>
    intro d
    simp only [List.getLastD_cons]
    exact List.mem_cons_of_mem _ (ih x)

/-- Unlinking an interior node: the stores of `list_del` turn a segment through
`x` into the segment without `x`. -/
theorem list_seg_del (m m' : list_mem) (x P N : list_ptr)
    (hnext : ∀ a, (m' a).next =
      if a = x then list_ptr.LIST_POISON1 else if a = P then N else (m a).next)
    (hprev : ∀ a, (m' a).prev =
      if a = x then list_ptr.LIST_POISON2 else if a = N then P else (m a).prev)
    (hP : (m x).prev = P) (hN : (m x).next = N)
    (l2 : List list_ptr) (q : list_ptr) (l1 : List list_ptr) :
    ∀ p, list_seg m p (l1 ++ x :: l2) q → (p :: (l1 ++ x :: l2)).Nodup →
      q ∉ l1 ++ x :: l2 → list_seg m' p (l1 ++ l2) q := by
  induction l1 with
  | nil =>
    intro p h hnd hq
    have h' : list_seg m p (x :: l2) q := h
    have hnd' : (p :: x :: l2).Nodup := hnd
    have hq' : q ∉ x :: l2 := hq
    have hPp : P = p := by rw [← hP]; exact h'.2.2.1
    have hpx : p ≠ x := fun e => (List.nodup_cons.mp hnd').1 (by simp [e])
    have hqx : q ≠ x := fun e => hq' (by simp [e])
    show list_seg m' p l2 q
    cases l2 with
    | nil =>
      have hx : list_seg m x [] q := h'.2.2.2
      have hNq : N = q := by rw [← hN]; exact hx.2.2.1
      refine ⟨h'.1, hx.2.1, ?_, ?_⟩
      · rw [hnext]; simp [hpx, hPp, hNq]
      · rw [hprev]; simp [hqx, hPp, hNq]
    | cons y ys =>
      have hx : list_seg m x (y :: ys) q := h'.2.2.2
      have hNy : N = y := by rw [← hN]; exact hx.2.1
      have hxy : x ∉ y :: ys := (List.nodup_cons.mp (List.nodup_cons.mp hnd').2).1
      have hpy : p ∉ y :: ys := fun e =>
        (List.nodup_cons.mp hnd').1 (List.mem_cons_of_mem _ e)
      have hyys : y ∉ ys :=
        (List.nodup_cons.mp (List.nodup_cons.mp (List.nodup_cons.mp hnd').2).2).1
      have hyx : y ≠ x := fun e => hxy (by simp [e])
      have hqy : q ≠ y := fun e => hq' (by simp [e])
      refine ⟨h'.1, ?_, ?_, ?_⟩
      · rw [hnext]; simp [hpx, hPp, hNy]
      · rw [hprev]; simp [hyx, hPp, hNy]
      · apply list_seg_congr m m' ys y q _ _ hx.2.2.2
        · intro a ha
          have h1 : a ≠ x := fun e => hxy (e ▸ ha)
          have h2 : a ≠ P := fun e => hpy (hPp ▸ e ▸ ha)
          rw [hnext]; simp [h1, h2]
        · intro a ha
          rw [hprev]
          rcases List.mem_append.mp ha with ha' | ha'
          · have h1 : a ≠ x := fun e => hxy (List.mem_cons_of_mem _ (e ▸ ha'))
            have h2 : a ≠ N := fun e => hyys (hNy ▸ e ▸ ha')
            simp [h1, h2]
          · have haq : a = q := by simpa using ha'
            subst haq
            have h2 : a ≠ N := fun e => hqy (e.trans hNy)
            simp [hqx, h2]
  | cons z zs ih =>
    intro p h hnd hq
    have h' : list_seg m p (z :: (zs ++ x :: l2)) q := h
    have hnd' : (p :: z :: (zs ++ x :: l2)).Nodup := hnd
    have hq' : q ∉ z :: (zs ++ x :: l2) := hq
    have hndz : (z :: (zs ++ x :: l2)).Nodup := (List.nodup_cons.mp hnd').2
    have hqz : q ∉ zs ++ x :: l2 := fun e => hq' (List.mem_cons_of_mem _ e)
    obtain ⟨hmp, hmn, _⟩ := list_seg_mid m x l2 q zs z h'.2.2.2
    have hlast : zs.getLastD z ∈ z :: zs := getLastD_mem_cons zs z
    have hPmem : P ∈ z :: (zs ++ x :: l2) := by
      rw [← hP, hmp]
      rcases List.mem_cons.mp hlast with e | e
      · rw [e]; simp
      · exact List.mem_cons_of_mem _ (List.mem_append_left _ e)
    have hNmem : N ∈ l2 ++ [q] := by
      rw [← hN, hmn]
      cases l2 with
      | nil => simp
      | cons y ys => simp
    have hpx : p ≠ x := fun e =>
      (List.nodup_cons.mp hnd').1 (by rw [e]; simp)
    have hpP : p ≠ P := fun e => (List.nodup_cons.mp hnd').1 (e ▸ hPmem)
    have hzx : z ≠ x := fun e => (List.nodup_cons.mp hndz).1 (by rw [e]; simp)
    have hzN : z ≠ N := by
      intro e
      rcases List.mem_append.mp hNmem with h1 | h1
      · exact (List.nodup_cons.mp hndz).1 (by rw [e]; simp [h1])
      · have : N = q := by simpa using h1
        exact hq' (by rw [← this, ← e]; simp)
    show list_seg m' p (z :: (zs ++ l2)) q
    refine ⟨h'.1, ?_, ?_, ih z h'.2.2.2 hndz hqz⟩
    · rw [hnext]; simp [hpx, hpP, h'.2.1]
    · rw [hprev]; simp [hzx, hzN, h'.2.2.1]

/-- `list_del` of an entry of a well-formed list removes exactly that entry; its
two neighbours are nodes of the same list. -/
theorem is_list_del (m : list_mem) (x head : list_ptr) (l : List list_ptr)
    (h : is_list m head l) (hx : x ∈ l) :
    ∃ m', list_del x m = some m' ∧ is_list m' head (l.erase x) ∧
      (∀ a, (m' a).next =
        if a = x then list_ptr.LIST_POISON1
        else if a = (m x).prev then (m x).next else (m a).next) ∧
      (∀ a, (m' a).prev =
        if a = x then list_ptr.LIST_POISON2
        else if a = (m x).next then (m x).prev else (m a).prev) ∧
      (m x).prev ∈ head :: l ∧ (m x).next ∈ head :: l := by
  obtain ⟨l1, l2, rfl⟩ := List.append_of_mem hx
  have hnd : (head :: (l1 ++ x :: l2)).Nodup := h.2
  have hhead : head ∉ l1 ++ x :: l2 := (List.nodup_cons.mp hnd).1
  have hndl : (l1 ++ x :: l2).Nodup := (List.nodup_cons.mp hnd).2
  have hx1 : x ∉ l1 := by
    intro e
    have := (List.nodup_append.mp hndl).2.2
    exact this e (by simp) 
  obtain ⟨hmp, hmn, hxv⟩ := list_seg_mid m x l2 head l1 head h.1
  have hvalid := list_seg_valid_mem m (l1 ++ x :: l2) head head h.1
  have hPmem : (m x).prev ∈ head :: (l1 ++ x :: l2) := by
    rw [hmp]
    rcases List.mem_cons.mp (getLastD_mem_cons l1 head) with e | e
    · rw [e]; simp
    · exact List.mem_cons_of_mem _ (List.mem_append_left _ e)
  have hNmem : (m x).next ∈ head :: (l1 ++ x :: l2) := by
    rw [hmn]
    cases l2 with
    | nil => simp
    | cons y ys => simp
  obtain ⟨m', hm', hspec⟩ := list_del_spec m x hxv (hvalid _ hPmem) (hvalid _ hNmem)
  have herase : (l1 ++ x :: l2).erase x = l1 ++ l2 := by
    rw [List.erase_append_right _ hx1, List.erase_cons_head]
  refine ⟨m', hm', ⟨?_, ?_⟩, fun a => (hspec a).1, fun a => (hspec a).2, hPmem, hNmem⟩
  · rw [herase]
    exact list_seg_del m m' x (m x).prev (m x).next (fun a => (hspec a).1)
      (fun a => (hspec a).2) rfl rfl l2 head l1 head h.1 hnd hhead
  · rw [herase]
    have hsub : (head :: (l1 ++ l2)).Sublist (head :: (l1 ++ x :: l2)) :=
      List.Sublist.cons₂ _ (List.Sublist.append (List.Sublist.refl _)
        (List.sublist_cons_self _ _))
    exact hnd.sublist hsub

/-- A list whose nodes keep their link fields stays the same list. -/
theorem is_list_frame (m m' : list_mem) (head : list_ptr) (l : List list_ptr)
    (hsame : ∀ a ∈ head :: l, (m' a).next = (m a).next ∧ (m' a).prev = (m a).prev)
    (h : is_list m head l) : is_list m' head l := by
  refine ⟨list_seg_congr m m' l head head (fun a ha => (hsame a ha).1) ?_ h.1, h.2⟩
  intro a ha
  rcases List.mem_append.mp ha with h1 | h1
  · exact (hsame a (List.mem_cons_of_mem _ h1)).2
  · have : a = head := by simpa using h1
    exact (hsame a (by simp [this])).2

theorem dbr_list_injective : Function.Injective list_ptr.dbr_list := by
  intro a b h
  exact list_ptr.dbr_list.inj h

theorem dbr_list_mem_map (h : Nat) (l : List Nat) :
    list_ptr.dbr_list h ∈ l.map list_ptr.dbr_list ↔ h ∈ l :=
  List.mem_map_of_injective dbr_list_injective

theorem res_list_head_not_mem_map (t : Nat) (l : List Nat) :
    list_ptr.res_list_head t ∉ l.map list_ptr.dbr_list := by
  simp

/-- The nodes of the lists of two different resource types are disjoint. -/
theorem res_lists_nodes_disjoint (ls : Nat → List Nat) (t T : Nat) (hne : t ≠ T)
    (hdis : ∀ h ∈ ls t, h ∉ ls T) :
    ∀ a ∈ list_ptr.res_list_head t :: (ls t).map list_ptr.dbr_list,
      a ∉ list_ptr.res_list_head T :: (ls T).map list_ptr.dbr_list := by
  intro a ha hb
  rcases List.mem_cons.mp ha with rfl | ha'
  · rcases List.mem_cons.mp hb with e | e
    · exact hne (list_ptr.res_list_head.inj e)
    · exact res_list_head_not_mem_map t _ e
  · obtain ⟨h, hh, rfl⟩ := List.mem_map.mp ha'
    rcases List.mem_cons.mp hb with e | e
    · cases e
    · exact hdis h hh ((dbr_list_mem_map h _).mp e)

/-- `BNXT_RE_DBR_LIST_ADD` of a handle that is not on the list of type `T`
appends it to that list. -/
theorem dbr_list_add_is_list (m : list_mem) (T H : Nat) (l : List Nat)
    (h : is_list m (.res_list_head T) (l.map .dbr_list)) (hH : H ∉ l) :
    ∃ m', BNXT_RE_DBR_LIST_ADD m H T = some m' ∧
      is_list m' (.res_list_head T) ((l ++ [H]).map .dbr_list) ∧
      (∀ a, (m' a).next =
        if a = (l.map list_ptr.dbr_list).getLastD (.res_list_head T) then .dbr_list H
        else if a = .dbr_list H then .res_list_head T else (m a).next) ∧
      (∀ a, (m' a).prev =
        if a = .dbr_list H then (l.map list_ptr.dbr_list).getLastD (.res_list_head T)
        else if a = .res_list_head T then .dbr_list H else (m a).prev) := by
  have hnew : list_ptr.dbr_list H ∉ list_ptr.res_list_head T :: l.map list_ptr.dbr_list := by
    intro e
    rcases List.mem_cons.mp e with e' | e'
    · cases e'
    · exact hH ((dbr_list_mem_map H l).mp e')
  obtain ⟨m', hm', hl, hn, hp⟩ :=
    is_list_add_tail m (.dbr_list H) (.res_list_head T) (l.map .dbr_list) h rfl hnew
  refine ⟨m', hm', ?_, hn, hp⟩
  simpa using hl

/-- `BNXT_RE_DBR_LIST_DEL` of a handle that is on the list of type `T` removes
it from that list. -/
theorem dbr_list_del_is_list (m : list_mem) (T T' H : Nat) (l : List Nat)
    (hT' : T' < BNXT_RE_RES_TYPE_MAX)
    (h : is_list m (.res_list_head T) (l.map .dbr_list)) (hH : H ∈ l) :
    ∃ m', BNXT_RE_DBR_LIST_DEL m H T' = some m' ∧
      is_list m' (.res_list_head T) ((l.erase H).map .dbr_list) ∧
      (∀ a, (m' a).next =
        if a = .dbr_list H then list_ptr.LIST_POISON1
        else if a = (m (.dbr_list H)).prev then (m (.dbr_list H)).next else (m a).next) ∧
      (∀ a, (m' a).prev =
        if a = .dbr_list H then list_ptr.LIST_POISON2
        else if a = (m (.dbr_list H)).next then (m (.dbr_list H)).prev else (m a).prev) ∧
      (m (.dbr_list H)).prev ∈ list_ptr.res_list_head T :: l.map list_ptr.dbr_list ∧
      (m (.dbr_list H)).next ∈ list_ptr.res_list_head T :: l.map list_ptr.dbr_list := by
  obtain ⟨m', hm', hl, hn, hp, hP, hN⟩ :=
    is_list_del m (.dbr_list H) (.res_list_head T) (l.map .dbr_list) h
      ((dbr_list_mem_map H l).mpr hH)
  have hv : (list_ptr.res_list_head T').valid = true := by
    simp [list_ptr.valid, hT']
  refine ⟨m', ?_, ?_, hn, hp, hP, hN⟩
  · simp [BNXT_RE_DBR_LIST_DEL, hv, hm']
  · rw [List.map_erase dbr_list_injective]
    exact hl

/-! ## Claims about the resource lists -/

/-- C7 (as stated, refuted): the CQ list holds the handles 1, 2; after
`BNXT_RE_DBR_LIST_ADD` of handle 1, which is already on that list, the list
enumerates as just 1, not as 1, 2, 1: handle 2 is no longer reached. -/
theorem dbr_list_add_linked_handle :
    res_lists_wf res_list_cq_1_2 (fun t => if t = 0 then [1, 2] else []) ∧
    list_for_each 8 res_list_cq_1_2 (.res_list_head BNXT_RE_RES_TYPE_CQ) =
      some [.dbr_list 1, .dbr_list 2] ∧
    (BNXT_RE_DBR_LIST_ADD res_list_cq_1_2 1 BNXT_RE_RES_TYPE_CQ).bind
        (fun m => list_for_each 8 m (.res_list_head BNXT_RE_RES_TYPE_CQ)) =
      some [.dbr_list 1] ∧
    (BNXT_RE_DBR_LIST_ADD res_list_cq_1_2 1 BNXT_RE_RES_TYPE_CQ).bind
        (fun m => list_for_each 8 m (.res_list_head BNXT_RE_RES_TYPE_CQ)) ≠
      some [.dbr_list 1, .dbr_list 2, .dbr_list 1] := by
  refine ⟨⟨by decide, ?_⟩, by decide, by decide, by decide⟩
  intro t _ t' _ hne h hh
  by_cases e : t = 0 <;> by_cases e' : t' = 0 <;> simp_all


/-- C7 (amended): for well-formed resource lists, a resource type `T` below
`BNXT_RE_RES_TYPE_MAX` and a handle `H` that is not linked on any of the four
lists, `BNXT_RE_DBR_LIST_ADD(rdev, H, T)` succeeds, `res_list[T]` then holds its
previous contents followed by `H`, and the lists of the other three resource
types keep their contents. -/
theorem dbr_list_add_fresh (m : list_mem) (ls : Nat → List Nat) (T H : Nat)
    (hwf : res_lists_wf m ls) (hT : T < BNXT_RE_RES_TYPE_MAX)
    (hfresh : ∀ t, t < BNXT_RE_RES_TYPE_MAX → H ∉ ls t) :
    ∃ m', BNXT_RE_DBR_LIST_ADD m H T = some m' ∧
      res_lists_wf m' (fun t => if t = T then ls T ++ [H] else ls t) ∧
      (∀ fuel, (ls T).length + 1 < fuel →
        list_for_each fuel m' (.res_list_head T) = some ((ls T ++ [H]).map .dbr_list)) ∧
      (∀ t, t < BNXT_RE_RES_TYPE_MAX → t ≠ T → ∀ fuel, (ls t).length < fuel →
        list_for_each fuel m' (.res_list_head t) = some ((ls t).map .dbr_list)) := by
  obtain ⟨m', hm', hl, hn, hp⟩ :=
    dbr_list_add_is_list m T H (ls T) (hwf.1 T hT) (hfresh T hT)
  have hother : ∀ t, t < BNXT_RE_RES_TYPE_MAX → t ≠ T →
      is_list m' (.res_list_head t) ((ls t).map .dbr_list) := by
    intro t ht hne
    apply is_list_frame m m' _ _ _ (hwf.1 t ht)
    intro a ha
    have hdisj := res_lists_nodes_disjoint ls t T hne (hwf.2 t ht T hT hne) a ha
    have h1 : a ≠ ((ls T).map list_ptr.dbr_list).getLastD (.res_list_head T) :=
      fun e => hdisj (e ▸ getLastD_mem_cons _ _)
    have h2 : a ≠ list_ptr.dbr_list H := by
      intro e
      subst e
      rcases List.mem_cons.mp ha with e' | e'
      · cases e'
      · exact hfresh t ht ((dbr_list_mem_map H _).mp e')
    have h3 : a ≠ list_ptr.res_list_head T := fun e => hdisj (by simp [e])
    rw [hn, hp, if_neg h1, if_neg h2, if_neg h2, if_neg h3]
    exact ⟨rfl, rfl⟩
  refine ⟨m', hm', ⟨?_, ?_⟩, ?_, ?_⟩
  · intro t ht
    by_cases e : t = T
    · subst e; simpa using hl
    · simpa [e] using hother t ht e
  · intro t ht t' ht' hne h hh
    by_cases e : t = T
    · subst e
      have e' : t' ≠ t := fun x => hne x.symm
      simp only [if_true, List.mem_append, List.mem_singleton] at hh
      simp only [e', if_false]
      rcases hh with hh | hh
      · exact hwf.2 t ht t' ht' hne h hh
      · subst hh; exact hfresh t' ht'
    · simp only [e, if_false] at hh
      by_cases e' : t' = T
      · subst e'
        simp only [if_true, List.mem_append, List.mem_singleton, not_or]
        refine ⟨hwf.2 t ht t' ht' hne h hh, ?_⟩
        intro x
        subst x
        exact hfresh t ht hh
      · simp only [e', if_false]
        exact hwf.2 t ht t' ht' hne h hh
  · intro fuel hf
    exact list_for_each_is_list m' _ _ hl fuel (by simpa using hf)
  · intro t ht hne fuel hf
    exact list_for_each_is_list m' _ _ (hother t ht hne) fuel (by simpa using hf)

/-- C7 (amended), evaluated: handle 3, linked nowhere, is appended to the CQ list
1, 2, which then enumerates as 1, 2, 3. -/
theorem dbr_list_add_fresh_witness :
    ∃ m', BNXT_RE_DBR_LIST_ADD res_list_cq_1_2 3 BNXT_RE_RES_TYPE_CQ = some m' ∧
      list_for_each 4 m' (.res_list_head BNXT_RE_RES_TYPE_CQ) =
        some [.dbr_list 1, .dbr_list 2, .dbr_list 3] := by
  have hwf : res_lists_wf res_list_cq_1_2 (fun t => if t = 0 then [1, 2] else []) := by
    refine ⟨by decide, ?_⟩
    intro t _ t' _ hne h hh
    by_cases e : t = 0 <;> by_cases e' : t' = 0 <;> simp_all
  obtain ⟨m', h1, _, h3, _⟩ :=
    dbr_list_add_fresh res_list_cq_1_2 (fun t => if t = 0 then [1, 2] else []) 0 3 hwf
      (by decide) (by intro t _; by_cases e : t = 0 <;> simp [e])
  exact ⟨m', h1, h3 4 (by decide)⟩

/-- C8: if `res_list[T]` holds the handles `l` and `H` is not among them, then
`BNXT_RE_DBR_LIST_ADD(rdev, H, T)` followed by `BNXT_RE_DBR_LIST_DEL(rdev, H, T)`
both succeed and restore `res_list[T]` to exactly `l`: every list node other than
`H` itself has its links back, an enumeration of `res_list[T]` yields `l`, and it
does not yield `H`. -/
theorem dbr_list_add_del_restores (m : list_mem) (T H : Nat) (l : List Nat)
    (h : is_list m (.res_list_head T) (l.map .dbr_list)) (hH : H ∉ l) :
    ∃ m1 m2, BNXT_RE_DBR_LIST_ADD m H T = some m1 ∧
      BNXT_RE_DBR_LIST_DEL m1 H T = some m2 ∧
      (∀ a, a ≠ list_ptr.dbr_list H → m2 a = m a) ∧
      is_list m2 (.res_list_head T) (l.map .dbr_list) ∧
      (∀ fuel, l.length < fuel →
        list_for_each fuel m2 (.res_list_head T) = some (l.map .dbr_list) ∧
        ∀ pos, list_for_each fuel m2 (.res_list_head T) = some pos →
          list_ptr.dbr_list H ∉ pos) := by
  have hv : (list_ptr.res_list_head T).valid = true :=
    list_seg_valid_start m _ _ _ h.1
  have hT : T < BNXT_RE_RES_TYPE_MAX := by simpa [list_ptr.valid] using hv
  obtain ⟨hq, hlast, hmem⟩ := list_seg_last m _ _ _ h.1
  obtain ⟨m1, hm1, hl1, hn1, hp1⟩ := dbr_list_add_is_list m T H l h hH
  obtain ⟨m2, hm2, _, hn2, hp2, _, _⟩ :=
    dbr_list_del_is_list m1 T T H (l ++ [H]) hT hl1 (by simp)
  have hHnot : list_ptr.dbr_list H ∉ list_ptr.res_list_head T :: l.map list_ptr.dbr_list := by
    intro e
    rcases List.mem_cons.mp e with e' | e'
    · cases e'
    · exact hH ((dbr_list_mem_map H l).mp e')
  have hHtail : list_ptr.dbr_list H ≠
      (l.map list_ptr.dbr_list).getLastD (.res_list_head T) := fun e => hHnot (e ▸ hmem)
  have hHhead : list_ptr.dbr_list H ≠ list_ptr.res_list_head T := fun e => by cases e
  have hprevH : (m1 (.dbr_list H)).prev =
      (l.map list_ptr.dbr_list).getLastD (.res_list_head T) := by
    rw [hp1, if_pos rfl]
  have hnextH : (m1 (.dbr_list H)).next = list_ptr.res_list_head T := by
    rw [hn1, if_neg hHtail, if_pos rfl]
  have hsame : ∀ a, a ≠ list_ptr.dbr_list H →
      (m2 a).next = (m a).next ∧ (m2 a).prev = (m a).prev := by
    intro a ha
    constructor
    · rw [hn2, if_neg ha, hprevH, hnextH, hn1, if_neg ha]
      by_cases e : a = (l.map list_ptr.dbr_list).getLastD (.res_list_head T)
      · rw [if_pos e, e, hlast]
      · rw [if_neg e, if_neg e]
    · rw [hp2, if_neg ha, hprevH, hnextH, hp1, if_neg ha]
      by_cases e : a = list_ptr.res_list_head T
      · rw [if_pos e, e, hq]
      · rw [if_neg e, if_neg e]
  have hrestore : ∀ a, a ≠ list_ptr.dbr_list H → m2 a = m a := by
    intro a ha
    obtain ⟨e1, e2⟩ := hsame a ha
    cases hx : m2 a
    cases hy : m a
    rw [hx, hy] at e1 e2
    simp only at e1 e2
    rw [e1, e2]
  have hl2 : is_list m2 (.res_list_head T) (l.map .dbr_list) := by
    apply is_list_frame m m2 _ _ _ h
    intro a ha
    exact hsame a (fun e => hHnot (e ▸ ha))
  refine ⟨m1, m2, hm1, hm2, hrestore, hl2, ?_⟩
  intro fuel hf
  have hfe := list_for_each_is_list m2 _ _ hl2 fuel (by simpa using hf)
  refine ⟨hfe, ?_⟩
  intro pos hpos
  rw [hfe] at hpos
  cases hpos
  exact fun e => hH ((dbr_list_mem_map H l).mp e)

/-- C8, evaluated: registering and deregistering handle 3 on the CQ list 1, 2
leaves a list that enumerates as 1, 2. -/
theorem dbr_list_add_del_restores_witness :
    ∃ m1 m2, BNXT_RE_DBR_LIST_ADD res_list_cq_1_2 3 BNXT_RE_RES_TYPE_CQ = some m1 ∧
      BNXT_RE_DBR_LIST_DEL m1 3 BNXT_RE_RES_TYPE_CQ = some m2 ∧
      list_for_each 3 m2 (.res_list_head BNXT_RE_RES_TYPE_CQ) =
        some [.dbr_list 1, .dbr_list 2] := by
  obtain ⟨m1, m2, h1, h2, _, _, h5⟩ :=
    dbr_list_add_del_restores res_list_cq_1_2 0 3 [1, 2] (by decide) (by decide)
  exact ⟨m1, m2, h1, h2, (h5 3 (by decide)).1⟩

/-- C9 (as stated, refuted): deleting a handle that is not a member of
`res_list[T]` is not a no-op.  Handle 7 was registered and deregistered and is on
no list: a second `BNXT_RE_DBR_LIST_DEL` dereferences the poisoned link and
faults.  A handle that was never registered has zeroed links and faults as well.
Handle 1 is on the QP list and not on the CQ list: `BNXT_RE_DBR_LIST_DEL` with
type CQ removes it from the QP list. -/
theorem dbr_list_del_absent_handle :
    (res_lists_wf res_list_7_deleted (fun _ => []) ∧
      BNXT_RE_DBR_LIST_DEL res_list_7_deleted 7 BNXT_RE_RES_TYPE_CQ = none) ∧
    (((BNXT_RE_DBR_LIST_ADD res_list_init 7 BNXT_RE_RES_TYPE_CQ).bind
        (fun m => BNXT_RE_DBR_LIST_DEL m 7 BNXT_RE_RES_TYPE_CQ)).isSome = true ∧
      ((BNXT_RE_DBR_LIST_ADD res_list_init 7 BNXT_RE_RES_TYPE_CQ).bind
        (fun m => BNXT_RE_DBR_LIST_DEL m 7 BNXT_RE_RES_TYPE_CQ)).bind
        (fun m => BNXT_RE_DBR_LIST_DEL m 7 BNXT_RE_RES_TYPE_CQ) = none) ∧
    (res_lists_wf res_list_init (fun _ => []) ∧
      BNXT_RE_DBR_LIST_DEL res_list_init 7 BNXT_RE_RES_TYPE_CQ = none) ∧
    (res_lists_wf res_list_qp_1 (fun t => if t = 2 then [1] else []) ∧
      list_for_each 4 res_list_qp_1 (.res_list_head BNXT_RE_RES_TYPE_QP) =
        some [.dbr_list 1] ∧
      (BNXT_RE_DBR_LIST_DEL res_list_qp_1 1 BNXT_RE_RES_TYPE_CQ).bind
          (fun m => list_for_each 4 m (.res_list_head BNXT_RE_RES_TYPE_QP)) =
        some []) := by
  refine ⟨⟨⟨by decide, ?_⟩, rfl⟩, ⟨by decide, rfl⟩, ⟨⟨by decide, ?_⟩, rfl⟩,
    ⟨⟨by decide, ?_⟩, by decide, by decide⟩⟩
  · intro t _ t' _ _ h hh
    simp at hh
  · intro t _ t' _ _ h hh
    simp at hh
  · intro t _ t' _ hne h hh
    by_cases e : t = 2 <;> by_cases e' : t' = 2 <;> simp_all

/-- C9 (amended): for well-formed resource lists and a resource type `T` below
`BNXT_RE_RES_TYPE_MAX`, `BNXT_RE_DBR_LIST_DEL(rdev, H, T)` of a handle `H` that
is on `res_list[T]` succeeds, removes exactly `H` from `res_list[T]` (the other
entries keep their order) and leaves the other resource lists as they were.  The
macro has no membership test: when a link of `H` cannot be dereferenced (it holds
the poison value of an earlier `list_del`, or `NULL`), it faults. -/
theorem dbr_list_del_member (m : list_mem) (ls : Nat → List Nat) (T H : Nat)
    (hwf : res_lists_wf m ls) (hT : T < BNXT_RE_RES_TYPE_MAX) :
    (H ∈ ls T →
      ∃ m', BNXT_RE_DBR_LIST_DEL m H T = some m' ∧
        res_lists_wf m' (fun t => if t = T then (ls T).erase H else ls t) ∧
        (∀ fuel, ((ls T).erase H).length < fuel →
          list_for_each fuel m' (.res_list_head T) =
            some (((ls T).erase H).map .dbr_list)) ∧
        (∀ t, t < BNXT_RE_RES_TYPE_MAX → t ≠ T → ∀ fuel, (ls t).length < fuel →
          list_for_each fuel m' (.res_list_head t) = some ((ls t).map .dbr_list))) ∧
    ((m (.dbr_list H)).next.valid = false ∨ (m (.dbr_list H)).prev.valid = false →
      BNXT_RE_DBR_LIST_DEL m H T = none) := by
  constructor
  · intro hH
    obtain ⟨m', hm', hl, hn, hp, hP, hN⟩ :=
      dbr_list_del_is_list m T T H (ls T) hT (hwf.1 T hT) hH
    have hother : ∀ t, t < BNXT_RE_RES_TYPE_MAX → t ≠ T →
        is_list m' (.res_list_head t) ((ls t).map .dbr_list) := by
      intro t ht hne
      apply is_list_frame m m' _ _ _ (hwf.1 t ht)
      intro a ha
      have hdisj := res_lists_nodes_disjoint ls t T hne (hwf.2 t ht T hT hne) a ha
      have h1 : a ≠ list_ptr.dbr_list H :=
        fun e => hdisj (e ▸ List.mem_cons_of_mem _ ((dbr_list_mem_map H _).mpr hH))
      have h2 : a ≠ (m (.dbr_list H)).prev := fun e => hdisj (e ▸ hP)
      have h3 : a ≠ (m (.dbr_list H)).next := fun e => hdisj (e ▸ hN)
      rw [hn, hp, if_neg h1, if_neg h2, if_neg h1, if_neg h3]
      exact ⟨rfl, rfl⟩
    refine ⟨m', hm', ⟨?_, ?_⟩, ?_, ?_⟩
    · intro t ht
      by_cases e : t = T
      · subst e; simpa using hl
      · simpa [e] using hother t ht e
    · intro t ht t' ht' hne h hh
      have hsub : ∀ s, (if s = T then (ls T).erase H else ls s) ⊆ ls s := by
        intro s
        by_cases e : s = T
        · subst e; simpa using List.erase_subset H (ls s)
        · simp [e]
      exact fun hh' => hwf.2 t ht t' ht' hne h (hsub t hh) (hsub t' hh')
    · intro fuel hf
      exact list_for_each_is_list m' _ _ hl fuel (by simpa using hf)
    · intro t ht hne fuel hf
      exact list_for_each_is_list m' _ _ (hother t ht hne) fuel (by simpa using hf)
  · intro hpo
    have hh : (list_ptr.res_list_head T).valid = true := by simp [list_ptr.valid, hT]
    rcases hpo with hv | hv
    · simp [BNXT_RE_DBR_LIST_DEL, hh, list_del_fault_next m (.dbr_list H) hv]
    · simp [BNXT_RE_DBR_LIST_DEL, hh, list_del_fault_prev m (.dbr_list H) hv]

/-- C9 (amended), evaluated: deleting handle 1 from the CQ list 1, 2 leaves the
list 2; deleting the already deregistered handle 7 faults. -/
theorem dbr_list_del_member_witness :
    (∃ m', BNXT_RE_DBR_LIST_DEL res_list_cq_1_2 1 BNXT_RE_RES_TYPE_CQ = some m' ∧
      list_for_each 2 m' (.res_list_head BNXT_RE_RES_TYPE_CQ) = some [.dbr_list 2]) ∧
    BNXT_RE_DBR_LIST_DEL res_list_7_deleted 7 BNXT_RE_RES_TYPE_CQ = none := by
  have hwf : res_lists_wf res_list_cq_1_2 (fun t => if t = 0 then [1, 2] else []) := by
    refine ⟨by decide, ?_⟩
    intro t _ t' _ hne h hh
    by_cases e : t = 0 <;> by_cases e' : t' = 0 <;> simp_all
  have hwf7 : res_lists_wf res_list_7_deleted (fun _ => []) := by
    refine ⟨by decide, ?_⟩
    intro t _ t' _ _ h hh
    simp at hh
  constructor
  · obtain ⟨m', h1, _, h3, _⟩ :=
      (dbr_list_del_member res_list_cq_1_2 (fun t => if t = 0 then [1, 2] else []) 0 1 hwf
        (by decide)).1 (by decide)
    exact ⟨m', h1, h3 2 (by decide)⟩
  · exact (dbr_list_del_member res_list_7_deleted (fun _ => []) 0 7 hwf7 (by decide)).2
      (Or.inl rfl)

/-! ## Sequences of registrations and deregistrations -/

theorem unmatched_add_nil (h : Nat) : ¬ unmatched_add [] h := by
  rintro ⟨pre, post, e, _⟩
  cases pre <;> simp at e

theorem unmatched_add_cons (o : dbr_list_op) (ops : List dbr_list_op) (h : Nat)
    (hu : unmatched_add ops h) : unmatched_add (o :: ops) h := by
  obtain ⟨pre, post, e, h1, h2⟩ := hu
  exact ⟨o :: pre, post, by rw [e]; rfl, h1, h2⟩

theorem unmatched_add_cons_add (a : Nat) (ops : List dbr_list_op) (h : Nat) :
    unmatched_add (.add a :: ops) h ↔
      unmatched_add ops h ∨ (a = h ∧ dbr_list_op.add h ∉ ops ∧ dbr_list_op.del h ∉ ops) := by
  constructor
  · rintro ⟨pre, post, e, h1, h2⟩
    cases pre with
    | nil =>
      simp only [List.nil_append, List.cons.injEq, dbr_list_op.add.injEq] at e
      obtain ⟨e1, e2⟩ := e
      subst e2
      exact Or.inr ⟨e1, h1, h2⟩
    | cons o pre' =>
      simp only [List.cons_append, List.cons.injEq] at e
      exact Or.inl ⟨pre', post, e.2, h1, h2⟩
  · rintro (hu | ⟨e, h1, h2⟩)
    · exact unmatched_add_cons _ _ _ hu
    · subst e
      exact ⟨[], ops, rfl, h1, h2⟩

theorem unmatched_add_cons_del (a : Nat) (ops : List dbr_list_op) (h : Nat) :
    unmatched_add (.del a :: ops) h ↔ unmatched_add ops h := by
  constructor
  · rintro ⟨pre, post, e, h1, h2⟩
    cases pre with
    | nil => simp at e
    | cons o pre' =>
      simp only [List.cons_append, List.cons.injEq] at e
      exact ⟨pre', post, e.2, h1, h2⟩
  · exact unmatched_add_cons _ _ _

/-- A handle that is added and never deleted has an unmatched add. -/
theorem unmatched_add_of_mem (ops : List dbr_list_op) (h : Nat)
    (hadd : dbr_list_op.add h ∈ ops) (hdel : dbr_list_op.del h ∉ ops) :
    unmatched_add ops h := by
  induction ops with
  | nil => simp at hadd
  | cons o ops ih =>
    have hdel' : dbr_list_op.del h ∉ ops := fun e => hdel (List.mem_cons_of_mem _ e)
    by_cases hin : dbr_list_op.add h ∈ ops
    · exact unmatched_add_cons _ _ _ (ih hin hdel')
    · rcases List.mem_cons.mp hadd with e | e
      · subst e
        exact ⟨[], ops, rfl, hin, hdel'⟩
      · exact absurd e hin

theorem dbr_ops_ok_of_append (pre post : List dbr_list_op) :
    ∀ cur, dbr_ops_ok cur (pre ++ post) → dbr_ops_ok cur pre := by
  induction pre with
  | nil => intro cur _; trivial
  | cons o pre ih =>
    intro cur h
    cases o with
    | add a =>
      have h' : a ∉ cur ∧ dbr_ops_ok (cur ++ [a]) (pre ++ post) := h
      exact ⟨h'.1, ih _ h'.2⟩
    | del a =>
      have h' : a ∈ cur ∧ dbr_ops_ok (cur.erase a) (pre ++ post) := h
      exact ⟨h'.1, ih _ h'.2⟩

/-- Running a sequence that respects the usage rule on a well-formed list
succeeds and yields a well-formed list whose members are the handles with an
unmatched add and the initial members that were never deleted. -/
theorem dbr_list_run_spec (T : Nat) (ops : List dbr_list_op) :
    ∀ (m : list_mem) (cur : List Nat),
      is_list m (.res_list_head T) (cur.map .dbr_list) → dbr_ops_ok cur ops →
      ∃ (m' : list_mem) (l : List Nat), dbr_list_run T ops m = some m' ∧
        is_list m' (.res_list_head T) (l.map .dbr_list) ∧
        ∀ h, h ∈ l ↔ (unmatched_add ops h ∨ (h ∈ cur ∧ dbr_list_op.del h ∉ ops)) := by
  induction ops with
  | nil =>
    intro m cur hl _
    refine ⟨m, cur, rfl, hl, ?_⟩
    intro h
    simp [unmatched_add_nil]
  | cons o ops ih =>
    intro m cur hl hok
    have hv : (list_ptr.res_list_head T).valid = true := list_seg_valid_start m _ _ _ hl.1
    have hT : T < BNXT_RE_RES_TYPE_MAX := by simpa [list_ptr.valid] using hv
    cases o with
    | add a =>
      have hok' : a ∉ cur ∧ dbr_ops_ok (cur ++ [a]) ops := hok
      obtain ⟨m1, hm1, hl1, _, _⟩ := dbr_list_add_is_list m T a cur hl hok'.1
      obtain ⟨m', l, hrun, hl', hmem⟩ := ih m1 (cur ++ [a]) hl1 hok'.2
      refine ⟨m', l, ?_, hl', ?_⟩
      · simp [dbr_list_run, hm1, hrun]
      · intro h
        rw [hmem h, unmatched_add_cons_add]
        constructor
        · rintro (hu | ⟨hc, hd⟩)
          · exact Or.inl (Or.inl hu)
          · rcases List.mem_append.mp hc with hc' | hc'
            · exact Or.inr ⟨hc', by simpa using hd⟩
            · have e : h = a := by simpa using hc'
              subst e
              by_cases hin : dbr_list_op.add h ∈ ops
              · exact Or.inl (Or.inl (unmatched_add_of_mem ops h hin hd))
              · exact Or.inl (Or.inr ⟨rfl, hin, hd⟩)
        · rintro ((hu | ⟨e, _, hd⟩) | ⟨hc, hd⟩)
          · exact Or.inl hu
          · subst e
            exact Or.inr ⟨by simp, hd⟩
          · exact Or.inr ⟨List.mem_append_left _ hc, by simpa using hd⟩
    | del a =>
      have hok' : a ∈ cur ∧ dbr_ops_ok (cur.erase a) ops := hok
      have hnd : cur.Nodup :=
        List.Nodup.of_map _ (List.nodup_cons.mp hl.2).2
      obtain ⟨m1, hm1, hl1, _⟩ := dbr_list_del_is_list m T T a cur hT hl hok'.1
      obtain ⟨m', l, hrun, hl', hmem⟩ := ih m1 (cur.erase a) hl1 hok'.2
      refine ⟨m', l, ?_, hl', ?_⟩
      · simp [dbr_list_run, hm1, hrun]
      · intro h
        rw [hmem h, unmatched_add_cons_del, hnd.mem_erase_iff]
        constructor
        · rintro (hu | ⟨⟨hne, hc⟩, hd⟩)
          · exact Or.inl hu
          · refine Or.inr ⟨hc, ?_⟩
            simp only [List.mem_cons, dbr_list_op.del.injEq, not_or]
            exact ⟨hne, hd⟩
        · rintro (hu | ⟨hc, hd⟩)
          · exact Or.inl hu
          · simp only [List.mem_cons, dbr_list_op.del.injEq, not_or] at hd
            exact Or.inr ⟨⟨hd.1, hc⟩, hd.2⟩

/-- C10: take any finite serialised sequence `ops` of `BNXT_RE_DBR_LIST_ADD` /
`BNXT_RE_DBR_LIST_DEL` operations on the list of one resource type, starting
from the empty list, in which each add is of a handle not currently present and
each delete is of a handle currently present.  After every prefix `pre` of the
sequence (in particular after all of it) the operations have succeeded, the list
enumerates without a repeated handle, and its members are exactly the handles
whose last add in `pre` has no later delete. -/
theorem dbr_list_sequence_membership (T : Nat) (m : list_mem) (ops : List dbr_list_op)
    (hempty : is_list m (.res_list_head T) []) (hok : dbr_ops_ok [] ops) :
    ∀ pre post, ops = pre ++ post →
      ∃ (m' : list_mem) (l : List Nat), dbr_list_run T pre m = some m' ∧
        (∀ fuel, l.length < fuel →
          list_for_each fuel m' (.res_list_head T) = some (l.map .dbr_list)) ∧
        l.Nodup ∧ (l.map list_ptr.dbr_list).Nodup ∧
        ∀ h, h ∈ l ↔ unmatched_add pre h := by
  intro pre post e
  subst e
  have hok' := dbr_ops_ok_of_append pre post [] hok
  obtain ⟨m', l, hrun, hl, hmem⟩ := dbr_list_run_spec T pre m [] hempty hok'
  have hnd : (l.map list_ptr.dbr_list).Nodup := (List.nodup_cons.mp hl.2).2
  refine ⟨m', l, hrun, ?_, List.Nodup.of_map _ hnd, hnd, ?_⟩
  · intro fuel hf
    exact list_for_each_is_list m' _ _ hl fuel (by simpa using hf)
  · intro h
    rw [hmem h]
    simp

/-- C10, evaluated on the CQ list: the sequence add 1, add 2, delete 1, add 3
runs to completion from the empty list, and the resulting list has no repeated
handle and holds exactly the handles with an unmatched add. -/
theorem dbr_list_sequence_membership_witness :
    ∃ (m' : list_mem) (l : List Nat),
      dbr_list_run BNXT_RE_RES_TYPE_CQ [.add 1, .add 2, .del 1, .add 3] res_list_init =
        some m' ∧
      (∀ fuel, l.length < fuel →
        list_for_each fuel m' (.res_list_head BNXT_RE_RES_TYPE_CQ) = some (l.map .dbr_list)) ∧
      l.Nodup ∧ ∀ h, h ∈ l ↔ unmatched_add [.add 1, .add 2, .del 1, .add 3] h := by
  obtain ⟨m', l, h1, h2, h3, _, h5⟩ :=
    dbr_list_sequence_membership 0 res_list_init [.add 1, .add 2, .del 1, .add 3]
      (by decide) (by simp [dbr_ops_ok]) [.add 1, .add 2, .del 1, .add 3] [] (by simp)
  exact ⟨m', l, h1, h2, h3, h5⟩

/-! ## Claims about the enumeration, the FIFO depth and the pacing defaults -/

/-- C11: the resource-type enumeration has the ordinals CQ = 0, UCTX = 1, QP = 2,
SRQ = 3 and `BNXT_RE_RES_TYPE_MAX` = 4; an index selects an entry of `res_list`
exactly when it is one of the four types, the four types are pairwise distinct,
and the indices 0 .. `BNXT_RE_RES_TYPE_MAX` - 1 are CQ, UCTX, QP, SRQ in this
order. -/
theorem res_type_enum_ordinals :
    BNXT_RE_RES_TYPE_CQ = 0 ∧ BNXT_RE_RES_TYPE_UCTX = 1 ∧ BNXT_RE_RES_TYPE_QP = 2 ∧
    BNXT_RE_RES_TYPE_SRQ = 3 ∧ BNXT_RE_RES_TYPE_MAX = 4 ∧
    (∀ t, (list_ptr.res_list_head t).valid = true ↔
      t ∈ [BNXT_RE_RES_TYPE_CQ, BNXT_RE_RES_TYPE_UCTX, BNXT_RE_RES_TYPE_QP,
        BNXT_RE_RES_TYPE_SRQ]) ∧
    [BNXT_RE_RES_TYPE_CQ, BNXT_RE_RES_TYPE_UCTX, BNXT_RE_RES_TYPE_QP,
      BNXT_RE_RES_TYPE_SRQ].Nodup ∧
    List.range BNXT_RE_RES_TYPE_MAX =
      [BNXT_RE_RES_TYPE_CQ, BNXT_RE_RES_TYPE_UCTX, BNXT_RE_RES_TYPE_QP,
        BNXT_RE_RES_TYPE_SRQ] := by
  refine ⟨rfl, rfl, rfl, rfl, rfl, ?_, by decide, by decide⟩
  intro t
  simp only [list_ptr.valid, decide_eq_true_eq, BNXT_RE_RES_TYPE_MAX, BNXT_RE_RES_TYPE_CQ,
    BNXT_RE_RES_TYPE_UCTX, BNXT_RE_RES_TYPE_QP, BNXT_RE_RES_TYPE_SRQ, List.mem_cons,
    List.mem_singleton, List.not_mem_nil, or_false]
  omega

/-- C12: for every chip context, `BNXT_RE_MAX_FIFO_DEPTH(ctx)` is 0x8000 (32768)
when the chip is P7 and 0x2c00 (11264) otherwise; two contexts of the same
generation have the same depth. -/
theorem max_fifo_depth_by_generation (_is_chip_p7 : bnxt_qplib_chip_ctx → Bool)
    (ctx : bnxt_qplib_chip_ctx) :
    (_is_chip_p7 ctx = true → BNXT_RE_MAX_FIFO_DEPTH _is_chip_p7 ctx = 32768) ∧
    (_is_chip_p7 ctx = false → BNXT_RE_MAX_FIFO_DEPTH _is_chip_p7 ctx = 11264) ∧
    (BNXT_RE_MAX_FIFO_DEPTH _is_chip_p7 ctx = 0x8000 ∨
      BNXT_RE_MAX_FIFO_DEPTH _is_chip_p7 ctx = 0x2c00) ∧
    (∀ ctx2, _is_chip_p7 ctx2 = _is_chip_p7 ctx →
      BNXT_RE_MAX_FIFO_DEPTH _is_chip_p7 ctx2 = BNXT_RE_MAX_FIFO_DEPTH _is_chip_p7 ctx) := by
  refine ⟨?_, ?_, ?_, ?_⟩
  · intro h; simp [BNXT_RE_MAX_FIFO_DEPTH, h, BNXT_RE_MAX_FIFO_DEPTH_P7]
  · intro h; simp [BNXT_RE_MAX_FIFO_DEPTH, h, BNXT_RE_MAX_FIFO_DEPTH_P5]
  · cases h : _is_chip_p7 ctx
    · right; simp [BNXT_RE_MAX_FIFO_DEPTH, h, BNXT_RE_MAX_FIFO_DEPTH_P5]
    · left; simp [BNXT_RE_MAX_FIFO_DEPTH, h, BNXT_RE_MAX_FIFO_DEPTH_P7]
  · intro ctx2 h
    simp [BNXT_RE_MAX_FIFO_DEPTH, h]

/-- C12, evaluated with a predicate that takes the chip numbers 0xd818 and 0x1760
for P7: chip 0x1760 has depth 32768, chip 0x16f0 has depth 11264. -/
theorem max_fifo_depth_by_generation_witness :
    BNXT_RE_MAX_FIFO_DEPTH (fun c => c.chip_num == 0xd818 || c.chip_num == 0x1760)
        ⟨0x1760⟩ = 32768 ∧
    BNXT_RE_MAX_FIFO_DEPTH (fun c => c.chip_num == 0xd818 || c.chip_num == 0x1760)
        ⟨0x16f0⟩ = 11264 :=
  ⟨(max_fifo_depth_by_generation _ ⟨0x1760⟩).1 (by decide),
   (max_fifo_depth_by_generation _ ⟨0x16f0⟩).2.1 (by decide)⟩

/-- C13: `bnxt_re_set_def_pacing_threshold` sets `pacing_data.pacing_th` to
`pacing_algo_th` and `pacing_data.alarm_th` to `pacing_algo_th` times the
generation-dependent multiple in `u32`: on a P7 chip the multiple is 0 and
`alarm_th` is 0, on every other chip the multiple is 2 and `alarm_th` is
`2 * pacing_algo_th` modulo 2^32, which is 500 for the default threshold 250;
`do_pacing` and `dev_err_state` are unchanged. -/
theorem set_def_pacing_threshold_spec (_is_chip_p7 : bnxt_qplib_chip_ctx → Bool)
    (ctx : bnxt_qplib_chip_ctx) (rdev : bnxt_re_dev) :
    (bnxt_re_set_def_pacing_threshold _is_chip_p7 ctx rdev).pacing_data.pacing_th =
      rdev.pacing_algo_th ∧
    (bnxt_re_set_def_pacing_threshold _is_chip_p7 ctx rdev).pacing_data.alarm_th =
      (rdev.pacing_algo_th * BNXT_RE_PACING_ALARM_TH_MULTIPLE _is_chip_p7 ctx) % 2 ^ 32 ∧
    (_is_chip_p7 ctx = true →
      BNXT_RE_PACING_ALARM_TH_MULTIPLE _is_chip_p7 ctx = 0 ∧
      (bnxt_re_set_def_pacing_threshold _is_chip_p7 ctx rdev).pacing_data.alarm_th = 0) ∧
    (_is_chip_p7 ctx = false →
      BNXT_RE_PACING_ALARM_TH_MULTIPLE _is_chip_p7 ctx = 2 ∧
      (bnxt_re_set_def_pacing_threshold _is_chip_p7 ctx rdev).pacing_data.alarm_th =
        (2 * rdev.pacing_algo_th) % 2 ^ 32 ∧
      (rdev.pacing_algo_th = BNXT_RE_PACING_ALGO_THRESHOLD →
        (bnxt_re_set_def_pacing_threshold _is_chip_p7 ctx rdev).pacing_data.alarm_th = 500)) ∧
    (bnxt_re_set_def_pacing_threshold _is_chip_p7 ctx rdev).pacing_data.do_pacing =
      rdev.pacing_data.do_pacing ∧
    (bnxt_re_set_def_pacing_threshold _is_chip_p7 ctx rdev).pacing_data.dev_err_state =
      rdev.pacing_data.dev_err_state := by
  refine ⟨rfl, rfl, ?_, ?_, rfl, rfl⟩
  · intro h
    simp [bnxt_re_set_def_pacing_threshold, BNXT_RE_PACING_ALARM_TH_MULTIPLE, h]
  · intro h
    refine ⟨by simp [BNXT_RE_PACING_ALARM_TH_MULTIPLE, h], ?_, ?_⟩
    · simp [bnxt_re_set_def_pacing_threshold, BNXT_RE_PACING_ALARM_TH_MULTIPLE, h,
        Nat.mul_comm]
    · intro h250
      simp [bnxt_re_set_def_pacing_threshold, BNXT_RE_PACING_ALARM_TH_MULTIPLE, h, h250,
        BNXT_RE_PACING_ALGO_THRESHOLD]

/-- C13, evaluated: with the default threshold 250 a chip that is not P7 gets
`alarm_th` 500 and a P7 chip gets 0. -/
theorem set_def_pacing_threshold_spec_witness :
    (bnxt_re_set_def_pacing_threshold (fun _ => false) ⟨0⟩
      { rdev_zero with pacing_algo_th := 250 }).pacing_data.alarm_th = 500 ∧
    (bnxt_re_set_def_pacing_threshold (fun _ => true) ⟨0⟩
      { rdev_zero with pacing_algo_th := 250 }).pacing_data.alarm_th = 0 :=
  ⟨((set_def_pacing_threshold_spec (fun _ => false) ⟨0⟩
      { rdev_zero with pacing_algo_th := 250 }).2.2.2.1 rfl).2.2 rfl,
   ((set_def_pacing_threshold_spec (fun _ => true) ⟨0⟩
      { rdev_zero with pacing_algo_th := 250 }).2.2.1 rfl).2⟩

/-- C14: `bnxt_re_set_def_do_pacing` sets `pacing_data.do_pacing` to
`dbr_def_do_pacing` and changes nothing else: the result is the device record
with that one member replaced, so `pacing_th`, `alarm_th`, `dev_err_state` and
`dbr_def_do_pacing` keep their values; applying it twice gives the same state as
applying it once. -/
theorem set_def_do_pacing_spec (rdev : bnxt_re_dev) :
    (bnxt_re_set_def_do_pacing rdev).pacing_data.do_pacing = rdev.dbr_def_do_pacing ∧
    bnxt_re_set_def_do_pacing rdev =
      { rdev with pacing_data :=
          { rdev.pacing_data with do_pacing := rdev.dbr_def_do_pacing } } ∧
    (bnxt_re_set_def_do_pacing rdev).pacing_data.pacing_th = rdev.pacing_data.pacing_th ∧
    (bnxt_re_set_def_do_pacing rdev).pacing_data.alarm_th = rdev.pacing_data.alarm_th ∧
    (bnxt_re_set_def_do_pacing rdev).pacing_data.dev_err_state =
      rdev.pacing_data.dev_err_state ∧
    (bnxt_re_set_def_do_pacing rdev).dbr_def_do_pacing = rdev.dbr_def_do_pacing ∧
    bnxt_re_set_def_do_pacing (bnxt_re_set_def_do_pacing rdev) =
      bnxt_re_set_def_do_pacing rdev :=
  ⟨rfl, rfl, rfl, rfl, rfl, rfl, rfl⟩

theorem test_bit_eq_testBit (nr word : Nat) : test_bit nr word = word.testBit nr := by
  simp [test_bit, Nat.testBit_to_div_mod]

/-- C15: `bnxt_re_set_pacing_dev_state` sets `pacing_data.dev_err_state` to true
if and only if bit 17 (`BNXT_RE_FLAG_ERR_DEVICE_DETACHED`) of `rdev->flags` is
set; two flag words that agree on bit 17 give the same result; the flags word
and the other `pacing_data` members are unchanged. -/
theorem set_pacing_dev_state_spec (rdev : bnxt_re_dev) :
    BNXT_RE_FLAG_ERR_DEVICE_DETACHED = 17 ∧
    ((bnxt_re_set_pacing_dev_state rdev).pacing_data.dev_err_state = true ↔
      rdev.flags.testBit 17 = true) ∧
    (∀ rdev2 : bnxt_re_dev, rdev2.flags.testBit 17 = rdev.flags.testBit 17 →
      (bnxt_re_set_pacing_dev_state rdev2).pacing_data.dev_err_state =
        (bnxt_re_set_pacing_dev_state rdev).pacing_data.dev_err_state) ∧
    (bnxt_re_set_pacing_dev_state rdev).flags = rdev.flags ∧
    (bnxt_re_set_pacing_dev_state rdev).pacing_data.do_pacing = rdev.pacing_data.do_pacing ∧
    (bnxt_re_set_pacing_dev_state rdev).pacing_data.pacing_th = rdev.pacing_data.pacing_th ∧
    (bnxt_re_set_pacing_dev_state rdev).pacing_data.alarm_th = rdev.pacing_data.alarm_th := by
  refine ⟨rfl, ?_, ?_, rfl, rfl, rfl, rfl⟩
  · show test_bit BNXT_RE_FLAG_ERR_DEVICE_DETACHED rdev.flags = true ↔ _
    rw [test_bit_eq_testBit]; rfl
  · intro rdev2 h
    show test_bit BNXT_RE_FLAG_ERR_DEVICE_DETACHED rdev2.flags =
      test_bit BNXT_RE_FLAG_ERR_DEVICE_DETACHED rdev.flags
    rw [test_bit_eq_testBit, test_bit_eq_testBit]
    exact h

/-- C15, evaluated: with only bit 17 set the error state is true; with every bit
below 17 and bit 18 set it is the same as with no bit set, false. -/
theorem set_pacing_dev_state_spec_witness :
    (bnxt_re_set_pacing_dev_state { rdev_zero with flags := 2 ^ 17 }).pacing_data.dev_err_state =
      true ∧
    (bnxt_re_set_pacing_dev_state
        { rdev_zero with flags := 2 ^ 18 + (2 ^ 17 - 1) }).pacing_data.dev_err_state =
      (bnxt_re_set_pacing_dev_state rdev_zero).pacing_data.dev_err_state :=
  ⟨(set_pacing_dev_state_spec { rdev_zero with flags := 2 ^ 17 }).2.1.mpr (by decide),
   (set_pacing_dev_state_spec rdev_zero).2.2.1
      { rdev_zero with flags := 2 ^ 18 + (2 ^ 17 - 1) } (by decide)⟩

theorem rdev_list_find_iff (rdev : Nat) (l : List Nat) :
    rdev_list_find rdev l = true ↔ rdev ∈ l := by
  induction l with
  | nil => simp [rdev_list_find]
  | cons x xs ih =>
    by_cases h : rdev = x
    · simp [rdev_list_find, h]
    · simp [rdev_list_find, h, ih]

/-- C16: `bnxt_re_is_rdev_valid(rdev)` returns true if and only if `rdev` is an
element of `bnxt_re_dev_list`; on the empty list it returns false; the list is
the same after the call. -/
theorem is_rdev_valid_iff_mem (bnxt_re_dev_list : List Nat) (rdev : Nat) :
    ((bnxt_re_is_rdev_valid bnxt_re_dev_list rdev).1 = true ↔ rdev ∈ bnxt_re_dev_list) ∧
    (bnxt_re_is_rdev_valid [] rdev).1 = false ∧
    (bnxt_re_is_rdev_valid bnxt_re_dev_list rdev).2 = bnxt_re_dev_list :=
  ⟨rdev_list_find_iff rdev bnxt_re_dev_list, rfl, rfl⟩

/-! ## Claims about the show handlers -/

theorem rdev_list_find_eq_false (rdev : Nat) (l : List Nat) (h : rdev ∉ l) :
    rdev_list_find rdev l = false := by
  cases hf : rdev_list_find rdev l
  · rfl
  · exact absurd ((rdev_list_find_iff rdev l).mp hf) h

/-- C17: for a device handle that is not in the valid-device list,
`bnxt_re_info_debugfs_show` returns `-ENODEV` (-19), adds only the header line
"bnxt_re debug info:" to the output, issues no device statistics query and
leaves the device record, `read_tstamp` included, as it was. -/
theorem info_show_invalid_device (q : show_env) (k : kernel_state) (rdev_ptr : Nat)
    (rdev : bnxt_re_dev_ext) (s : seq_file) (h : rdev_ptr ∉ k.bnxt_re_dev_list) :
    ∃ r, bnxt_re_info_debugfs_show q k rdev_ptr rdev s = some r ∧
      r.rc = -ENODEV ∧ r.rc = -19 ∧
      r.s = s ++ [⟨"bnxt_re debug info:\n", []⟩] ∧
      r.stats_queries = 0 ∧
      r.rdev = rdev ∧ r.rdev.read_tstamp = rdev.read_tstamp := by
  have hf : rdev_list_find rdev_ptr k.bnxt_re_dev_list = false :=
    rdev_list_find_eq_false rdev_ptr _ h
  refine ⟨⟨-ENODEV, s ++ [⟨"bnxt_re debug info:\n", []⟩], rdev, 0, []⟩, ?_, rfl, rfl, rfl,
    rfl, rfl, rfl⟩
  simp [bnxt_re_info_debugfs_show, bnxt_re_is_rdev_valid, hf, seq_printf]

/-- C17, evaluated: handle 3 is not among the valid devices 1, 2; the handler
returns -19 and the output is the header line alone. -/
theorem info_show_invalid_device_witness :
    ∃ r, bnxt_re_info_debugfs_show show_env_ok kernel_state_two_devs 3 rdev_ext_registered [] =
        some r ∧
      r.rc = -19 ∧ r.s = [⟨"bnxt_re debug info:\n", []⟩] ∧ r.stats_queries = 0 := by
  obtain ⟨r, h1, _, h3, h4, h5, _⟩ :=
    info_show_invalid_device show_env_ok kernel_state_two_devs 3 rdev_ext_registered []
      (by decide)
  exact ⟨r, h1, h3, h4, h5⟩

/-- The return value of `bnxt_re_info_debugfs_show` for a valid, registered
device whose statistics are queried: the return value of the query. -/
theorem info_show_rc_of_query (q : show_env) (k : kernel_state) (rdev_ptr : Nat)
    (rdev : bnxt_re_dev_ext) (s : seq_file) (r : show_result)
    (hvalid : rdev_ptr ∈ k.bnxt_re_dev_list)
    (hreg : test_bit BNXT_RE_FLAG_IBDEV_REGISTERED rdev.flags = true)
    (hres : k.restrict_stats = 0)
    (hr : bnxt_re_info_debugfs_show q k rdev_ptr rdev s = some r) :
    r.rc = (q.bnxt_re_get_device_stats rdev).1 ∧ r.stats_queries = 1 := by
  have hf : rdev_list_find rdev_ptr k.bnxt_re_dev_list = true :=
    (rdev_list_find_iff rdev_ptr _).mpr hvalid
  simp only [bnxt_re_info_debugfs_show, bnxt_re_is_rdev_valid, hf, hreg, hres] at hr
  simp only [Bool.not_true, Bool.false_eq_true, if_false, if_true, ne_eq, not_true,
    decide_False, Bool.false_and] at hr
  split at hr
  · cases hr
    exact ⟨rfl, rfl⟩
  · cases hr

/-- C18 (code evaluated at the failing input): device 1 is valid and registered,
statistics reads are not restricted, and the statistics query fails with -110.
`bnxt_re_info_debugfs_show` renders the cached counters and then returns -110,
not 0. -/
theorem info_show_returns_query_error :
    (1 ∈ kernel_state_two_devs.bnxt_re_dev_list) ∧
    (show_env_query_fails.bnxt_re_get_device_stats rdev_ext_registered).1 = -110 ∧
    (bnxt_re_info_debugfs_show show_env_query_fails kernel_state_two_devs 1
        rdev_ext_registered []).map (fun r => r.rc) = some (-110) ∧
    (bnxt_re_info_debugfs_show show_env_query_fails kernel_state_two_devs 1
        rdev_ext_registered []).map (fun r => r.log) =
      some ["Failed to query device stats\n"] ∧
    (bnxt_re_info_debugfs_show show_env_query_fails kernel_state_two_devs 1
        rdev_ext_registered []).map (fun r => decide (1 < r.s.length)) = some true := by
  refine ⟨by decide, rfl, by decide, by decide, by decide⟩

/-- C19 (as stated, refuted): device 1 is in the valid-device list, its
performance statistics are disabled, and `bnxt_re_perf_debugfs_show` returns
`-ENOMEM` (-12), a non-zero result for a valid handle. -/
theorem perf_show_disabled_valid_device :
    (1 ∈ kernel_state_two_devs.bnxt_re_dev_list) ∧
    rdev_ext_registered.rcfw.sp_perf_stats_enabled = false ∧
    (bnxt_re_perf_debugfs_show show_env_ok kernel_state_two_devs 1 rdev_ext_registered []).rc =
      -12 := by
  refine ⟨by decide, rfl, by decide⟩

/-- C19 (amended): `bnxt_re_perf_debugfs_show` returns `-ENOMEM` whenever
`sp_perf_stats_enabled` is not set, whether or not the handle is valid; when it
is set, the handler returns 0 for every handle in the valid-device list and
`-ENODEV` for every other handle, so with performance statistics enabled a
non-zero result means that the handle is not in the valid-device list. -/
theorem perf_show_rc (q : show_env) (k : kernel_state) (rdev_ptr : Nat)
    (rdev : bnxt_re_dev_ext) (s : seq_file) :
    (rdev.rcfw.sp_perf_stats_enabled = false →
      (bnxt_re_perf_debugfs_show q k rdev_ptr rdev s).rc = -ENOMEM) ∧
    (rdev.rcfw.sp_perf_stats_enabled = true →
      (rdev_ptr ∈ k.bnxt_re_dev_list →
        (bnxt_re_perf_debugfs_show q k rdev_ptr rdev s).rc = 0) ∧
      (rdev_ptr ∉ k.bnxt_re_dev_list →
        (bnxt_re_perf_debugfs_show q k rdev_ptr rdev s).rc = -ENODEV) ∧
      ((bnxt_re_perf_debugfs_show q k rdev_ptr rdev s).rc ≠ 0 →
        rdev_ptr ∉ k.bnxt_re_dev_list)) := by
  have hvalid : rdev_ptr ∈ k.bnxt_re_dev_list → rdev.rcfw.sp_perf_stats_enabled = true →
      (bnxt_re_perf_debugfs_show q k rdev_ptr rdev s).rc = 0 := by
    intro hm he
    have hf := (rdev_list_find_iff rdev_ptr _).mpr hm
    simp [bnxt_re_perf_debugfs_show, bnxt_re_is_rdev_valid, hf, he]
  refine ⟨?_, ?_⟩
  · intro he
    simp [bnxt_re_perf_debugfs_show, he]
  · intro he
    refine ⟨fun hm => hvalid hm he, ?_, ?_⟩
    · intro hm
      have hf := rdev_list_find_eq_false rdev_ptr _ hm
      simp [bnxt_re_perf_debugfs_show, bnxt_re_is_rdev_valid, hf, he]
    · intro hrc hm
      exact hrc (hvalid hm he)

/-- C19 (amended), evaluated with performance statistics enabled: the valid
handle 1 gets 0, the unknown handle 3 gets -19; with statistics disabled the
valid handle 1 gets -12. -/
theorem perf_show_rc_witness :
    (bnxt_re_perf_debugfs_show show_env_ok kernel_state_two_devs 1
      rdev_ext_perf_enabled []).rc = 0 ∧
    (bnxt_re_perf_debugfs_show show_env_ok kernel_state_two_devs 3
      rdev_ext_perf_enabled []).rc = -ENODEV ∧
    (bnxt_re_perf_debugfs_show show_env_ok kernel_state_two_devs 1 rdev_ext_registered []).rc =
      -ENOMEM :=
  ⟨((perf_show_rc show_env_ok kernel_state_two_devs 1
      rdev_ext_perf_enabled []).2 rfl).1 (by decide),
   ((perf_show_rc show_env_ok kernel_state_two_devs 3
      rdev_ext_perf_enabled []).2 rfl).2.1 (by decide),
   (perf_show_rc show_env_ok kernel_state_two_devs 1 rdev_ext_registered []).1 rfl⟩

/-! ## The out-of-buffer drop count of a bonded device -/

theorem to_s64_of_range (z : Int) (h1 : -(2 ^ 63) ≤ z) (h2 : z < 2 ^ 63) : to_s64 z = z := by
  unfold to_s64
  have h3 : (z + 2 ^ 63) % 2 ^ 64 = z + 2 ^ 63 :=
    Int.emod_eq_of_lt (by omega) (by omega)
  rw [h3]; omega

theorem to_s64_range (z : Int) : -(2 ^ 63) ≤ to_s64 z ∧ to_s64 z < 2 ^ 63 := by
  unfold to_s64
  have h1 : 0 ≤ (z + 2 ^ 63) % 2 ^ 64 := Int.emod_nonneg _ (by norm_num)
  have h2 : (z + 2 ^ 63) % 2 ^ 64 < 2 ^ 64 := Int.emod_lt_of_pos _ (by norm_num)
  constructor <;> omega

/-- Without extended statistics, `bnxt_re_print_bond_counters` ends its output
with the `res_oob_drop_count` line and stores the printed value, converted to
the type of `prev_oob`, in `prev_oob`. -/
theorem bond_counters_oob_call (q : show_env) (rdev : bnxt_re_dev_ext) (s : seq_file)
    (hext : q.bnxt_ext_stats_supported rdev.chip_ctx rdev.dev_attr.dev_cap_flags
      rdev.is_virtfn = false) :
    ∃ pre,
      (bnxt_re_print_bond_counters q rdev s).1 =
        pre ++ [⟨"\tres_oob_drop_count: %lld\n",
          [.d (if oob_lt_prev q.prev_oob_unsigned
                  (to_s64 (((rdev.dstat.rstat 0).rx_discard_pkts : Int) +
                    ((rdev.dstat.rstat 1).rx_discard_pkts : Int) -
                    (rdev.dstat.errs.res_oos_drop_count : Int))) rdev.dstat.prev_oob = true
               then prev_oob_to_s64 q.prev_oob_unsigned rdev.dstat.prev_oob
               else to_s64 (((rdev.dstat.rstat 0).rx_discard_pkts : Int) +
                  ((rdev.dstat.rstat 1).rx_discard_pkts : Int) -
                  (rdev.dstat.errs.res_oos_drop_count : Int)))]⟩] ∧
      (bnxt_re_print_bond_counters q rdev s).2.dstat.prev_oob =
        s64_to_prev_oob q.prev_oob_unsigned
          (if oob_lt_prev q.prev_oob_unsigned
                  (to_s64 (((rdev.dstat.rstat 0).rx_discard_pkts : Int) +
                    ((rdev.dstat.rstat 1).rx_discard_pkts : Int) -
                    (rdev.dstat.errs.res_oos_drop_count : Int))) rdev.dstat.prev_oob = true
               then prev_oob_to_s64 q.prev_oob_unsigned rdev.dstat.prev_oob
               else to_s64 (((rdev.dstat.rstat 0).rx_discard_pkts : Int) +
                  ((rdev.dstat.rstat 1).rx_discard_pkts : Int) -
                  (rdev.dstat.errs.res_oos_drop_count : Int))) := by
  simp only [bnxt_re_print_bond_counters, hext, Bool.false_eq_true, if_false]
  exact ⟨_, rfl, trivial⟩

/-- The guard of `bnxt_re_print_bond_counters` on values for which the signed and
the unsigned comparison agree: when `prev_oob` is a `long long`, or when the
newly computed count and `prev_oob` are both non-negative, the reported value is
the larger of the two and is what `prev_oob` holds afterwards. -/
theorem oob_guard_max (u : Bool) (c prev : Int) (hc : -(2 ^ 63) ≤ c ∧ c < 2 ^ 63)
    (h : u = true → 0 ≤ c ∧ 0 ≤ prev ∧ prev < 2 ^ 63) :
    (if oob_lt_prev u c prev = true then prev_oob_to_s64 u prev else c) = max c prev ∧
    s64_to_prev_oob u (max c prev) = max c prev ∧
    (u = true → 0 ≤ max c prev ∧ max c prev < 2 ^ 63) := by
  cases u with
  | false =>
    refine ⟨?_, rfl, fun hu => by cases hu⟩
    simp only [oob_lt_prev, prev_oob_to_s64, Bool.false_eq_true, if_false, decide_eq_true_eq]
    split_ifs with hlt
    · exact (max_eq_right (le_of_lt hlt)).symm
    · exact (max_eq_left (not_lt.mp hlt)).symm
  | true =>
    obtain ⟨h0, hp0, hp1⟩ := h rfl
    have hcm : c % 2 ^ 64 = c := Int.emod_eq_of_lt h0 (by omega)
    have hmax : 0 ≤ max c prev ∧ max c prev < 2 ^ 63 :=
      ⟨le_max_of_le_left h0, max_lt hc.2 hp1⟩
    refine ⟨?_, ?_, fun _ => hmax⟩
    · simp only [oob_lt_prev, prev_oob_to_s64, if_true, decide_eq_true_eq, hcm]
      split_ifs with hlt
      · rw [to_s64_of_range prev (by omega) hp1]
        exact (max_eq_right (le_of_lt hlt)).symm
      · exact (max_eq_left (not_lt.mp hlt)).symm
    · simp only [s64_to_prev_oob, if_true]
      exact Int.emod_eq_of_lt hmax.1 (by omega)

theorem seq_last_d_append (pre : seq_file) (fmt : String) (v : Int) :
    seq_last_d (pre ++ [⟨fmt, [.d v]⟩]) = some v := by
  simp [seq_last_d]

/-- Over successive calls without extended statistics every call reports a
value, and the reported values never decrease, starting from `prev_oob`,
when `prev_oob` is a `long long`, or when `prev_oob` is non-negative at the
start and no newly computed count is negative. -/
theorem bond_counters_reports_chain (q : show_env) (snaps : List bnxt_re_dev_ext) :
    ∀ prev : Int,
      (q.prev_oob_unsigned = true → 0 ≤ prev ∧ prev < 2 ^ 63) →
      (∀ r ∈ snaps,
        q.bnxt_ext_stats_supported r.chip_ctx r.dev_attr.dev_cap_flags r.is_virtfn = false ∧
        (q.prev_oob_unsigned = true →
          0 ≤ to_s64 (((r.dstat.rstat 0).rx_discard_pkts : Int) +
            ((r.dstat.rstat 1).rx_discard_pkts : Int) -
            (r.dstat.errs.res_oos_drop_count : Int)))) →
      ∃ vs : List Int, bond_counters_reports q prev snaps = vs.map some ∧
        vs.length = snaps.length ∧ List.Chain (fun a b => a ≤ b) prev vs := by
  induction snaps with
  | nil =>
    intro prev _ _
    exact ⟨[], rfl, rfl, List.Chain.nil⟩
  | cons snap rest ih =>
    intro prev hprev hsnaps
    obtain ⟨hext, hnonneg⟩ := hsnaps snap (List.mem_cons_self _ _)
    obtain ⟨pre, h1, h2⟩ := bond_counters_oob_call q
      { snap with dstat := { snap.dstat with prev_oob := prev } } [] hext
    obtain ⟨g1, g2, g3⟩ := oob_guard_max q.prev_oob_unsigned
      (to_s64 (((snap.dstat.rstat 0).rx_discard_pkts : Int) +
        ((snap.dstat.rstat 1).rx_discard_pkts : Int) -
        (snap.dstat.errs.res_oos_drop_count : Int))) prev (to_s64_range _)
      (fun hu => ⟨hnonneg hu, hprev hu⟩)
    have h1b : (bnxt_re_print_bond_counters q
        { snap with dstat := { snap.dstat with prev_oob := prev } } []).1 =
        pre ++ [⟨"\tres_oob_drop_count: %lld\n",
          [.d (max (to_s64 (((snap.dstat.rstat 0).rx_discard_pkts : Int) +
            ((snap.dstat.rstat 1).rx_discard_pkts : Int) -
            (snap.dstat.errs.res_oos_drop_count : Int))) prev)]⟩] := by
      rw [h1]; exact congrArg (fun v => pre ++ [⟨"\tres_oob_drop_count: %lld\n", [.d v]⟩]) g1
    have h2b : (bnxt_re_print_bond_counters q
        { snap with dstat := { snap.dstat with prev_oob := prev } } []).2.dstat.prev_oob =
        max (to_s64 (((snap.dstat.rstat 0).rx_discard_pkts : Int) +
          ((snap.dstat.rstat 1).rx_discard_pkts : Int) -
          (snap.dstat.errs.res_oos_drop_count : Int))) prev := by
      rw [h2]; exact (congrArg (s64_to_prev_oob q.prev_oob_unsigned) g1).trans g2
    obtain ⟨vs, hvs, hlen, hchain⟩ :=
      ih (max (to_s64 (((snap.dstat.rstat 0).rx_discard_pkts : Int) +
          ((snap.dstat.rstat 1).rx_discard_pkts : Int) -
          (snap.dstat.errs.res_oos_drop_count : Int))) prev) g3
        (fun r hr => hsnaps r (List.mem_cons_of_mem _ hr))
    refine ⟨max (to_s64 (((snap.dstat.rstat 0).rx_discard_pkts : Int) +
          ((snap.dstat.rstat 1).rx_discard_pkts : Int) -
          (snap.dstat.errs.res_oos_drop_count : Int))) prev :: vs,
      ?_, by simp [hlen], List.Chain.cons (le_max_right _ _) hchain⟩
    show seq_last_d _ :: bond_counters_reports q _ rest = _
    rw [h2b, hvs, h1b, seq_last_d_append]
    rfl

/-- C21: for every value of `dev_cap_flags`, in particular every 16-bit one,
`_is_bnxt_re_dev_lag_capable` returns false if and only if the flags have the
LAG-support-valid mask set and the LAG-support mask clear; without the valid
mask it returns true; flags that agree on the two masks give the same result.
For single-bit masks `2^v` and `2^s` this reads: false exactly when bit `v` is
set and bit `s` is clear, and flags that agree on the bits `v` and `s` give the
same result, whatever their other bits are. -/
theorem lag_capable_spec (VALID SUPPORTED : Nat) (dev_cap_flags : Nat) :
    (_is_bnxt_re_dev_lag_capable VALID SUPPORTED dev_cap_flags = false ↔
      dev_cap_flags &&& VALID ≠ 0 ∧ dev_cap_flags &&& SUPPORTED = 0) ∧
    (dev_cap_flags &&& VALID = 0 →
      _is_bnxt_re_dev_lag_capable VALID SUPPORTED dev_cap_flags = true) ∧
    (∀ other, other &&& VALID = dev_cap_flags &&& VALID →
      other &&& SUPPORTED = dev_cap_flags &&& SUPPORTED →
      _is_bnxt_re_dev_lag_capable VALID SUPPORTED other =
        _is_bnxt_re_dev_lag_capable VALID SUPPORTED dev_cap_flags) ∧
    (∀ v s, VALID = 2 ^ v → SUPPORTED = 2 ^ s →
      (_is_bnxt_re_dev_lag_capable VALID SUPPORTED dev_cap_flags = false ↔
        dev_cap_flags.testBit v = true ∧ dev_cap_flags.testBit s = false) ∧
      (∀ other, other.testBit v = dev_cap_flags.testBit v →
        other.testBit s = dev_cap_flags.testBit s →
        _is_bnxt_re_dev_lag_capable VALID SUPPORTED other =
          _is_bnxt_re_dev_lag_capable VALID SUPPORTED dev_cap_flags)) := by
  have hbit : ∀ (x i : Nat), (x &&& 2 ^ i = 0 ↔ x.testBit i = false) := by
    intro x i
    rw [Nat.and_two_pow]
    cases x.testBit i <;> simp
  refine ⟨?_, ?_, ?_, ?_⟩
  · unfold _is_bnxt_re_dev_lag_capable
    by_cases h1 : dev_cap_flags &&& VALID = 0
    · simp [h1]
    · by_cases h2 : dev_cap_flags &&& SUPPORTED = 0
      · simp [h1, h2]
      · simp [h1, h2]
  · intro h
    simp [_is_bnxt_re_dev_lag_capable, h]
  · intro other hv hs
    simp only [_is_bnxt_re_dev_lag_capable, hv, hs]
  · intro v s hv hs
    subst hv hs
    refine ⟨?_, ?_⟩
    · unfold _is_bnxt_re_dev_lag_capable
      by_cases h1 : dev_cap_flags &&& 2 ^ v = 0
      · have := (hbit _ _).mp h1
        simp [h1, this]
      · have h1b : dev_cap_flags.testBit v = true := by
          cases hb : dev_cap_flags.testBit v
          · exact absurd ((hbit _ _).mpr hb) h1
          · rfl
        by_cases h2 : dev_cap_flags &&& 2 ^ s = 0
        · have := (hbit _ _).mp h2
          simp [h1, h2, h1b, this]
        · have h2b : dev_cap_flags.testBit s = true := by
            cases hb : dev_cap_flags.testBit s
            · exact absurd ((hbit _ _).mpr hb) h2
            · rfl
          simp [h1, h2, h1b, h2b]
    · intro other hov hos
      have e1 : other &&& 2 ^ v = dev_cap_flags &&& 2 ^ v := by
        rw [Nat.and_two_pow, Nat.and_two_pow, hov]
      have e2 : other &&& 2 ^ s = dev_cap_flags &&& 2 ^ s := by
        rw [Nat.and_two_pow, Nat.and_two_pow, hos]
      simp only [_is_bnxt_re_dev_lag_capable, e1, e2]

/-- C21, evaluated with the valid mask 0x800 (bit 11) and the support mask 0x400
(bit 10): the flags 0x0800 (valid, not supported) are not LAG capable; 0xf3ff
(no valid bit) are; 0x0bff, which differ from 0x0800 in other bits only, give
the same result as 0x0800. -/
theorem lag_capable_spec_witness :
    _is_bnxt_re_dev_lag_capable 0x800 0x400 0x0800 = false ∧
    _is_bnxt_re_dev_lag_capable 0x800 0x400 0xf3ff = true ∧
    _is_bnxt_re_dev_lag_capable 0x800 0x400 0x0bff =
      _is_bnxt_re_dev_lag_capable 0x800 0x400 0x0800 :=
  ⟨(lag_capable_spec 0x800 0x400 0x0800).1.mpr (by decide),
   (lag_capable_spec 0x800 0x400 0xf3ff).2.1 (by decide),
   ((lag_capable_spec 0x800 0x400 0x0800).2.2.2 11 10 (by decide) (by decide)).2
      0x0bff (by decide) (by decide)⟩

/-! ## The epoch of a doorbell-drop event -/

theorem dbr_epoch_testBit (M S data j : Nat) :
    (BNXT_RE_EVENT_DBR_EPOCH M S data).testBit j =
      (data.testBit (S + j) && M.testBit (S + j)) := by
  simp [BNXT_RE_EVENT_DBR_EPOCH, Nat.testBit_shiftRight, Nat.testBit_and]

theorem run_mask_testBit (w S j : Nat) :
    (((2 ^ w - 1) <<< S).testBit j) = (decide (S ≤ j) && decide (j - S < w)) := by
  rw [Nat.testBit_shiftLeft, Nat.testBit_two_pow_sub_one]

/-- C22: `BNXT_RE_EVENT_DBR_EPOCH(data)` is `(data & EPOCH_MASK) >> EPOCH_SFT`.
Two data words that agree on the bits selected by the mask give the same epoch.
For a mask that is a run of `w` contiguous bits whose lowest bit is `EPOCH_SFT`,
the epoch is at most `EPOCH_MASK >> EPOCH_SFT`, which is `2^w - 1`, and two data
words that differ on the masked bits give different epochs. -/
theorem dbr_epoch_spec (EPOCH_MASK EPOCH_SFT : Nat) (data : Nat) :
    BNXT_RE_EVENT_DBR_EPOCH EPOCH_MASK EPOCH_SFT data =
      (data &&& EPOCH_MASK) >>> EPOCH_SFT ∧
    (∀ data2, data2 &&& EPOCH_MASK = data &&& EPOCH_MASK →
      BNXT_RE_EVENT_DBR_EPOCH EPOCH_MASK EPOCH_SFT data2 =
        BNXT_RE_EVENT_DBR_EPOCH EPOCH_MASK EPOCH_SFT data) ∧
    (∀ w, EPOCH_MASK = (2 ^ w - 1) <<< EPOCH_SFT →
      BNXT_RE_EVENT_DBR_EPOCH EPOCH_MASK EPOCH_SFT data ≤ EPOCH_MASK >>> EPOCH_SFT ∧
      EPOCH_MASK >>> EPOCH_SFT = 2 ^ w - 1 ∧
      (∀ data2, data2 &&& EPOCH_MASK ≠ data &&& EPOCH_MASK →
        BNXT_RE_EVENT_DBR_EPOCH EPOCH_MASK EPOCH_SFT data2 ≠
          BNXT_RE_EVENT_DBR_EPOCH EPOCH_MASK EPOCH_SFT data)) := by
  refine ⟨rfl, ?_, ?_⟩
  · intro data2 h
    simp only [BNXT_RE_EVENT_DBR_EPOCH, h]
  · intro w hM
    have hshift : EPOCH_MASK >>> EPOCH_SFT = 2 ^ w - 1 := by
      rw [hM]
      apply Nat.eq_of_testBit_eq
      intro j
      rw [Nat.testBit_shiftRight, run_mask_testBit, Nat.testBit_two_pow_sub_one]
      simp
    refine ⟨?_, hshift, ?_⟩
    · rw [hshift]
      have hlt : BNXT_RE_EVENT_DBR_EPOCH EPOCH_MASK EPOCH_SFT data < 2 ^ w := by
        apply Nat.lt_pow_two_of_testBit
        intro j hj
        rw [dbr_epoch_testBit, hM, run_mask_testBit]
        have : ¬ (EPOCH_SFT + j - EPOCH_SFT < w) := by omega
        simp only [this, decide_False, Bool.and_false]
      omega
    · intro data2 hne heq
      apply hne
      apply Nat.eq_of_testBit_eq
      intro j
      rw [Nat.testBit_and, Nat.testBit_and]
      by_cases hj : EPOCH_SFT ≤ j
      · have h := congrArg (fun x => x.testBit (j - EPOCH_SFT)) heq
        simp only [dbr_epoch_testBit] at h
        have hidx : EPOCH_SFT + (j - EPOCH_SFT) = j := by omega
        rw [hidx] at h
        exact h
      · have : EPOCH_MASK.testBit j = false := by
          rw [hM, run_mask_testBit]
          simp [hj]
        simp [this]

/-- C22, evaluated with the 24-bit mask 0xffffff00 and shift 8: the word
0x12345678 has epoch 0x123456, the low byte does not matter, the epoch is at
most 0xffffff and a word with another masked part has another epoch. -/
theorem dbr_epoch_spec_witness :
    BNXT_RE_EVENT_DBR_EPOCH 0xffffff00 8 0x12345678 = 0x123456 ∧
    BNXT_RE_EVENT_DBR_EPOCH 0xffffff00 8 0x123456ff =
      BNXT_RE_EVENT_DBR_EPOCH 0xffffff00 8 0x12345678 ∧
    BNXT_RE_EVENT_DBR_EPOCH 0xffffff00 8 0x12345678 ≤ 0xffffff00 >>> 8 ∧
    BNXT_RE_EVENT_DBR_EPOCH 0xffffff00 8 0x12345778 ≠
      BNXT_RE_EVENT_DBR_EPOCH 0xffffff00 8 0x12345678 :=
  ⟨((dbr_epoch_spec 0xffffff00 8 0x12345678).1).trans (by decide),
   (dbr_epoch_spec 0xffffff00 8 0x12345678).2.1 0x123456ff (by decide),
   ((dbr_epoch_spec 0xffffff00 8 0x12345678).2.2 24 (by decide)).1,
   ((dbr_epoch_spec 0xffffff00 8 0x12345678).2.2 24 (by decide)).2.2 0x12345778 (by decide)⟩

/-! ## The bounded wait for the RTNL lock -/

/-- The loop of `bnxt_re_rtnl_trylock` when each of the next `n` attempts
fails: `n` attempts, `n` sleeps, `locked` as before. -/
theorem rtnl_trylock_while_all_fail (f : Nat → Bool) (n : Nat) :
    ∀ r : rtnl_trylock_result, (∀ j, j < n → f (r.attempts + j) = false) →
      bnxt_re_rtnl_trylock_while f n r =
        ⟨r.locked, r.attempts + n, r.sleeps ++ List.replicate n (1000, 2000)⟩ := by
  induction n with
  | zero => intro r _; simp [bnxt_re_rtnl_trylock_while]
  | succ n ih =>
    intro r h
    have h0 : f r.attempts = false := by simpa using h 0 (by omega)
    rw [bnxt_re_rtnl_trylock_while]
    simp only [h0, Bool.not_false, if_true]
    rw [ih]
    · simp only [List.append_assoc, List.singleton_append, List.replicate_succ,
        rtnl_trylock_result.mk.injEq, true_and]
      exact ⟨by omega, trivial⟩
    · intro j hj
      have := h (j + 1) (by omega)
      simpa [Nat.add_assoc, Nat.add_comm 1 j] using this

/-- The loop of `bnxt_re_rtnl_trylock` when attempt `i < n` is the first of the
next `n` that succeeds: `i + 1` attempts, `i` sleeps, `locked` set. -/
theorem rtnl_trylock_while_first_success (f : Nat → Bool) (n : Nat) :
    ∀ (r : rtnl_trylock_result) (i : Nat), i < n → f (r.attempts + i) = true →
      (∀ j, j < i → f (r.attempts + j) = false) →
      bnxt_re_rtnl_trylock_while f n r =
        ⟨true, r.attempts + i + 1, r.sleeps ++ List.replicate i (1000, 2000)⟩ := by
  induction n with
  | zero => intro r i hi; omega
  | succ n ih =>
    intro r i hi hs hf
    rw [bnxt_re_rtnl_trylock_while]
    cases i with
    | zero =>
      have h0 : f r.attempts = true := by simpa using hs
      simp [h0]
    | succ i =>
      have h0 : f r.attempts = false := by simpa using hf 0 (by omega)
      simp only [h0, Bool.not_false, if_true]
      rw [ih _ i (by omega)]
      · simp only [List.append_assoc, List.singleton_append, List.replicate_succ,
          rtnl_trylock_result.mk.injEq, true_and]
        exact ⟨by omega, trivial⟩
      · have := hs
        simpa [Nat.add_assoc, Nat.add_comm 1 i] using this
      · intro j hj
        have := hf (j + 1) (by omega)
        simpa [Nat.add_assoc, Nat.add_comm 1 j] using this

/-- C23: for every outcome sequence of `rtnl_trylock()`, `bnxt_re_rtnl_trylock`
makes at most 10 attempts and at most 10 sleeps; it returns true if and only if
one of the first 10 attempts succeeds; when attempt `i` is the first success it
stops there, after `i + 1` attempts and `i` sleeps; when the first 10 attempts
fail it returns false after exactly 10 attempts and 10 sleeps; every sleep is
`usleep_range(1000, 2000)`, one after each failed attempt. -/
theorem rtnl_trylock_bounded (rtnl_trylock : Nat → Bool) :
    (bnxt_re_rtnl_trylock rtnl_trylock).attempts ≤ 10 ∧
    (bnxt_re_rtnl_trylock rtnl_trylock).sleeps.length ≤ 10 ∧
    ((bnxt_re_rtnl_trylock rtnl_trylock).locked = true ↔
      ∃ i, i < 10 ∧ rtnl_trylock i = true) ∧
    (∀ i, i < 10 → rtnl_trylock i = true → (∀ j, j < i → rtnl_trylock j = false) →
      bnxt_re_rtnl_trylock rtnl_trylock = ⟨true, i + 1, List.replicate i (1000, 2000)⟩) ∧
    ((∀ j, j < 10 → rtnl_trylock j = false) →
      bnxt_re_rtnl_trylock rtnl_trylock = ⟨false, 10, List.replicate 10 (1000, 2000)⟩) ∧
    ((bnxt_re_rtnl_trylock rtnl_trylock).locked = false →
      (bnxt_re_rtnl_trylock rtnl_trylock).attempts = 10 ∧
      (bnxt_re_rtnl_trylock rtnl_trylock).sleeps.length = 10 ∧
      ∀ j, j < 10 → rtnl_trylock j = false) ∧
    (bnxt_re_rtnl_trylock rtnl_trylock).sleeps =
      List.replicate
        ((List.range (bnxt_re_rtnl_trylock rtnl_trylock).attempts).filter
          (fun k => !rtnl_trylock k)).length (1000, 2000) := by
  have hsucc : ∀ i, i < 10 → rtnl_trylock i = true → (∀ j, j < i → rtnl_trylock j = false) →
      bnxt_re_rtnl_trylock rtnl_trylock = ⟨true, i + 1, List.replicate i (1000, 2000)⟩ := by
    intro i hi hs hf
    have := rtnl_trylock_while_first_success rtnl_trylock 10 ⟨false, 0, []⟩ i hi
      (by simpa using hs) (by simpa using hf)
    simpa [bnxt_re_rtnl_trylock] using this
  have hfail : (∀ j, j < 10 → rtnl_trylock j = false) →
      bnxt_re_rtnl_trylock rtnl_trylock = ⟨false, 10, List.replicate 10 (1000, 2000)⟩ := by
    intro hf
    have := rtnl_trylock_while_all_fail rtnl_trylock 10 ⟨false, 0, []⟩ (by simpa using hf)
    simpa [bnxt_re_rtnl_trylock] using this
  have hcount_fail : ∀ n, (∀ j, j < n → rtnl_trylock j = false) →
      ((List.range n).filter (fun k => !rtnl_trylock k)).length = n := by
    intro n hf
    rw [List.filter_eq_self.mpr, List.length_range]
    intro k hk
    simp [hf k (List.mem_range.mp hk)]
  by_cases hex : ∃ i, i < 10 ∧ rtnl_trylock i = true
  · let i := Nat.find hex
    have hi : i < 10 ∧ rtnl_trylock i = true := Nat.find_spec hex
    have hmin : ∀ j, j < i → rtnl_trylock j = false := by
      intro j hj
      have := Nat.find_min hex hj
      cases hv : rtnl_trylock j
      · rfl
      · exact absurd ⟨by omega, hv⟩ this
    have hr := hsucc i hi.1 hi.2 hmin
    refine ⟨?_, ?_, ?_, hsucc, hfail, ?_, ?_⟩
    · rw [hr]; show i + 1 ≤ 10; omega
    · rw [hr]; simp only [List.length_replicate]; omega
    · rw [hr]; exact ⟨fun _ => hex, fun _ => rfl⟩
    · rw [hr]; intro h; cases h
    · rw [hr]
      show List.replicate i (1000, 2000) = List.replicate
        ((List.range (i + 1)).filter (fun k => !rtnl_trylock k)).length (1000, 2000)
      rw [List.range_succ, List.filter_append, List.length_append, hcount_fail i hmin]
      simp [hi.2]
  · have hf : ∀ j, j < 10 → rtnl_trylock j = false := by
      intro j hj
      cases hv : rtnl_trylock j
      · rfl
      · exact absurd ⟨j, hj, hv⟩ hex
    have hr := hfail hf
    refine ⟨?_, ?_, ?_, hsucc, hfail, ?_, ?_⟩
    · rw [hr]
    · rw [hr]; simp
    · rw [hr]; exact ⟨fun h => (by cases h), fun h => absurd h hex⟩
    · intro _; rw [hr]; exact ⟨rfl, by simp, hf⟩
    · rw [hr]
      show List.replicate 10 (1000, 2000) = List.replicate
        ((List.range 10).filter (fun k => !rtnl_trylock k)).length (1000, 2000)
      rw [hcount_fail 10 hf]

/-- C23, evaluated: when the first three attempts fail and the fourth succeeds
the lock is taken after 4 attempts and 3 sleeps; when every attempt fails the
function gives up after 10 attempts and 10 sleeps. -/
theorem rtnl_trylock_bounded_witness :
    bnxt_re_rtnl_trylock rtnl_trylock_fourth =
      ⟨true, 4, [(1000, 2000), (1000, 2000), (1000, 2000)]⟩ ∧
    bnxt_re_rtnl_trylock (fun _ => false) = ⟨false, 10, List.replicate 10 (1000, 2000)⟩ :=
  ⟨(rtnl_trylock_bounded rtnl_trylock_fourth).2.2.2.1 3 (by decide) (by decide) (by decide),
   (rtnl_trylock_bounded (fun _ => false)).2.2.2.2.1 (fun _ _ => rfl)⟩

/-! ## The priority of a priority map -/

theorem and_one_shiftLeft_ne_zero (x i : Nat) :
    x &&& (1 <<< i) ≠ 0 ↔ x.testBit i = true := by
  rw [Nat.one_shiftLeft, Nat.and_two_pow]
  cases x.testBit i <;> simp

/-- The loop of `bnxt_re_get_prio`, started at `prio ≤ 8` with enough iterations
left to reach 8, stops at the first set bit of `prio_map` at or above `prio`, or
at 8. -/
theorem get_prio_for_spec (prio_map : Nat) :
    ∀ fuel prio, prio ≤ 8 → 8 ≤ prio + fuel →
      prio ≤ bnxt_re_get_prio_for prio_map fuel prio ∧
      bnxt_re_get_prio_for prio_map fuel prio ≤ 8 ∧
      (bnxt_re_get_prio_for prio_map fuel prio < 8 →
        prio_map.testBit (bnxt_re_get_prio_for prio_map fuel prio) = true) ∧
      (∀ j, prio ≤ j → j < bnxt_re_get_prio_for prio_map fuel prio →
        prio_map.testBit j = false) := by
  intro fuel
  induction fuel with
  | zero =>
    intro prio h1 h2
    have : prio = 8 := by omega
    subst this
    simp [bnxt_re_get_prio_for]
    intro j h3 h4; omega
  | succ fuel ih =>
    intro prio h1 h2
    rw [bnxt_re_get_prio_for]
    by_cases h8 : prio < 8
    · rw [if_pos h8]
      by_cases hb : prio_map &&& (1 <<< prio) ≠ 0
      · rw [if_pos hb]
        refine ⟨le_refl _, h1, fun _ => (and_one_shiftLeft_ne_zero _ _).mp hb, ?_⟩
        intro j h3 h4; omega
      · rw [if_neg hb]
        have hclear : prio_map.testBit prio = false := by
          cases hv : prio_map.testBit prio
          · rfl
          · exact absurd ((and_one_shiftLeft_ne_zero _ _).mpr hv) hb
        have hmod : (prio + 1) % 2 ^ 8 = prio + 1 := Nat.mod_eq_of_lt (by omega)
        rw [hmod]
        obtain ⟨a, b, c, d⟩ := ih (prio + 1) (by omega) (by omega)
        refine ⟨by omega, b, c, ?_⟩
        intro j h3 h4
        by_cases hj : j = prio
        · rw [hj]; exact hclear
        · exact d j (by omega) h4
    · rw [if_neg h8]
      have : prio = 8 := by omega
      subst this
      refine ⟨le_refl _, le_refl _, fun h => absurd h (by omega), ?_⟩
      intro j h3 h4; omega

/-- C24: for an 8-bit `prio_map`, `bnxt_re_get_prio` returns the index of the
least-significant set bit when `prio_map` is not 0 (an index below 8 whose bit
is set while every lower bit is clear) and returns 8, not 0xFF, when `prio_map`
is 0; the result is at most 8.  The loop needs no more than its 8 iterations:
with any larger bound on the iterations the result is the same. -/
theorem get_prio_spec (prio_map : Nat) (h8 : prio_map < 2 ^ 8) :
    (prio_map ≠ 0 →
      bnxt_re_get_prio prio_map < 8 ∧
      prio_map.testBit (bnxt_re_get_prio prio_map) = true ∧
      (∀ j, j < bnxt_re_get_prio prio_map → prio_map.testBit j = false) ∧
      (∀ i, prio_map.testBit i = true → bnxt_re_get_prio prio_map ≤ i)) ∧
    (prio_map = 0 → bnxt_re_get_prio prio_map = 8 ∧ bnxt_re_get_prio prio_map ≠ 0xFF) ∧
    bnxt_re_get_prio prio_map ≤ 8 ∧
    (∀ fuel, 8 ≤ fuel → bnxt_re_get_prio_for prio_map fuel 0 = bnxt_re_get_prio prio_map) := by
  obtain ⟨_, hle, hset, hclear⟩ := get_prio_for_spec prio_map 8 0 (by omega) (by omega)
  have hzero : prio_map = 0 → bnxt_re_get_prio prio_map = 8 := by
    intro h0
    subst h0
    rfl
  refine ⟨?_, fun h0 => ⟨hzero h0, by rw [hzero h0]; decide⟩, hle, ?_⟩
  · intro hne
    have hlt : bnxt_re_get_prio prio_map < 8 := by
      by_contra hge
      have heq : bnxt_re_get_prio_for prio_map 8 0 = 8 := by
        have : ¬ bnxt_re_get_prio_for prio_map 8 0 < 8 := hge
        omega
      obtain ⟨i, hi⟩ := Nat.ne_zero_implies_bit_true hne
      have hi8 : i < 8 := by
        by_contra hge8
        have := Nat.testBit_lt_two_pow (Nat.lt_of_lt_of_le h8
          (Nat.pow_le_pow_right (by omega) (not_lt.mp hge8)))
        rw [this] at hi
        cases hi
      have := hclear i (by omega) (by rw [heq]; exact hi8)
      rw [this] at hi
      cases hi
    refine ⟨hlt, hset hlt, fun j hj => hclear j (by omega) hj, ?_⟩
    intro i hi
    by_contra hlt2
    have := hclear i (by omega) (not_le.mp hlt2)
    rw [this] at hi
    cases hi
  · intro fuel hfuel
    obtain ⟨_, hle2, hset2, hclear2⟩ := get_prio_for_spec prio_map fuel 0 (by omega) (by omega)
    show bnxt_re_get_prio_for prio_map fuel 0 = bnxt_re_get_prio_for prio_map 8 0
    rcases Nat.lt_trichotomy (bnxt_re_get_prio_for prio_map fuel 0)
      (bnxt_re_get_prio_for prio_map 8 0) with h | h | h
    · have h1 := hset2 (by omega)
      have h2 := hclear _ (by omega) h
      rw [h2] at h1
      cases h1
    · exact h
    · have h1 := hset (by omega)
      have h2 := hclear2 _ (by omega) h
      rw [h2] at h1
      cases h1

/-- C24, evaluated: the map 0x28 (bits 3 and 5) gives priority 3, the empty map gives 8 and the full
map gives at most 8. -/
theorem get_prio_spec_witness :
    bnxt_re_get_prio 0x28 = 3 ∧ bnxt_re_get_prio 0 = 8 ∧ bnxt_re_get_prio 0xff ≤ 8 := by
  refine ⟨?_, ((get_prio_spec 0 (by decide)).2.1 rfl).1, (get_prio_spec 0xff (by decide)).2.2.1⟩
  obtain ⟨_, h2, _, h4⟩ := (get_prio_spec 0x28 (by decide)).1 (by decide)
  have hle := h4 3 (by decide)
  generalize bnxt_re_get_prio 0x28 = r at h2 hle
  interval_cases r
  · exact absurd h2 (by decide)
  · exact absurd h2 (by decide)
  · exact absurd h2 (by decide)
  · rfl

/-! ## Claims about the per-QP info file -/

/-- C25: `bnxt_re_qp_info_qp_read` rejects bad requests in a fixed order.  It
returns `-ENOSPC` whenever `usr_buf_len` is below
`BNXT_RE_DEBUGFS_QP_INFO_MAX_SIZE`, whatever `qp_data` and `*ppos` are;
otherwise `-ENOMEM` when `qp_data` is `NULL`; otherwise 0 when `*ppos` is at
least `BNXT_RE_DEBUGFS_QP_INFO_MAX_SIZE`.  In these three cases no firmware QP
query is issued and the QP, `qp_data` included, and `*ppos` are as before. -/
theorem qp_read_rejects (e : qp_info_env) (qp : bnxt_re_qp) (usr_buf_len : Nat) (ppos : Int) :
    (usr_buf_len < e.BNXT_RE_DEBUGFS_QP_INFO_MAX_SIZE →
      bnxt_re_qp_info_qp_read e qp usr_buf_len ppos = some ⟨-ENOSPC, qp, ppos, 0⟩) ∧
    (e.BNXT_RE_DEBUGFS_QP_INFO_MAX_SIZE ≤ usr_buf_len → qp.qp_data = none →
      bnxt_re_qp_info_qp_read e qp usr_buf_len ppos = some ⟨-ENOMEM, qp, ppos, 0⟩) ∧
    (e.BNXT_RE_DEBUGFS_QP_INFO_MAX_SIZE ≤ usr_buf_len → qp.qp_data ≠ none →
      (e.BNXT_RE_DEBUGFS_QP_INFO_MAX_SIZE : Int) ≤ ppos →
      bnxt_re_qp_info_qp_read e qp usr_buf_len ppos = some ⟨0, qp, ppos, 0⟩) ∧
    (usr_buf_len < e.BNXT_RE_DEBUGFS_QP_INFO_MAX_SIZE ∨ qp.qp_data = none ∨
        (e.BNXT_RE_DEBUGFS_QP_INFO_MAX_SIZE : Int) ≤ ppos →
      ∃ r, bnxt_re_qp_info_qp_read e qp usr_buf_len ppos = some r ∧
        r.qp_queries = 0 ∧ r.qp = qp ∧ r.qp.qp_data = qp.qp_data ∧ r.ppos = ppos ∧
        (r.rc = -ENOSPC ∨ r.rc = -ENOMEM ∨ r.rc = 0)) := by
  have h1 : usr_buf_len < e.BNXT_RE_DEBUGFS_QP_INFO_MAX_SIZE →
      bnxt_re_qp_info_qp_read e qp usr_buf_len ppos = some ⟨-ENOSPC, qp, ppos, 0⟩ := by
    intro h
    simp [bnxt_re_qp_info_qp_read, h]
  have h2 : e.BNXT_RE_DEBUGFS_QP_INFO_MAX_SIZE ≤ usr_buf_len → qp.qp_data = none →
      bnxt_re_qp_info_qp_read e qp usr_buf_len ppos = some ⟨-ENOMEM, qp, ppos, 0⟩ := by
    intro h hd
    simp [bnxt_re_qp_info_qp_read, not_lt.mpr h, hd]
  have h3 : e.BNXT_RE_DEBUGFS_QP_INFO_MAX_SIZE ≤ usr_buf_len → qp.qp_data ≠ none →
      (e.BNXT_RE_DEBUGFS_QP_INFO_MAX_SIZE : Int) ≤ ppos →
      bnxt_re_qp_info_qp_read e qp usr_buf_len ppos = some ⟨0, qp, ppos, 0⟩ := by
    intro h hd hp
    have hd2 : qp.qp_data.isNone = false := by
      cases hq : qp.qp_data
      · exact absurd hq hd
      · rfl
    simp [bnxt_re_qp_info_qp_read, not_lt.mpr h, hd2, hp]
  refine ⟨h1, h2, h3, ?_⟩
  intro h
  by_cases hlen : usr_buf_len < e.BNXT_RE_DEBUGFS_QP_INFO_MAX_SIZE
  · exact ⟨_, h1 hlen, rfl, rfl, rfl, rfl, Or.inl rfl⟩
  · by_cases hd : qp.qp_data = none
    · exact ⟨_, h2 (not_lt.mp hlen) hd, rfl, rfl, rfl, rfl, Or.inr (Or.inl rfl)⟩
    · rcases h with h | h | h
      · exact absurd h hlen
      · exact absurd h hd
      · exact ⟨_, h3 (not_lt.mp hlen) hd h, rfl, rfl, rfl, rfl, Or.inr (Or.inr rfl)⟩

/-- C25, evaluated with a 512-byte limit: a 100-byte request is refused with -28
even without buffer and at position 600; a 512-byte request without buffer gets
-12; a 512-byte request at position 512 gets 0 and leaves the position. -/
theorem qp_read_rejects_witness :
    bnxt_re_qp_info_qp_read qp_info_env_ok qp_no_data 100 600 =
      some ⟨-28, qp_no_data, 600, 0⟩ ∧
    bnxt_re_qp_info_qp_read qp_info_env_ok qp_no_data 512 600 =
      some ⟨-12, qp_no_data, 600, 0⟩ ∧
    bnxt_re_qp_info_qp_read qp_info_env_ok qp_rc 512 512 = some ⟨0, qp_rc, 512, 0⟩ :=
  ⟨(qp_read_rejects qp_info_env_ok qp_no_data 100 600).1 (by decide),
   (qp_read_rejects qp_info_env_ok qp_no_data 512 600).2.1 (by decide) rfl,
   (qp_read_rejects qp_info_env_ok qp_rc 512 512).2.2.1 (by decide) (by decide) (by decide)⟩

theorem option_bind_isSome {α β : Type} (o : Option α) (f : α → Option β)
    (ho : o.isSome = true) (hf : ∀ a, (f a).isSome = true) : (o.bind f).isSome = true := by
  cases o with
  | none => cases ho
  | some a => exact hf a

/-- C26: with `IB_QPT_MAX = 11` and `IB_QPS_ERR = 6`, the name lookups of
`bnxt_re_fill_qp_info` stay inside their tables.  `qp_type_str` has 12 entries
and `qp_state_str` has 7.  For every 16-bit QP type, a type above 11 is rendered
as "IB_QPT_UNKNOWN" and any other type is below 12 and is rendered as its table
entry; for every 16-bit QP state, a state above 6 is rendered as
"IB_QPS_UNKNOWN" and any other state is below 7 and is rendered as its table
entry.  Hence `bnxt_re_fill_qp_info` and `bnxt_re_qp_info_qp_read` never read
outside a table. -/
theorem qp_name_lookups_in_bounds (e : qp_info_env) (hmax : e.IB_QPT_MAX = 11)
    (herr : e.IB_QPS_ERR = 6) :
    qp_type_str.length = 12 ∧ qp_state_str.length = 7 ∧
    (∀ type, type < 2 ^ 16 →
      (type > e.IB_QPT_MAX → qp_type_name e.IB_QPT_MAX type = some "IB_QPT_UNKNOWN") ∧
      (type ≤ e.IB_QPT_MAX → type < qp_type_str.length ∧
        qp_type_name e.IB_QPT_MAX type = qp_type_str[type]? ∧
        (qp_type_name e.IB_QPT_MAX type).isSome = true)) ∧
    (∀ state, state < 2 ^ 16 →
      (state > e.IB_QPS_ERR → qp_state_name e.IB_QPS_ERR state = some "IB_QPS_UNKNOWN") ∧
      (state ≤ e.IB_QPS_ERR → state < qp_state_str.length ∧
        qp_state_name e.IB_QPS_ERR state = qp_state_str[state]? ∧
        (qp_state_name e.IB_QPS_ERR state).isSome = true)) ∧
    (∀ qp, (bnxt_re_fill_qp_info e qp).isSome = true) ∧
    (∀ qp usr_buf_len ppos, (bnxt_re_qp_info_qp_read e qp usr_buf_len ppos).isSome = true) := by
  have htype : ∀ type, (qp_type_name e.IB_QPT_MAX type).isSome = true := by
    intro type
    rw [hmax]
    unfold qp_type_name
    split_ifs with h
    · rfl
    · have : type < 12 := by omega
      interval_cases type <;> rfl
  have hstate : ∀ state, (qp_state_name e.IB_QPS_ERR state).isSome = true := by
    intro state
    rw [herr]
    unfold qp_state_name
    split_ifs with h
    · rfl
    · have : state < 7 := by omega
      interval_cases state <;> rfl
  have hfill : ∀ qp, (bnxt_re_fill_qp_info e qp).isSome = true := by
    intro qp
    unfold bnxt_re_fill_qp_info
    cases hd : qp.qp_data with
    | none => rfl
    | some buf =>
      simp only
      split_ifs <;> first
        | rfl
        | (refine option_bind_isSome _ _ (htype _) (fun tn => ?_)
           refine option_bind_isSome _ _ (hstate _) (fun sn => ?_)
           rfl)
  refine ⟨rfl, rfl, ?_, ?_, hfill, ?_⟩
  · intro type _
    refine ⟨fun h => by simp [qp_type_name, h], fun h => ⟨?_, ?_, htype type⟩⟩
    · rw [hmax] at h
      show type < 12
      omega
    · simp [qp_type_name, not_lt.mpr h]
  · intro state _
    refine ⟨fun h => by simp [qp_state_name, h], fun h => ⟨?_, ?_, hstate state⟩⟩
    · rw [herr] at h
      show state < 7
      omega
    · simp [qp_state_name, not_lt.mpr h]
  · intro qp usr_buf_len ppos
    unfold bnxt_re_qp_info_qp_read
    split_ifs
    · rfl
    · rfl
    · rfl
    · obtain ⟨r, hr⟩ := Option.isSome_iff_exists.mp (hfill qp)
      rw [hr]
      rfl

/-- C26, evaluated: type 11 is rendered as the last table entry "IB_QPT_MAX",
type 12 and type 0xffff as "IB_QPT_UNKNOWN", state 6 as "IB_QPS_ERR" and state
7 as "IB_QPS_UNKNOWN"; a read of an RC queue pair in state RTS fills the buffer. -/
theorem qp_name_lookups_in_bounds_witness :
    qp_type_name 11 11 = some "IB_QPT_MAX" ∧
    qp_type_name 11 12 = some "IB_QPT_UNKNOWN" ∧
    qp_type_name 11 0xffff = some "IB_QPT_UNKNOWN" ∧
    qp_state_name 6 6 = some "IB_QPS_ERR" ∧
    qp_state_name 6 7 = some "IB_QPS_UNKNOWN" ∧
    (bnxt_re_fill_qp_info qp_info_env_ok qp_rc).isSome = true :=
  ⟨(((qp_name_lookups_in_bounds qp_info_env_ok rfl rfl).2.2.1 11 (by decide)).2
      (by decide)).2.1.trans (by decide),
   ((qp_name_lookups_in_bounds qp_info_env_ok rfl rfl).2.2.1 12 (by decide)).1 (by decide),
   ((qp_name_lookups_in_bounds qp_info_env_ok rfl rfl).2.2.1 0xffff (by decide)).1 (by decide),
   (((qp_name_lookups_in_bounds qp_info_env_ok rfl rfl).2.2.2.1 6 (by decide)).2
      (by decide)).2.1.trans (by decide),
   ((qp_name_lookups_in_bounds qp_info_env_ok rfl rfl).2.2.2.1 7 (by decide)).1 (by decide),
   (qp_name_lookups_in_bounds qp_info_env_ok rfl rfl).2.2.2.2.1 qp_rc⟩

/-! ## The totals of the performance statistics file -/

theorem count_positive_succ (stats : Nat → Nat) (n : Nat) :
    count_positive stats (n + 1) = count_positive stats n + (if stats n > 0 then 1 else 0) := by
  unfold count_positive
  rw [List.range_succ, List.filter_append, List.length_append]
  by_cases h : stats n > 0 <;> simp [h]

theorem sum_positive_succ (stats : Nat → Nat) (n : Nat) :
    sum_positive stats (n + 1) =
      sum_positive stats n + (if stats n > 0 then stats n else 0) := by
  unfold sum_positive
  rw [List.range_succ, List.filter_append, List.map_append, List.sum_append]
  by_cases h : stats n > 0 <;> simp [h]

theorem count_positive_le (stats : Nat → Nat) (n : Nat) : count_positive stats n ≤ n := by
  unfold count_positive
  calc ((List.range n).filter _).length ≤ (List.range n).length := List.length_filter_le _ _
    _ = n := List.length_range n

theorem perf_lines_succ (rdev : bnxt_re_dev_ext) (n : Nat) :
    ((List.range (n + 1)).filter (perf_index_active rdev)).map (perf_index_line rdev) =
      ((List.range n).filter (perf_index_active rdev)).map (perf_index_line rdev) ++
        (if perf_index_active rdev n = true then [perf_index_line rdev n] else []) := by
  rw [List.range_succ, List.filter_append, List.map_append]
  by_cases h : perf_index_active rdev n = true <;> simp [h]

/-- One iteration of the statistics loop of `bnxt_re_perf_debugfs_show`, entered
with `add_entry` clear, in closed form. -/
theorem perf_show_stat_body_eq (rdev : bnxt_re_dev_ext) (i : Nat) (a : perf_show_acc)
    (hadd : a.add_entry = false) :
    perf_show_stat_body rdev i a =
      { qp_create_total :=
          a.qp_create_total + (if rdev.rcfw.qp_create_stats i > 0 then 1 else 0)
        qp_destroy_total :=
          a.qp_destroy_total + (if rdev.rcfw.qp_destroy_stats i > 0 then 1 else 0)
        mr_create_total :=
          a.mr_create_total + (if rdev.rcfw.mr_create_stats i > 0 then 1 else 0)
        mr_destroy_total :=
          a.mr_destroy_total + (if rdev.rcfw.mr_destroy_stats i > 0 then 1 else 0)
        qp_modify_err_total :=
          a.qp_modify_err_total + (if rdev.rcfw.qp_modify_stats i > 0 then 1 else 0)
        qp_create_total_msec :=
          if rdev.rcfw.qp_create_stats i > 0 then
            u64_add a.qp_create_total_msec (rdev.rcfw.qp_create_stats i)
          else a.qp_create_total_msec
        qp_destroy_total_msec :=
          if rdev.rcfw.qp_destroy_stats i > 0 then
            u64_add a.qp_destroy_total_msec (rdev.rcfw.qp_destroy_stats i)
          else a.qp_destroy_total_msec
        mr_create_total_msec :=
          if rdev.rcfw.mr_create_stats i > 0 then
            u64_add a.mr_create_total_msec (rdev.rcfw.mr_create_stats i)
          else a.mr_create_total_msec
        mr_destroy_total_msec :=
          if rdev.rcfw.mr_destroy_stats i > 0 then
            u64_add a.mr_destroy_total_msec (rdev.rcfw.mr_destroy_stats i)
          else a.mr_destroy_total_msec
        qp_modify_err_total_msec :=
          if rdev.rcfw.qp_modify_stats i > 0 then
            u64_add a.qp_modify_err_total_msec (rdev.rcfw.qp_modify_stats i)
          else a.qp_modify_err_total_msec
        add_entry := false
        s := a.s ++ (if perf_index_active rdev i = true then [perf_index_line rdev i] else []) } := by
  obtain ⟨t1, t2, t3, t4, t5, m1, m2, m3, m4, m5, add, s⟩ := a
  simp only at hadd
  subst hadd
  unfold perf_show_stat_body perf_index_active perf_index_line seq_printf
  by_cases h1 : rdev.rcfw.qp_create_stats i > 0 <;>
  by_cases h2 : rdev.rcfw.qp_destroy_stats i > 0 <;>
  by_cases h3 : rdev.rcfw.mr_create_stats i > 0 <;>
  by_cases h4 : rdev.rcfw.mr_destroy_stats i > 0 <;>
  by_cases h5 : rdev.rcfw.qp_modify_stats i > 0 <;>
  simp [h1, h2, h3, h4, h5]

theorem u64_add_mod_pos (S x : Nat) : u64_add (S % 2 ^ 64) x = (S + x) % 2 ^ 64 := by
  unfold u64_add
  omega

/-- The statistics loop of `bnxt_re_perf_debugfs_show` after `n` iterations. -/
theorem perf_show_stat_loop (rdev : bnxt_re_dev_ext) (s : seq_file) (n : Nat) :
    for_range n (perf_show_stat_body rdev) ⟨0, 0, 0, 0, 0, 0, 0, 0, 0, 0, false, s⟩ =
      { qp_create_total := (count_positive rdev.rcfw.qp_create_stats n : Nat)
        qp_destroy_total := (count_positive rdev.rcfw.qp_destroy_stats n : Nat)
        mr_create_total := (count_positive rdev.rcfw.mr_create_stats n : Nat)
        mr_destroy_total := (count_positive rdev.rcfw.mr_destroy_stats n : Nat)
        qp_modify_err_total := (count_positive rdev.rcfw.qp_modify_stats n : Nat)
        qp_create_total_msec := sum_positive rdev.rcfw.qp_create_stats n % 2 ^ 64
        qp_destroy_total_msec := sum_positive rdev.rcfw.qp_destroy_stats n % 2 ^ 64
        mr_create_total_msec := sum_positive rdev.rcfw.mr_create_stats n % 2 ^ 64
        mr_destroy_total_msec := sum_positive rdev.rcfw.mr_destroy_stats n % 2 ^ 64
        qp_modify_err_total_msec := sum_positive rdev.rcfw.qp_modify_stats n % 2 ^ 64
        add_entry := false
        s := s ++ ((List.range n).filter (perf_index_active rdev)).map (perf_index_line rdev) } := by
  induction n with
  | zero =>
    rw [for_range_zero]
    simp [count_positive, sum_positive]
  | succ n ih =>
    rw [for_range_succ, ih, perf_show_stat_body_eq _ _ _ rfl]
    simp only [count_positive_succ, sum_positive_succ, perf_lines_succ, u64_add_mod_pos,
      List.append_assoc]
    congr 1
    · split_ifs <;> simp
    · split_ifs <;> simp
    · split_ifs <;> simp
    · split_ifs <;> simp
    · split_ifs <;> simp
    · split_ifs <;> simp
    · split_ifs <;> simp
    · split_ifs <;> simp
    · split_ifs <;> simp
    · split_ifs <;> simp

theorem count_positive_zero (stats : Nat → Nat) (n : Nat) (h : ∀ i, i < n → stats i = 0) :
    count_positive stats n = 0 := by
  induction n with
  | zero => rfl
  | succ n ih =>
    rw [count_positive_succ, ih (fun i hi => h i (by omega)), h n (by omega)]
    rfl

theorem sum_positive_zero (stats : Nat → Nat) (n : Nat) (h : ∀ i, i < n → stats i = 0) :
    sum_positive stats n = 0 := by
  induction n with
  | zero => rfl
  | succ n ih =>
    rw [sum_positive_succ, ih (fun i hi => h i (by omega)), h n (by omega)]
    rfl

theorem perf_lines_nil (rdev : bnxt_re_dev_ext) (n : Nat)
    (h : ∀ i, i < n → perf_index_active rdev i = false) :
    ((List.range n).filter (perf_index_active rdev)).map (perf_index_line rdev) = [] := by
  induction n with
  | zero => rfl
  | succ n ih =>
    rw [perf_lines_succ, ih (fun i hi => h i (by omega)), h n (by omega)]
    rfl

theorem perf_show_lat_loop_zero (rdev : bnxt_re_dev_ext) (s : seq_file) (n : Nat)
    (h : ∀ i, i < n → rdev.rcfw.rcfw_lat_slab_msec i = 0) :
    for_range n (perf_show_lat_body rdev) s = s := by
  induction n with
  | zero => exact for_range_zero _ _
  | succ n ih =>
    rw [for_range_succ, ih (fun i hi => h i (by omega))]
    simp [perf_show_lat_body, h n (by omega)]

/-- `bnxt_re_perf_debugfs_show` on a valid device with performance statistics
enabled, in closed form. -/
theorem perf_show_of_enabled (q : show_env) (k : kernel_state) (rdev_ptr : Nat)
    (rdev : bnxt_re_dev_ext) (s : seq_file) (hvalid : rdev_ptr ∈ k.bnxt_re_dev_list)
    (hen : rdev.rcfw.sp_perf_stats_enabled = true) :
    bnxt_re_perf_debugfs_show q k rdev_ptr rdev s =
      ⟨0,
       for_range q.RCFW_MAX_LATENCY_MSEC_SLAB_INDEX (perf_show_lat_body rdev)
          (s ++ [⟨"bnxt_re perf stats: %s shadow qd %d Driver Version - %s\n",
            [.str "Enabled", .d rdev.rcfw_dbg.curr_shadow_qd, .str ROCE_DRV_MODULE_VERSION]⟩]) ++
        ((List.range q.RCFW_MAX_STAT_INDEX).filter (perf_index_active rdev)).map
          (perf_index_line rdev) ++
        [⟨"Total qp_create %d in msec %lld\n",
            [.d (count_positive rdev.rcfw.qp_create_stats q.RCFW_MAX_STAT_INDEX : Nat),
             .u (sum_positive rdev.rcfw.qp_create_stats q.RCFW_MAX_STAT_INDEX % 2 ^ 64)]⟩,
         ⟨"Total qp_destroy %d in msec %lld\n",
            [.d (count_positive rdev.rcfw.qp_destroy_stats q.RCFW_MAX_STAT_INDEX : Nat),
             .u (sum_positive rdev.rcfw.qp_destroy_stats q.RCFW_MAX_STAT_INDEX % 2 ^ 64)]⟩,
         ⟨"Total mr_create %d in msec %lld\n",
            [.d (count_positive rdev.rcfw.mr_create_stats q.RCFW_MAX_STAT_INDEX : Nat),
             .u (sum_positive rdev.rcfw.mr_create_stats q.RCFW_MAX_STAT_INDEX % 2 ^ 64)]⟩,
         ⟨"Total mr_destroy %d in msec %lld\n",
            [.d (count_positive rdev.rcfw.mr_destroy_stats q.RCFW_MAX_STAT_INDEX : Nat),
             .u (sum_positive rdev.rcfw.mr_destroy_stats q.RCFW_MAX_STAT_INDEX % 2 ^ 64)]⟩,
         ⟨"Total qp_modify_err_total %d in msec %lld\n",
            [.d (count_positive rdev.rcfw.qp_modify_stats q.RCFW_MAX_STAT_INDEX : Nat),
             .u (sum_positive rdev.rcfw.qp_modify_stats q.RCFW_MAX_STAT_INDEX % 2 ^ 64)]⟩,
         ⟨"\n", []⟩],
       rdev, 0, []⟩ := by
  have hf : rdev_list_find rdev_ptr k.bnxt_re_dev_list = true :=
    (rdev_list_find_iff rdev_ptr _).mpr hvalid
  simp only [bnxt_re_perf_debugfs_show, bnxt_re_is_rdev_valid, hf, hen, Bool.not_true,
    Bool.false_eq_true, if_false, if_true, perf_show_stat_loop, seq_printf, seq_puts,
    List.append_assoc, List.singleton_append, List.cons_append, List.nil_append]

/-- After `bnxt_re_perf_debugfs_clear` on a device with performance statistics
enabled, the statistics stay enabled, the entries below the bounds are 0 and
the members outside `rdev->rcfw` statistics are as before. -/
theorem perf_clear_ext_spec (q : show_env) (rdev : bnxt_re_dev_ext) (u : List Nat) (size : Nat)
    (off : Int) (hen : rdev.rcfw.sp_perf_stats_enabled = true) :
    (perf_clear_ext q rdev u size off).rcfw.sp_perf_stats_enabled = true ∧
    (perf_clear_ext q rdev u size off).rcfw_dbg = rdev.rcfw_dbg ∧
    (∀ i, i < q.RCFW_MAX_STAT_INDEX →
      (perf_clear_ext q rdev u size off).rcfw.qp_create_stats i = 0 ∧
      (perf_clear_ext q rdev u size off).rcfw.qp_destroy_stats i = 0 ∧
      (perf_clear_ext q rdev u size off).rcfw.mr_create_stats i = 0 ∧
      (perf_clear_ext q rdev u size off).rcfw.mr_destroy_stats i = 0 ∧
      (perf_clear_ext q rdev u size off).rcfw.qp_modify_stats i = 0) ∧
    (∀ i, i < q.RCFW_MAX_LATENCY_MSEC_SLAB_INDEX →
      (perf_clear_ext q rdev u size off).rcfw.rcfw_lat_slab_msec i = 0) := by
  have hrcfw : (perf_clear_ext q rdev u size off).rcfw =
      (bnxt_re_perf_debugfs_clear q.RCFW_MAX_STAT_INDEX q.RCFW_MAX_LATENCY_MSEC_SLAB_INDEX
        rdev.tobnxt_re_dev u size off).1.rcfw := rfl
  rw [hrcfw, perf_clear_of_enabled _ _ _ u size off hen]
  refine ⟨hen, rfl, ?_, ?_⟩
  · intro i hi
    simp [hi]
  · intro i hi
    simp [hi]

/-- C27: for a valid device with `sp_perf_stats_enabled` set,
`bnxt_re_perf_debugfs_show` returns 0 and its output is: what precedes the
statistics loop (header and latency slabs); then one per-index line for exactly
the indices below `RCFW_MAX_STAT_INDEX` at which at least one of the five arrays
has an entry `> 0`, in increasing order; then the five "Total" lines, each with
the number of indices below `RCFW_MAX_STAT_INDEX` whose entry is `> 0` and the
sum of those entries in `u64`, which is the sum itself when that is below 2^64;
then an empty line.  The counts fit the `int` counters.  Directly after
`bnxt_re_perf_debugfs_clear` the output is the header followed by the five
"Total" lines with 0 and 0, without any per-index line. -/
theorem perf_show_totals (q : show_env) (k : kernel_state) (rdev_ptr : Nat)
    (rdev : bnxt_re_dev_ext) (s : seq_file) (hvalid : rdev_ptr ∈ k.bnxt_re_dev_list)
    (hen : rdev.rcfw.sp_perf_stats_enabled = true) (hN : q.RCFW_MAX_STAT_INDEX < 2 ^ 31) :
    (bnxt_re_perf_debugfs_show q k rdev_ptr rdev s).rc = 0 ∧
    (bnxt_re_perf_debugfs_show q k rdev_ptr rdev s).s =
      for_range q.RCFW_MAX_LATENCY_MSEC_SLAB_INDEX (perf_show_lat_body rdev)
          (s ++ [⟨"bnxt_re perf stats: %s shadow qd %d Driver Version - %s\n",
            [.str "Enabled", .d rdev.rcfw_dbg.curr_shadow_qd, .str ROCE_DRV_MODULE_VERSION]⟩]) ++
        ((List.range q.RCFW_MAX_STAT_INDEX).filter (perf_index_active rdev)).map
          (perf_index_line rdev) ++
        [⟨"Total qp_create %d in msec %lld\n",
            [.d (count_positive rdev.rcfw.qp_create_stats q.RCFW_MAX_STAT_INDEX : Nat),
             .u (sum_positive rdev.rcfw.qp_create_stats q.RCFW_MAX_STAT_INDEX % 2 ^ 64)]⟩,
         ⟨"Total qp_destroy %d in msec %lld\n",
            [.d (count_positive rdev.rcfw.qp_destroy_stats q.RCFW_MAX_STAT_INDEX : Nat),
             .u (sum_positive rdev.rcfw.qp_destroy_stats q.RCFW_MAX_STAT_INDEX % 2 ^ 64)]⟩,
         ⟨"Total mr_create %d in msec %lld\n",
            [.d (count_positive rdev.rcfw.mr_create_stats q.RCFW_MAX_STAT_INDEX : Nat),
             .u (sum_positive rdev.rcfw.mr_create_stats q.RCFW_MAX_STAT_INDEX % 2 ^ 64)]⟩,
         ⟨"Total mr_destroy %d in msec %lld\n",
            [.d (count_positive rdev.rcfw.mr_destroy_stats q.RCFW_MAX_STAT_INDEX : Nat),
             .u (sum_positive rdev.rcfw.mr_destroy_stats q.RCFW_MAX_STAT_INDEX % 2 ^ 64)]⟩,
         ⟨"Total qp_modify_err_total %d in msec %lld\n",
            [.d (count_positive rdev.rcfw.qp_modify_stats q.RCFW_MAX_STAT_INDEX : Nat),
             .u (sum_positive rdev.rcfw.qp_modify_stats q.RCFW_MAX_STAT_INDEX % 2 ^ 64)]⟩,
         ⟨"\n", []⟩] ∧
    (∀ i, perf_index_active rdev i = true ↔
      (rdev.rcfw.qp_create_stats i > 0 ∨ rdev.rcfw.qp_destroy_stats i > 0 ∨
        rdev.rcfw.mr_create_stats i > 0 ∨ rdev.rcfw.mr_destroy_stats i > 0 ∨
        rdev.rcfw.qp_modify_stats i > 0)) ∧
    (∀ stats : Nat → Nat, count_positive stats q.RCFW_MAX_STAT_INDEX < 2 ^ 31) ∧
    (∀ stats : Nat → Nat, sum_positive stats q.RCFW_MAX_STAT_INDEX < 2 ^ 64 →
      sum_positive stats q.RCFW_MAX_STAT_INDEX % 2 ^ 64 =
        sum_positive stats q.RCFW_MAX_STAT_INDEX) ∧
    (∀ (u : List Nat) (size : Nat) (off : Int),
      (bnxt_re_perf_debugfs_show q k rdev_ptr (perf_clear_ext q rdev u size off) s).rc = 0 ∧
      (bnxt_re_perf_debugfs_show q k rdev_ptr (perf_clear_ext q rdev u size off) s).s =
        s ++ [⟨"bnxt_re perf stats: %s shadow qd %d Driver Version - %s\n",
            [.str "Enabled", .d rdev.rcfw_dbg.curr_shadow_qd, .str ROCE_DRV_MODULE_VERSION]⟩,
          ⟨"Total qp_create %d in msec %lld\n", [.d 0, .u 0]⟩,
          ⟨"Total qp_destroy %d in msec %lld\n", [.d 0, .u 0]⟩,
          ⟨"Total mr_create %d in msec %lld\n", [.d 0, .u 0]⟩,
          ⟨"Total mr_destroy %d in msec %lld\n", [.d 0, .u 0]⟩,
          ⟨"Total qp_modify_err_total %d in msec %lld\n", [.d 0, .u 0]⟩,
          ⟨"\n", []⟩]) := by
  refine ⟨?_, ?_, ?_, ?_, ?_, ?_⟩
  · rw [perf_show_of_enabled q k rdev_ptr rdev s hvalid hen]
  · rw [perf_show_of_enabled q k rdev_ptr rdev s hvalid hen]
  · intro i
    simp only [perf_index_active, Bool.or_eq_true, decide_eq_true_eq]
    tauto
  · intro stats
    exact lt_of_le_of_lt (count_positive_le stats _) hN
  · intro stats h
    exact Nat.mod_eq_of_lt h
  · intro u size off
    obtain ⟨hen2, hdbg, hstat, hlat⟩ := perf_clear_ext_spec q rdev u size off hen
    rw [perf_show_of_enabled q k rdev_ptr _ s hvalid hen2]
    refine ⟨rfl, ?_⟩
    show _ ++ _ ++ _ = _
    rw [perf_show_lat_loop_zero _ _ _ hlat,
      perf_lines_nil _ _ (fun i hi => by
        obtain ⟨h1, h2, h3, h4, h5⟩ := hstat i hi
        simp [perf_index_active, h1, h2, h3, h4, h5]),
      count_positive_zero _ _ (fun i hi => (hstat i hi).1),
      count_positive_zero _ _ (fun i hi => (hstat i hi).2.1),
      count_positive_zero _ _ (fun i hi => (hstat i hi).2.2.1),
      count_positive_zero _ _ (fun i hi => (hstat i hi).2.2.2.1),
      count_positive_zero _ _ (fun i hi => (hstat i hi).2.2.2.2),
      sum_positive_zero _ _ (fun i hi => (hstat i hi).1),
      sum_positive_zero _ _ (fun i hi => (hstat i hi).2.1),
      sum_positive_zero _ _ (fun i hi => (hstat i hi).2.2.1),
      sum_positive_zero _ _ (fun i hi => (hstat i hi).2.2.2.1),
      sum_positive_zero _ _ (fun i hi => (hstat i hi).2.2.2.2), hdbg]
    simp

/-- C27, evaluated with both bounds 2 on a device with `qp_create_stats` 1, 2 and
`qp_modify_stats` 7, 7: two per-index lines, totals 2 in 3 msec and 2 in 14
msec, 0 for the other three; after the clear only the header and five zero
totals remain. -/
theorem perf_show_totals_witness :
    (bnxt_re_perf_debugfs_show show_env_ok kernel_state_two_devs 1 rdev_ext_perf_enabled []).s =
      [⟨"bnxt_re perf stats: %s shadow qd %d Driver Version - %s\n",
          [.str "Enabled", .d 0, .str "229.0.139.0"]⟩,
       ⟨"\tlatency_slab [%d - %d] msec = %d\n", [.d 0, .d 1, .u 1]⟩,
       ⟨"\tlatency_slab [%d - %d] msec = %d\n", [.d 1, .d 2, .u 3]⟩,
       ⟨"<qp_create> %lld <qp_destroy> %lld <mr_create> %lld " ++
          "<mr_destroy> %lld <qp_modify_to_err> %lld\n", [.u 1, .u 0, .u 0, .u 0, .u 7]⟩,
       ⟨"<qp_create> %lld <qp_destroy> %lld <mr_create> %lld " ++
          "<mr_destroy> %lld <qp_modify_to_err> %lld\n", [.u 2, .u 0, .u 0, .u 0, .u 7]⟩,
       ⟨"Total qp_create %d in msec %lld\n", [.d 2, .u 3]⟩,
       ⟨"Total qp_destroy %d in msec %lld\n", [.d 0, .u 0]⟩,
       ⟨"Total mr_create %d in msec %lld\n", [.d 0, .u 0]⟩,
       ⟨"Total mr_destroy %d in msec %lld\n", [.d 0, .u 0]⟩,
       ⟨"Total qp_modify_err_total %d in msec %lld\n", [.d 2, .u 14]⟩,
       ⟨"\n", []⟩] ∧
    (bnxt_re_perf_debugfs_show show_env_ok kernel_state_two_devs 1
        (perf_clear_ext show_env_ok rdev_ext_perf_enabled [1] 1 0) []).s =
      [⟨"bnxt_re perf stats: %s shadow qd %d Driver Version - %s\n",
          [.str "Enabled", .d 0, .str "229.0.139.0"]⟩,
       ⟨"Total qp_create %d in msec %lld\n", [.d 0, .u 0]⟩,
       ⟨"Total qp_destroy %d in msec %lld\n", [.d 0, .u 0]⟩,
       ⟨"Total mr_create %d in msec %lld\n", [.d 0, .u 0]⟩,
       ⟨"Total mr_destroy %d in msec %lld\n", [.d 0, .u 0]⟩,
       ⟨"Total qp_modify_err_total %d in msec %lld\n", [.d 0, .u 0]⟩,
       ⟨"\n", []⟩] :=
  ⟨((perf_show_totals show_env_ok kernel_state_two_devs 1 rdev_ext_perf_enabled []
      (by decide) rfl (by decide)).2.1).trans (by decide),
   (((perf_show_totals show_env_ok kernel_state_two_devs 1 rdev_ext_perf_enabled []
      (by decide) rfl (by decide)).2.2.2.2.2 [1] 1 0).2).trans (by decide)⟩

/-! ## The statistics query of the info file -/

theorem bond_counters_rdev (q : show_env) (rdev : bnxt_re_dev_ext) (s : seq_file) :
    ∃ v, (bnxt_re_print_bond_counters q rdev s).2 =
      { rdev with dstat := { rdev.dstat with prev_oob := v } } := by
  cases hext : q.bnxt_ext_stats_supported rdev.chip_ctx rdev.dev_attr.dev_cap_flags
    rdev.is_virtfn
  · simp only [bnxt_re_print_bond_counters, hext, Bool.false_eq_true, if_false]
    exact ⟨_, rfl⟩
  · simp only [bnxt_re_print_bond_counters, hext, if_true]
    exact ⟨rdev.dstat.prev_oob, rfl⟩

/-- The rendering part of `bnxt_re_info_debugfs_show` changes at most `prev_oob`
in the device record, and it runs to its end when `dbr_sw_stats` is allocated or
neither pacing nor drop recovery is enabled. -/
theorem info_show_render_spec (q : show_env) (rdev : bnxt_re_dev_ext) (s : seq_file) :
    (∀ out, info_show_render q rdev s = some out →
      ∃ v, out.2 = { rdev with dstat := { rdev.dstat with prev_oob := v } }) ∧
    (rdev.dbr_sw_stats.isSome = true ∨ (rdev.dbr_pacing = false ∧ rdev.dbr_drop_recov = false) →
      (info_show_render q rdev s).isSome = true) := by
  unfold info_show_render
  simp only []
  generalize hX : (if rdev.binfo.isSome = true then bnxt_re_print_bond_counters q rdev _
    else (bnxt_re_print_normal_counters q rdev _, rdev)) = X
  have hX2 : ∃ v, X.2 = { rdev with dstat := { rdev.dstat with prev_oob := v } } := by
    rw [← hX]
    split_ifs
    · exact bond_counters_rdev q rdev _
    · exact ⟨rdev.dstat.prev_oob, rfl⟩
  obtain ⟨v, hv⟩ := hX2
  obtain ⟨s1, r1⟩ := X
  simp only at hv
  subst hv
  clear hX
  simp only []
  cases hp : rdev.dbr_pacing <;> cases hd : rdev.dbr_drop_recov <;>
    cases hs : rdev.dbr_sw_stats <;>
    simp only [Bool.false_eq_true, if_false, if_true, bind, Option.bind, pure,
      Option.some.injEq, Option.isSome, false_implies, implies_true, true_and, and_true,
      reduceCtorEq, and_self, or_self, or_true, true_or, or_false, false_or,
      and_false, imp_false, not_false_eq_true, not_true_eq_false] <;>
    (intro out hout; subst hout; exact ⟨v, rfl⟩)

/-- `bnxt_re_info_debugfs_show` on a valid device when the statistics query is
issued: the query runs once, `read_tstamp` is set and the file is rendered. -/
theorem info_show_of_query (q : show_env) (k : kernel_state) (rdev_ptr : Nat)
    (rdev : bnxt_re_dev_ext) (s : seq_file) (hvalid : rdev_ptr ∈ k.bnxt_re_dev_list)
    (hreg : test_bit BNXT_RE_FLAG_IBDEV_REGISTERED rdev.flags = true)
    (hnr : ¬ (k.restrict_stats ≠ 0 ∧
      ulong_sub k.jiffies rdev.read_tstamp < q.msecs_to_jiffies BNXT_RE_STATS_CTX_UPDATE_TIMER)) :
    bnxt_re_info_debugfs_show q k rdev_ptr rdev s =
      (info_show_render q { (q.bnxt_re_get_device_stats rdev).2 with read_tstamp := k.jiffies }
        (seq_printf s "bnxt_re debug info:\n" [])).map
        (fun out => ⟨(q.bnxt_re_get_device_stats rdev).1, out.1, out.2, 1,
          if (q.bnxt_re_get_device_stats rdev).1 ≠ 0 then ["Failed to query device stats\n"]
          else []⟩) := by
  have hf : rdev_list_find rdev_ptr k.bnxt_re_dev_list = true :=
    (rdev_list_find_iff rdev_ptr _).mpr hvalid
  have hc : (k.restrict_stats ≠ 0 && decide (ulong_sub k.jiffies rdev.read_tstamp <
      q.msecs_to_jiffies BNXT_RE_STATS_CTX_UPDATE_TIMER)) = false := by
    cases hb : (k.restrict_stats ≠ 0 && decide (ulong_sub k.jiffies rdev.read_tstamp <
      q.msecs_to_jiffies BNXT_RE_STATS_CTX_UPDATE_TIMER))
    · rfl
    · exfalso
      apply hnr
      simpa using hb
  simp only [bnxt_re_info_debugfs_show, bnxt_re_is_rdev_valid, hf, hreg, hc, Bool.not_true,
    Bool.false_eq_true, if_false, if_true]
  cases info_show_render q { (q.bnxt_re_get_device_stats rdev).2 with read_tstamp := k.jiffies }
    (seq_printf s "bnxt_re debug info:\n" []) <;> rfl

/-- `bnxt_re_info_debugfs_show` on a valid device when the statistics query is
skipped: the file is rendered from the device record as it is. -/
theorem info_show_of_no_query (q : show_env) (k : kernel_state) (rdev_ptr : Nat)
    (rdev : bnxt_re_dev_ext) (s : seq_file) (hvalid : rdev_ptr ∈ k.bnxt_re_dev_list)
    (hskip : ¬ (test_bit BNXT_RE_FLAG_IBDEV_REGISTERED rdev.flags = true ∧
      ¬ (k.restrict_stats ≠ 0 ∧
        ulong_sub k.jiffies rdev.read_tstamp <
          q.msecs_to_jiffies BNXT_RE_STATS_CTX_UPDATE_TIMER))) :
    bnxt_re_info_debugfs_show q k rdev_ptr rdev s =
      (info_show_render q rdev (seq_printf s "bnxt_re debug info:\n" [])).map
        (fun out => ⟨0, out.1, out.2, 0, []⟩) := by
  have hf : rdev_list_find rdev_ptr k.bnxt_re_dev_list = true :=
    (rdev_list_find_iff rdev_ptr _).mpr hvalid
  cases hreg : test_bit BNXT_RE_FLAG_IBDEV_REGISTERED rdev.flags
  · simp only [bnxt_re_info_debugfs_show, bnxt_re_is_rdev_valid, hf, hreg, Bool.not_true,
      Bool.false_eq_true, if_false]
    cases info_show_render q rdev (seq_printf s "bnxt_re debug info:\n" []) <;> rfl
  · have hc : (k.restrict_stats ≠ 0 && decide (ulong_sub k.jiffies rdev.read_tstamp <
        q.msecs_to_jiffies BNXT_RE_STATS_CTX_UPDATE_TIMER)) = true := by
      by_contra hb
      apply hskip
      refine ⟨hreg, fun hr => hb ?_⟩
      simpa using hr
    simp only [bnxt_re_info_debugfs_show, bnxt_re_is_rdev_valid, hf, hreg, hc, Bool.not_true,
      Bool.false_eq_true, if_false, if_true]
    cases info_show_render q rdev (seq_printf s "bnxt_re debug info:\n" []) <;> rfl

/-- C28: for a valid device, `bnxt_re_info_debugfs_show` issues the device
statistics query if and only if `BNXT_RE_FLAG_IBDEV_REGISTERED` is set and it is
not the case that `restrict_stats` is non-zero while `jiffies - read_tstamp` is
less than `msecs_to_jiffies(250)`.  When the query is issued, whatever it
returns, `read_tstamp` is `jiffies` afterwards; otherwise no query is issued and
`read_tstamp` is unchanged.  The handler returns when `dbr_sw_stats` is allocated
before and after the query. -/
theorem info_show_query_condition (q : show_env) (k : kernel_state) (rdev_ptr : Nat)
    (rdev : bnxt_re_dev_ext) (s : seq_file) (hvalid : rdev_ptr ∈ k.bnxt_re_dev_list) :
    BNXT_RE_STATS_CTX_UPDATE_TIMER = 250 ∧
    (∀ r, bnxt_re_info_debugfs_show q k rdev_ptr rdev s = some r →
      (r.stats_queries = 1 ↔
        (test_bit BNXT_RE_FLAG_IBDEV_REGISTERED rdev.flags = true ∧
          ¬ (k.restrict_stats ≠ 0 ∧
            ulong_sub k.jiffies rdev.read_tstamp <
              q.msecs_to_jiffies BNXT_RE_STATS_CTX_UPDATE_TIMER))) ∧
      (r.stats_queries = 1 → r.rdev.read_tstamp = k.jiffies ∧
        r.rc = (q.bnxt_re_get_device_stats rdev).1) ∧
      (r.stats_queries ≠ 1 → r.stats_queries = 0 ∧ r.rdev.read_tstamp = rdev.read_tstamp)) ∧
    (rdev.dbr_sw_stats.isSome = true →
      (q.bnxt_re_get_device_stats rdev).2.dbr_sw_stats.isSome = true →
      ∃ r, bnxt_re_info_debugfs_show q k rdev_ptr rdev s = some r) := by
  refine ⟨rfl, ?_, ?_⟩
  · intro r hr
    by_cases hissue : test_bit BNXT_RE_FLAG_IBDEV_REGISTERED rdev.flags = true ∧
        ¬ (k.restrict_stats ≠ 0 ∧
          ulong_sub k.jiffies rdev.read_tstamp <
            q.msecs_to_jiffies BNXT_RE_STATS_CTX_UPDATE_TIMER)
    · rw [info_show_of_query q k rdev_ptr rdev s hvalid hissue.1 hissue.2] at hr
      cases hrender : info_show_render q
          { (q.bnxt_re_get_device_stats rdev).2 with read_tstamp := k.jiffies }
          (seq_printf s "bnxt_re debug info:\n" []) with
      | none => rw [hrender] at hr; cases hr
      | some out =>
        rw [hrender] at hr
        obtain ⟨v, hv⟩ := (info_show_render_spec q _ _).1 out hrender
        cases hr
        refine ⟨⟨fun _ => hissue, fun _ => rfl⟩, fun _ => ⟨?_, rfl⟩, fun h => absurd rfl h⟩
        show out.2.read_tstamp = k.jiffies
        rw [hv]
    · rw [info_show_of_no_query q k rdev_ptr rdev s hvalid hissue] at hr
      cases hrender : info_show_render q rdev (seq_printf s "bnxt_re debug info:\n" []) with
      | none => rw [hrender] at hr; cases hr
      | some out =>
        rw [hrender] at hr
        obtain ⟨v, hv⟩ := (info_show_render_spec q _ _).1 out hrender
        cases hr
        refine ⟨⟨fun h => (by cases h), fun h => absurd h hissue⟩, fun h => (by cases h),
          fun _ => ⟨rfl, ?_⟩⟩
        show out.2.read_tstamp = rdev.read_tstamp
        rw [hv]
  · intro h1 h2
    by_cases hissue : test_bit BNXT_RE_FLAG_IBDEV_REGISTERED rdev.flags = true ∧
        ¬ (k.restrict_stats ≠ 0 ∧
          ulong_sub k.jiffies rdev.read_tstamp <
            q.msecs_to_jiffies BNXT_RE_STATS_CTX_UPDATE_TIMER)
    · rw [info_show_of_query q k rdev_ptr rdev s hvalid hissue.1 hissue.2]
      obtain ⟨out, hout⟩ := Option.isSome_iff_exists.mp
        ((info_show_render_spec q
          { (q.bnxt_re_get_device_stats rdev).2 with read_tstamp := k.jiffies }
          (seq_printf s "bnxt_re debug info:\n" [])).2 (Or.inl h2))
      rw [hout]
      exact ⟨_, rfl⟩
    · rw [info_show_of_no_query q k rdev_ptr rdev s hvalid hissue]
      obtain ⟨out, hout⟩ := Option.isSome_iff_exists.mp
        ((info_show_render_spec q rdev (seq_printf s "bnxt_re debug info:\n" [])).2
          (Or.inl h1))
      rw [hout]
      exact ⟨_, rfl⟩

/-- C28, evaluated at tick 5000 on a registered device whose counters were read
at tick 4900.  Without `restrict_stats` the query is issued, fails with -110 and
`read_tstamp` becomes 5000; with `restrict_stats` set the 100 ticks since the
last read are less than 250, no query is issued and `read_tstamp` stays 4900. -/
theorem info_show_query_condition_witness :
    (∃ r, bnxt_re_info_debugfs_show show_env_query_fails kernel_state_two_devs 1
        rdev_ext_recent [] = some r ∧
      r.stats_queries = 1 ∧ r.rdev.read_tstamp = 5000 ∧ r.rc = -110) ∧
    (∃ r, bnxt_re_info_debugfs_show show_env_ok kernel_state_restricted 1
        rdev_ext_recent [] = some r ∧
      r.stats_queries = 0 ∧ r.rdev.read_tstamp = 4900) := by
  constructor
  · obtain ⟨r, hr⟩ := (info_show_query_condition show_env_query_fails kernel_state_two_devs 1
      rdev_ext_recent [] (by decide)).2.2 rfl rfl
    obtain ⟨h1, h2, _⟩ := (info_show_query_condition show_env_query_fails
      kernel_state_two_devs 1 rdev_ext_recent [] (by decide)).2.1 r hr
    have hq : r.stats_queries = 1 := h1.mpr ⟨by decide, by decide⟩
    exact ⟨r, hr, hq, (h2 hq).1, (h2 hq).2⟩
  · obtain ⟨r, hr⟩ := (info_show_query_condition show_env_ok kernel_state_restricted 1
      rdev_ext_recent [] (by decide)).2.2 rfl rfl
    obtain ⟨h1, _, h3⟩ := (info_show_query_condition show_env_ok kernel_state_restricted 1
      rdev_ext_recent [] (by decide)).2.1 r hr
    have hq : r.stats_queries ≠ 1 := fun h => (h1.mp h).2 ⟨by decide, by decide⟩
    exact ⟨r, hr, (h3 hq).1, (h3 hq).2⟩

/-! ## Claims about the pacing constants -/

/-- C29: `BNXT_RE_PACING_DBQ_HIGH_WATERMARK`, which is also
`BNXT_RE_PACING_DBQ_THRESHOLD`, is 36, and 36 is the largest whole percentage of
the 0x2c00-entry (11264) doorbell FIFO that fits a 12-bit register field:
36 * 11264 / 100 ≤ 4095, 37 * 11264 / 100 > 4095, 4095 * 100 / 11264 = 36, and a
percentage fits exactly when it is at most 36. -/
theorem dbq_high_watermark_fits :
    BNXT_RE_PACING_DBQ_HIGH_WATERMARK = 36 ∧
    BNXT_RE_PACING_DBQ_THRESHOLD = BNXT_RE_PACING_DBQ_HIGH_WATERMARK ∧
    BNXT_RE_MAX_FIFO_DEPTH_P5 = 11264 ∧
    BNXT_RE_PACING_DBQ_HIGH_WATERMARK * BNXT_RE_MAX_FIFO_DEPTH_P5 / 100 ≤ 2 ^ 12 - 1 ∧
    (BNXT_RE_PACING_DBQ_HIGH_WATERMARK + 1) * BNXT_RE_MAX_FIFO_DEPTH_P5 / 100 > 2 ^ 12 - 1 ∧
    (2 ^ 12 - 1) * 100 / BNXT_RE_MAX_FIFO_DEPTH_P5 = BNXT_RE_PACING_DBQ_HIGH_WATERMARK ∧
    (∀ p, p * BNXT_RE_MAX_FIFO_DEPTH_P5 / 100 ≤ 4095 ↔
      p ≤ BNXT_RE_PACING_DBQ_HIGH_WATERMARK) := by
  refine ⟨rfl, rfl, rfl, by decide, by decide, by decide, ?_⟩
  intro p
  simp only [BNXT_RE_MAX_FIFO_DEPTH_P5, BNXT_RE_PACING_DBQ_HIGH_WATERMARK]
  omega

/-- C30: `BNXT_RE_DBR_DO_PACING_NO_CONGESTION` is 0x7F and
`BNXT_RE_MAX_DBR_DO_PACING` is 0xFFFF; the default is 1 in 512 of the do-pacing
scale, (0x7F + 1) * 512 = 0xFFFF + 1, and it is strictly below the maximum. -/
theorem do_pacing_no_congestion_scale :
    BNXT_RE_DBR_DO_PACING_NO_CONGESTION = 0x7F ∧
    BNXT_RE_MAX_DBR_DO_PACING = 0xFFFF ∧
    (BNXT_RE_DBR_DO_PACING_NO_CONGESTION + 1) * 512 = BNXT_RE_MAX_DBR_DO_PACING + 1 ∧
    BNXT_RE_DBR_DO_PACING_NO_CONGESTION < BNXT_RE_MAX_DBR_DO_PACING := by
  refine ⟨rfl, rfl, by decide, by decide⟩

end BnxtRe
